import Mathlib

/-!
Verification development for the XKR-Discord-Encrypter repository.

The repository is a browser extension that overlays symmetric encryption on a
chat web page.  Its core lives in inject.js (passphrase derivation, the
encrypt/decrypt codec built on the bundled CryptoJS AES, the scan-and-transform
decrypt pass, the content classifier and the outbound keydown interceptor) and
in the popup script (key configuration, i.e. loadKeys / setKeys).

This file gives a shallow embedding of that code in Lean:

* JavaScript strings are modelled as Lean `String` / `List Char`.  The
  JavaScript string operations used by the source (`replace` with a string
  pattern, `includes`, `split`, `substring`) are reimplemented below with the
  same semantics (first-occurrence replacement, substring containment, ...).
* JavaScript 32-bit integer arithmetic is modelled on `Nat` with explicit
  `% 2 ^ 32` at the points where the source coerces with `>>> 0` or `| 0`.
* Byte sequences (the CryptoJS `WordArray` values, which semantically are a
  big-endian byte stream of `sigBytes` bytes) are modelled as `List Nat`
  with every element `< 256`.
* Randomness (the 8-byte cipher salt produced by `WordArray.random`) is an
  explicit parameter.
* DOM state touched by the code (the message nodes read and rewritten by
  `decryptMessages`, the text input value, the `className` additions, the
  `preventDefault` flag of a key event, the key/value extension storage) is
  passed explicitly; `try`/`catch` around the cipher becomes `Except`.
-/

namespace XKR

/-! ## JavaScript string primitives

`jsReplaceFirst` models `String.prototype.replace` with a *string* pattern
(which replaces only the first occurrence and, for the replacement strings
used in this repository, has no `$`-escapes).  `jsIncludes` models
`String.prototype.includes`.  `jsIndex` models reading `arr[i]` on an array of
strings and then using the result in string concatenation, where a missing
element (`undefined`) stringifies to `"undefined"`. -/

def replFirstL (pat rep : List Char) : List Char → List Char
  | [] => if pat.isEmpty then rep else []
  | c :: rest =>
    if pat.isPrefixOf (c :: rest) then rep ++ (c :: rest).drop pat.length
    else c :: replFirstL pat rep rest

def jsReplaceFirst (s pat rep : String) : String :=
  ⟨replFirstL pat.data rep.data s.data⟩

def hasSubstrL (pat : List Char) : List Char → Bool
  | [] => pat.isEmpty
  | c :: rest => pat.isPrefixOf (c :: rest) || hasSubstrL pat rest

def jsIncludes (s pat : String) : Bool :=
  hasSubstrL pat.data s.data

def jsIndex (l : List String) (i : Nat) : String :=
  (l.get? i).getD "undefined"

/-- `String.prototype.split` with a non-empty string separator: cut at every
occurrence of the separator, scanning left to right.  `racc` is the current
token reversed; an occurrence is recognised when the reversed separator is a
prefix of the reversed token, i.e. at its earliest end position, which for a
fixed-length separator is also its earliest start position.  (Structural
recursion, so that it evaluates inside the kernel.) -/
def jsSplitGo (rsep : List Char) : List Char → List Char → List (List Char)
  | racc, [] => [racc.reverse]
  | racc, c :: rest =>
    if rsep.isPrefixOf (c :: racc) then
      ((c :: racc).drop rsep.length).reverse :: jsSplitGo rsep [] rest
    else jsSplitGo rsep (c :: racc) rest

/-- `s.split(sep)`; an empty separator splits into single characters. -/
def jsSplit (s sep : String) : List String :=
  match sep.data with
  | [] => s.data.map (fun c => ⟨[c]⟩)
  | s0 :: srest => (jsSplitGo (s0 :: srest).reverse [] s.data).map (fun l => ⟨l⟩)

/-- The index of the first occurrence of `pat` in a character list (the
position at which `String.prototype.replace` with a string pattern
substitutes).  Specification-side companion of `replFirstL`. -/
def firstOccIdxL (pat : List Char) : List Char → Option Nat
  | [] => if pat.isEmpty then some 0 else none
  | c :: rest =>
    if pat.isPrefixOf (c :: rest) then some 0
    else (firstOccIdxL pat rest).map (· + 1)

/-! ## Scope identifiers (inject.js `setPassphrase`, popup `loadKeys`/`setKeys`)

Both inject.js (lines 419-423) and the popup script (loadKeys, lines 66-69)
compute, from the full page location:

    url = href.replace('https://','');
    urlarr = url.split("/");
    serverurl = urlarr[0] + "/" + urlarr[1] + "/" + urlarr[2];
    channelurl = url;

The two computations are embedded separately (one definition per source file)
so that their agreement is a theorem, not a definition. -/

def injectStrippedUrl (href : String) : String :=
  jsReplaceFirst href "https://" ""

def injectServerUrl (href : String) : String :=
  let url := injectStrippedUrl href
  let urlarr := jsSplit url "/"
  jsIndex urlarr 0 ++ "/" ++ jsIndex urlarr 1 ++ "/" ++ jsIndex urlarr 2

def injectChannelUrl (href : String) : String :=
  injectStrippedUrl href

def popupStrippedUrl (tabUrl : String) : String :=
  jsReplaceFirst tabUrl "https://" ""

def popupServerUrl (tabUrl : String) : String :=
  let url := popupStrippedUrl tabUrl
  let urlarr := jsSplit url "/"
  jsIndex urlarr 0 ++ "/" ++ jsIndex urlarr 1 ++ "/" ++ jsIndex urlarr 2

def popupChannelUrl (tabUrl : String) : String :=
  popupStrippedUrl tabUrl

/-- Joining path segments with `/`. -/
def joinSlash : List String → String
  | [] => ""
  | [a] => a
  | a :: b :: rest => a ++ "/" ++ joinSlash (b :: rest)

/-- The first three path segments of a location, joined with `/`: the
broad-scope identifier as the specification describes it.  Used to compare the
source computation against the words of the spec when the location actually
has at least three segments. -/
def firstThreeSegments (strippedUrl : String) : String :=
  joinSlash ((jsSplit strippedUrl "/").take 3)

/-! ## Key configuration (`setKeys`, popup script lines 117-136)

`setKeys` reads the two text inputs, strips every whitespace character
(`replace(/\s/g, '')` — a *global* replace), validates lengths and writes to
the extension storage.  The model returns the storage writes (in order), the
`alert` messages raised, and the final contents of the `info` element. -/

/-- Characters matched by the JavaScript regular expression class `\\s`. -/
def isJsWhitespace (c : Char) : Bool :=
  c = ' ' || c = '\t' || c = '\n' || c = '\u000B' || c = '\u000C' || c = '\r' ||
  c = '\u00A0' || c = '\u1680' ||
  ('\u2000' ≤ c && c ≤ '\u200A') ||
  c = '\u2028' || c = '\u2029' || c = '\u202F' || c = '\u205F' ||
  c = '\u3000' || c = '\uFEFF'

/-- Models `str.replace(/\s/g, '')`. -/
def stripJsWhitespace (s : String) : String :=
  ⟨s.data.filter (fun c => !isJsWhitespace c)⟩

def setKeysDoneMsg : String :=
  "Done. Refresh your page and click the icon to activate."

structure SetKeysResult where
  writes : List (String × String)
  alerts : List String
  info : Option String
deriving DecidableEq

def setKeysModel (serverurl channelurl serverInput channelInput : String) :
    SetKeysResult :=
  let serverkey := stripJsWhitespace serverInput
  if serverkey.length > 5 then
    let channelkey := stripJsWhitespace channelInput
    if channelkey ≠ "" then
      if channelkey.length > 5 then
        { writes := [(serverurl, serverkey), (channelurl, channelkey)],
          alerts := [],
          info := some setKeysDoneMsg }
      else
        { writes := [(serverurl, serverkey)],
          alerts := ["Your channel password is too short"],
          info := some setKeysDoneMsg }
    else
      { writes := [(serverurl, serverkey)],
        alerts := [],
        info := some setKeysDoneMsg }
  else
    { writes := [], alerts := ["Your server password is too short"], info := none }

/-! ## Markup-tag stripping (inject.js line 583)

`cleanText = decrypted.replace(/<\/?[^>]+(>|$)/g, "")`.  The regular
expression, applied globally left to right, removes every run that starts at a
`<` whose following character exists and is not `>` and extends through the
first subsequent `>` (or to the end of the string when no `>` follows).  A `<`
immediately followed by `>` (or at the end of the string) matches nothing and
stays.  `stripTagsGo` is that scan as a one-pass state machine whose flag
records being inside a tag run. -/

def stripTagsGo : Bool → List Char → List Char
  | _, [] => []
  | true, c :: rest =>
    if c = '>' then stripTagsGo false rest else stripTagsGo true rest
  | false, c :: rest =>
    if c = '<' then
      match rest with
      | [] => ['<']
      | d :: _ =>
        if d = '>' then '<' :: stripTagsGo false rest
        else stripTagsGo true rest
    else c :: stripTagsGo false rest

def stripTags (s : String) : String :=
  ⟨stripTagsGo false s.data⟩

/-! ## Content classifier (inject.js lines 543-571)

URL detection and embedding, then emoji shorthand substitution. -/

def urlWordTransform (w : String) : String :=
  if jsIncludes w "youtube.com/watch" then
    let watchcode := jsIndex (jsSplit w "?v=") 1
    "<a  href=\"" ++ w ++ "\">" ++ w ++
      "</a><br/><br/><iframe src=\"https://www.youtube.com/embed/" ++ watchcode ++
      "\" style=\"width: 99%; max-width:700px; height:400px;\">"
  else if jsIncludes w "bitchute.com/video/" then
    let watchcode := jsIndex (jsSplit w ".com/video/") 1
    "<a href=\"" ++ w ++ "\">" ++ w ++
      "</a><br/><br/><iframe src=\"https://www.bitchute.com/embed/" ++ watchcode ++
      "\" style=\"width: 99%; max-width:700px; height:400px;\">"
  else if jsIncludes w "https" then
    "<a href=\"" ++ w ++ "\">" ++ w ++
      "</a><br/><br/><img alt=\"\" src=\"" ++ w ++
      "\" style=\"max-height: 600px; max-width: 600px;\">"
  else w

/-- The `if(decrypted.includes("https"))` block: returns the transformed text
together with the `containsImage` flag. -/
def urlStep (decrypted : String) : String × Bool :=
  if jsIncludes decrypted "https" then
    let d1 := jsReplaceFirst decrypted "https://" " https://"
    let d2 := jsReplaceFirst d1 "= https://" "=https://"
    let ws := jsSplit d2 " "
    (ws.foldl (fun acc w => acc ++ " " ++ urlWordTransform w) "", true)
  else (decrypted, false)

/-- The `if (decrypted.split(":").length > 1)` block: one first-occurrence
replacement per known shorthand code, in map order. -/
def emojiStep (emap : List (String × String)) (d : String) : String :=
  if (jsSplit d ":").length > 1 then
    emap.foldl (fun acc kv => jsReplaceFirst acc kv.1 kv.2) d
  else d

def renderDecrypted (emap : List (String × String)) (decrypted : String) :
    String × Bool :=
  let u := urlStep decrypted
  (emojiStep emap u.1, u.2)

/-- The hard-coded emoji markup entries installed by `loadEmojis`
(inject.js lines 189-211), in source (insertion) order, starting from an empty
stored map. -/
def loadEmojisBase : List (String × String) := [
  (":joy:",
   "<img src=\"/assets/cae9e3b02af6e987442df2953de026fc.svg\" aria-label=\":joy:\" alt=\":joy:\" draggable=\"false\" class=\"emoji jumboable\">"),
  (":frowning2:",
   "<img src=\"/assets/b61c4e14e90e796e36f0d10792fcc505.svg\" aria-label=\":frowning2:\" alt=\":frowning2:\" draggable=\"false\" class=\"emoji jumboable\">"),
  (":money_mouth:",
   "<img src=\"/assets/5cdb67d23b259628f475e663ef9907e7.svg\" aria-label=\":money_mouth:\" alt=\":money_mouth:\" draggable=\"false\" class=\"emoji jumboable\">"),
  (":smile:",
   "<img src=\"/assets/f0835a46b501ae0a182874b003fdbb65.svg\" aria-label=\":smile:\" alt=\":smile:\" draggable=\"false\" class=\"emoji jumboable\">"),
  (":sunglasses:",
   "<img src=\"/assets/d0df7bf4acd843defa4e417cf767a574.svg\" aria-label=\":sunglasses:\" alt=\":sunglasses:\" draggable=\"false\" class=\"emoji jumboable\">"),
  (":heart_eyes:",
   "<img src=\"/assets/7e4f6dcf32845bfa865cf17491faf867.svg\" aria-label=\":heart_eyes:\" alt=\":heart_eyes:\" draggable=\"false\" class=\"emoji jumboable\">"),
  (":heart:",
   "<img src=\"/assets/dcbf6274f0ce0f393d064a72db2c8913.svg\" aria-label=\":heart:\" alt=\":heart:\" draggable=\"false\" class=\"emoji jumboable\">"),
  (":sob:",
   "<img src=\"/assets/4dc13fd52f691020a1308c5b6cbc6f49.svg\" aria-label=\":sob:\" alt=\":sob:\" draggable=\"false\" class=\"emoji jumboable\">"),
  (":thumbsup:",
   "<img src=\"/assets/2af915882260fdb89538d1610e1d9baa.svg\" aria-label=\":thumbsup:\" alt=\":thumbsup:\" draggable=\"false\" class=\"emoji jumboable\">"),
  (":ok_hand:",
   "<img src=\"/assets/b6f700d4bc253abdb5ad576917b756d8.svg\" aria-label=\":ok_hand:\" alt=\":ok_hand:\" draggable=\"false\" class=\"emoji jumboable\">"),
  (":ingves_guld:",
   "<img aria-label=\":ingves_guld:\" src=\"https://cdn.discordapp.com/emojis/586594745711591425.png?v=1\" alt=\":ingves_guld:\" draggable=\"false\" class=\"emoji jumboable\">"),
  (":ingves_concerned:",
   "<img aria-label=\":ingves_concerned:\" src=\"https://cdn.discordapp.com/emojis/586595195701821475.png?v=1\" alt=\":ingves_concerned:\" draggable=\"false\" class=\"emoji jumboable\">"),
  (":cry:",
   "<img src=\"/assets/2a6e66e7de157c4051fb7abf7d8b0063.svg\" aria-label=\":cry:\" alt=\":cry:\" draggable=\"false\" class=\"emoji jumboable\">"),
  (":thinking:",
   "<img src=\"/assets/53ef346458017da2062aca5c7955946b.svg\" aria-label=\":thinking:\" alt=\":thinking:\" draggable=\"false\" class=\"emoji jumboable\">"),
  (":broken_heart:",
   "<img src=\"/assets/8fee3f6705505729fea8c7379934d794.svg\" aria-label=\":broken_heart:\" alt=\":broken_heart:\" draggable=\"false\" class=\"emoji jumboable\">"),
  (":grimacing:",
   "<img src=\"/assets/be0923fd964bff1a6ea77c14fe227a63.svg\" aria-label=\":grimacing:\" alt=\":grimacing:\" draggable=\"false\" class=\"emoji jumboable\">"),
  (":pensive:",
   "<img src=\"/assets/f1f76882104c8724124954b6edfed6d4.svg\" aria-label=\":pensive:\" alt=\":pensive:\" draggable=\"false\" class=\"emoji jumboable\">"),
  (":money_with_wings:",
   "<img src=\"/assets/630828f0eaa647bf465b3b903b0dbc5f.svg\" aria-label=\":money_with_wings:\" alt=\":money_with_wings:\" draggable=\"false\" class=\"emoji jumboable\">"),
  (":moneybag:",
   "<img src=\"/assets/ccebe0b729ff7530c5e37dbbd9f9938c.svg\" aria-label=\":moneybag:\" alt=\":moneybag:\" draggable=\"false\" class=\"emoji jumboable\">"),
  (":clown:",
   "<img src=\"/assets/1beee7912bb5016975747a3086794957.svg\" aria-label=\":clown:\" alt=\":clown:\" draggable=\"false\" class=\"emoji jumboable\">"),
  (":smiley:",
   "<img src=\"/assets/b731b88b6459090c02b8d1e31a552c5a.svg\" aria-label=\":smiley:\" alt=\":smiley:\" draggable=\"false\" class=\"emoji jumboable\">"),
  (":scream:",
   "<img src=\"/assets/9bd8b85559466379744360f8c9841f39.svg\" aria-label=\":scream:\" alt=\":scream:\" draggable=\"false\" class=\"emoji jumboable\">"),
  (":wave:",
   "<img src=\"/assets/593c4a3437fbb5b89fbb148f7b96424d.svg\" aria-label=\":wave:\" alt=\":wave:\" draggable=\"false\" class=\"emoji jumboable\">")]

/-! ## The decrypt pass (inject.js `decryptMessages`, lines 526-603)

Each message node is a pair of its `innerHTML` and the `className` of its
container element (`className +=` appends).  The cipher boundary
(`CryptoJS.AES.decrypt(...).toString(CryptoJS.enc.Utf8)` inside `try`) enters
as a `decrypt` function returning `Except`; the surrounding `catch` writes the
fallback text. -/

def fallbackText : String := "[could not be decrypted]"

def sizingAppend (className cleanText : String) : String :=
  let c1 := if cleanText.length > 80 then className ++ " widermessage" else className
  if cleanText.length > 200 then c1 ++ " evenwidermessage" else c1

def processNode (decrypt : String → Except String String)
    (emap : List (String × String)) (content className : String) :
    String × String :=
  if content.data.head? = some '§' then
    let encrypted : String := ⟨(content.data.drop 1).dropLast⟩
    match decrypt encrypted with
    | Except.error _ => (fallbackText, className)
    | Except.ok decrypted =>
      if decrypted.length < 1 then (fallbackText, className)
      else
        let r := renderDecrypted emap decrypted
        let cn := className ++ " encryptedMessageContainer"
        let cn := if r.2 then cn ++ " containsImage" else cn
        (r.1, sizingAppend cn (stripTags r.1))
  else (content, className)

def processAt (decrypt : String → Except String String)
    (emap : List (String × String)) (nodes : List (String × String))
    (i : Nat) : List (String × String) :=
  match nodes.get? i with
  | none => nodes
  | some p => nodes.set i (processNode decrypt emap p.1 p.2)

/-- The `for (var i = encryptedmessages.length-1; i >= 0; i--)` loop: the
argument is the next index to process; indices run downwards to 0. -/
def passLoop (decrypt : String → Except String String)
    (emap : List (String × String)) (nodes : List (String × String)) :
    Nat → List (String × String)
  | 0 => processAt decrypt emap nodes 0
  | Nat.succ i => passLoop decrypt emap (processAt decrypt emap nodes (i + 1)) i

def decryptMessagesPass (decrypt : String → Except String String)
    (emap : List (String × String)) (nodes : List (String × String)) :
    List (String × String) :=
  match nodes.length with
  | 0 => nodes
  | Nat.succ n => passLoop decrypt emap nodes n

/-! ## Outbound interceptor (inject.js keydown listener, lines 489-513)

State: `lastKeyWasStopKey` (armed flag), `send` (pending-send flag) and the
value of `textareaarray[0]`.  An event carries `event.key`, `event.keyCode`
and the character the default browser action would insert into the focused
input (none for non-printing keys).  `domKeyStep` runs the handler and then,
when `preventDefault` was not called, the default insertion (a value assigned
programmatically leaves the caret at the end, so the character is appended). -/

structure KeyState where
  lastKeyWasStopKey : Bool
  send : Bool
  value : String
deriving DecidableEq

structure KeyEvent where
  key : String
  keyCode : Nat
  text : Option Char
deriving DecidableEq

def stopkey : String := "§"

def keydownHandler (encrypt : String → String) (st : KeyState) (ev : KeyEvent) :
    KeyState × Bool :=
  let lk := if ev.keyCode = 17 then false else st.lastKeyWasStopKey
  if lk && !(ev.keyCode = 13 || ev.keyCode = 8) then
    ({ st with lastKeyWasStopKey := lk }, true)
  else if ev.key = stopkey then
    ({ lastKeyWasStopKey := true, send := true,
       value := stopkey ++ encrypt st.value }, false)
  else
    ({ st with lastKeyWasStopKey := false }, false)

def domKeyStep (encrypt : String → String) (st : KeyState) (ev : KeyEvent) :
    KeyState :=
  let r := keydownHandler encrypt st ev
  if r.2 then r.1 else
    match ev.text with
    | some c => { r.1 with value := r.1.value ++ ⟨[c]⟩ }
    | none => r.1

/-! ## UTF-8 encoding

`utf8Encode` in `Sha256.hash` (inject.js lines 139-145) converts the input
string to its UTF-8 byte sequence (via `TextEncoder`); CryptoJS
`Utf8.parse` (`unescape(encodeURIComponent(s))` read as Latin-1) produces the
same byte sequence.  `utf8EncodeChar` is the standard UTF-8 encoding of one
code point, as a list of bytes. -/

def utf8EncodeChar (c : Char) : List Nat :=
  let n := c.toNat
  if n < 0x80 then [n]
  else if n < 0x800 then [0xC0 + n / 64, 0x80 + n % 64]
  else if n < 0x10000 then
    [0xE0 + n / 4096, 0x80 + n / 64 % 64, 0x80 + n % 64]
  else
    [0xF0 + n / 262144, 0x80 + n / 4096 % 64, 0x80 + n / 64 % 64, 0x80 + n % 64]

def utf8Bytes (s : String) : List Nat :=
  (s.data.map utf8EncodeChar).flatten

/-! ## SHA-256 (inject.js `Sha256`, lines 21-175)

Faithful translation of the reference implementation bundled at the top of
inject.js.  32-bit values are `Nat` with `% 2 ^ 32` exactly where the source
coerces with `>>> 0`; the hash state `H[0..7]` is an 8-tuple structure. -/

def sha256K : List Nat :=
  [1116352408, 1899447441, 3049323471, 3921009573, 961987163, 1508970993,
   2453635748, 2870763221, 3624381080, 310598401, 607225278, 1426881987,
   1925078388, 2162078206, 2614888103, 3248222580, 3835390401, 4022224774,
   264347078, 604807628, 770255983, 1249150122, 1555081692, 1996064986,
   2554220882, 2821834349, 2952996808, 3210313671, 3336571891, 3584528711,
   113926993, 338241895, 666307205, 773529912, 1294757372, 1396182291,
   1695183700, 1986661051, 2177026350, 2456956037, 2730485921, 2820302411,
   3259730800, 3345764771, 3516065817, 3600352804, 4094571909, 275423344,
   430227734, 506948616, 659060556, 883997877, 958139571, 1322822218,
   1537002063, 1747873779, 1955562222, 2024104815, 2227730452, 2361852424,
   2428436474, 2756734187, 3204031479, 3329325298]

structure H8 where
  h0 : Nat
  h1 : Nat
  h2 : Nat
  h3 : Nat
  h4 : Nat
  h5 : Nat
  h6 : Nat
  h7 : Nat
deriving DecidableEq

def sha256H0 : H8 :=
  ⟨0x6a09e667, 0xbb67ae85, 0x3c6ef372, 0xa54ff53a,
   0x510e527f, 0x9b05688c, 0x1f83d9ab, 0x5be0cd19⟩

def rotr32 (n x : Nat) : Nat :=
  ((x >>> n) ||| (x <<< (32 - n))) % 2 ^ 32

def shaBigSigma0 (x : Nat) : Nat := rotr32 2 x ^^^ rotr32 13 x ^^^ rotr32 22 x

def shaBigSigma1 (x : Nat) : Nat := rotr32 6 x ^^^ rotr32 11 x ^^^ rotr32 25 x

def shaSmallSigma0 (x : Nat) : Nat := rotr32 7 x ^^^ rotr32 18 x ^^^ (x >>> 3)

def shaSmallSigma1 (x : Nat) : Nat := rotr32 17 x ^^^ rotr32 19 x ^^^ (x >>> 10)

def shaCh (x y z : Nat) : Nat := (x &&& y) ^^^ ((x ^^^ 0xffffffff) &&& z)

def shaMaj (x y z : Nat) : Nat := (x &&& y) ^^^ (x &&& z) ^^^ (y &&& z)

/-- Big-endian packing of bytes into 32-bit words, four at a time; reading
past the end of the byte stream contributes zero bits, as in the source
(`charCodeAt` out of range is `NaN` and bitwise operations on `NaN` give 0). -/
def bytesToWordsBE : List Nat → List Nat
  | [] => []
  | [a] => [a <<< 24]
  | [a, b] => [(a <<< 24) ||| (b <<< 16)]
  | [a, b, c] => [(a <<< 24) ||| (b <<< 16) ||| (c <<< 8)]
  | a :: b :: c :: d :: rest =>
    ((a <<< 24) ||| (b <<< 16) ||| (c <<< 8) ||| d) :: bytesToWordsBE rest

/-- Extends the 16-word message schedule to 64 words
(`W[t] = σ1(W[t-2]) + W[t-7] + σ0(W[t-15]) + W[t-16] >>> 0`). -/
def extendW : List Nat → Nat → List Nat
  | ws, 0 => ws
  | ws, Nat.succ n =>
    let m := ws.length
    let w := (shaSmallSigma1 (ws.getD (m - 2) 0) + ws.getD (m - 7) 0 +
              shaSmallSigma0 (ws.getD (m - 15) 0) + ws.getD (m - 16) 0) % 2 ^ 32
    extendW (ws ++ [w]) n

def sha256Round (kw : Nat × Nat) (st : H8) : H8 :=
  let t1 := st.h7 + shaBigSigma1 st.h4 + shaCh st.h4 st.h5 st.h6 + kw.1 + kw.2
  let t2 := shaBigSigma0 st.h0 + shaMaj st.h0 st.h1 st.h2
  ⟨(t1 + t2) % 2 ^ 32, st.h0, st.h1, st.h2, (st.h3 + t1) % 2 ^ 32,
   st.h4, st.h5, st.h6⟩

def sha256Block (st : H8) (blockWords : List Nat) : H8 :=
  let w := extendW blockWords 48
  let r := (sha256K.zip w).foldl (fun s kw => sha256Round kw s) st
  ⟨(st.h0 + r.h0) % 2 ^ 32, (st.h1 + r.h1) % 2 ^ 32, (st.h2 + r.h2) % 2 ^ 32,
   (st.h3 + r.h3) % 2 ^ 32, (st.h4 + r.h4) % 2 ^ 32, (st.h5 + r.h5) % 2 ^ 32,
   (st.h6 + r.h6) % 2 ^ 32, (st.h7 + r.h7) % 2 ^ 32⟩

def sha256Loop : H8 → List Nat → Nat → H8
  | st, _, 0 => st
  | st, ws, Nat.succ n => sha256Loop (sha256Block st (ws.take 16)) (ws.drop 16) n

/-- The preprocessed message: the UTF-8 bytes, the appended `0x80` bit
marker, zero padding, and the bit length in the final two words.  The source
computes `N = ceil((msg.length/4 + 2)/16)` blocks, which reserves at least 8
bytes after the marker, so words 14 and 15 of the last block overwrite only
zero padding; writing the length bytes in their place is the same byte
stream. -/
def sha256PaddedBytes (msg : List Nat) : List Nat :=
  let withMarker := msg ++ [0x80]
  let len := withMarker.length
  let nBlocks := (len + 71) / 64
  let lenBits := msg.length * 8
  withMarker ++ List.replicate (nBlocks * 64 - 8 - len) 0 ++
    [lenBits / 2 ^ 56 % 256, lenBits / 2 ^ 48 % 256, lenBits / 2 ^ 40 % 256,
     lenBits / 2 ^ 32 % 256, lenBits / 2 ^ 24 % 256, lenBits / 2 ^ 16 % 256,
     lenBits / 2 ^ 8 % 256, lenBits % 256]

def sha256State (msg : List Nat) : H8 :=
  let padded := sha256PaddedBytes msg
  sha256Loop sha256H0 (bytesToWordsBE padded) (padded.length / 64)

/-- `('00000000' + h.toString(16)).slice(-8)`: the 8-character zero-padded
lowercase hex rendering of one word. -/
def wordHex8 (w : Nat) : List Char :=
  let p := "00000000".data ++ Nat.toDigits 16 w
  p.drop (p.length - 8)

def sha256HexOfBytes (msg : List Nat) : String :=
  let s := sha256State msg
  ⟨wordHex8 s.h0 ++ wordHex8 s.h1 ++ wordHex8 s.h2 ++ wordHex8 s.h3 ++
   wordHex8 s.h4 ++ wordHex8 s.h5 ++ wordHex8 s.h6 ++ wordHex8 s.h7⟩

/-- `Sha256.hash(msg)` with the default options. -/
def sha256Hash (s : String) : String :=
  sha256HexOfBytes (utf8Bytes s)

/-! ## Passphrase derivation (inject.js `setPassphrase`, lines 415-439) -/

def clientSideSalt : String := "9AK0Q4Ga0o"

/-- The passphrase computed by `setPassphrase`: `storage` is the extension
key/value storage, `href` is `window.location.href` and `channelname` is the
text of the channel title element.  A missing storage entry is replaced by the
empty string. -/
def setPassphraseModel (storage : String → Option String)
    (href channelname : String) : String :=
  let url := injectStrippedUrl href
  let serverurl := injectServerUrl href
  let serverkey := (storage serverurl).getD ""
  let channelkey := (storage url).getD ""
  sha256Hash (channelname ++ url ++ serverkey ++ channelkey ++ clientSideSalt)

/-! ## Digest encoding helpers (used to reason about the derived passphrase)

`encNatL` reads a character list as a number in base `1114112` (an upper
bound on `Char.toNat`), most significant character first: an injective
encoding on lists of equal length, used to count distinct digests. -/

def encNatBase : Nat := 1114112

def encNatL : List Char → Nat
  | [] => 0
  | c :: t => c.toNat * encNatBase ^ t.length + encNatL t

/-! ## The bundled CryptoJS cipher (inject.js lines 450-478)

The outbound interceptor calls `CryptoJS.AES.encrypt(text, passphrase)` and
the decrypt pass calls `CryptoJS.AES.decrypt(transport, passphrase)`, i.e.
the `PasswordBasedCipher` with the OpenSSL format: an 8-byte random salt,
`EvpKDF` (MD5-based, one iteration) deriving a 32-byte key and a 16-byte IV,
AES-256 in CBC mode with PKCS#7 padding, and Base64 transport encoding with
the `Salted__` magic prefix.  Everything below is translated from that
bundled source; 32-bit words are `Nat` with explicit `% 2 ^ 32` where the
source relies on JavaScript 32-bit coercion, and `WordArray` values are
modelled by their byte streams.

The AES lookup tables are computed by a loop in the source.  That loop is
translated as `aesGenStep`/`aesGen` below; the tables themselves are given as
literal lists (for kernel evaluation), and the theorem `aesGen_tables`
proves that the literals are exactly the loop output. -/

def aesXtimeLit : List Nat :=
  [0, 2, 4, 6, 8, 10, 12, 14, 16, 18, 20, 22, 24, 26, 28, 30, 32, 34, 36, 38, 40, 42, 44, 46, 48,
   50, 52, 54, 56, 58, 60, 62, 64, 66, 68, 70, 72, 74, 76, 78, 80, 82, 84, 86, 88, 90, 92, 94, 96,
   98, 100, 102, 104, 106, 108, 110, 112, 114, 116, 118, 120, 122, 124, 126, 128, 130, 132, 134,
   136, 138, 140, 142, 144, 146, 148, 150, 152, 154, 156, 158, 160, 162, 164, 166, 168, 170, 172,
   174, 176, 178, 180, 182, 184, 186, 188, 190, 192, 194, 196, 198, 200, 202, 204, 206, 208, 210,
   212, 214, 216, 218, 220, 222, 224, 226, 228, 230, 232, 234, 236, 238, 240, 242, 244, 246, 248,
   250, 252, 254, 27, 25, 31, 29, 19, 17, 23, 21, 11, 9, 15, 13, 3, 1, 7, 5, 59, 57, 63, 61, 51, 49,
   55, 53, 43, 41, 47, 45, 35, 33, 39, 37, 91, 89, 95, 93, 83, 81, 87, 85, 75, 73, 79, 77, 67, 65,
   71, 69, 123, 121, 127, 125, 115, 113, 119, 117, 107, 105, 111, 109, 99, 97, 103, 101, 155, 153,
   159, 157, 147, 145, 151, 149, 139, 137, 143, 141, 131, 129, 135, 133, 187, 185, 191, 189, 179,
   177, 183, 181, 171, 169, 175, 173, 163, 161, 167, 165, 219, 217, 223, 221, 211, 209, 215, 213,
   203, 201, 207, 205, 195, 193, 199, 197, 251, 249, 255, 253, 243, 241, 247, 245, 235, 233, 239,
   237, 227, 225, 231, 229]

def aesSboxLit : List Nat :=
  [99, 124, 119, 123, 242, 107, 111, 197, 48, 1, 103, 43, 254, 215, 171, 118, 202, 130, 201, 125,
   250, 89, 71, 240, 173, 212, 162, 175, 156, 164, 114, 192, 183, 253, 147, 38, 54, 63, 247, 204,
   52, 165, 229, 241, 113, 216, 49, 21, 4, 199, 35, 195, 24, 150, 5, 154, 7, 18, 128, 226, 235, 39,
   178, 117, 9, 131, 44, 26, 27, 110, 90, 160, 82, 59, 214, 179, 41, 227, 47, 132, 83, 209, 0, 237,
   32, 252, 177, 91, 106, 203, 190, 57, 74, 76, 88, 207, 208, 239, 170, 251, 67, 77, 51, 133, 69,
   249, 2, 127, 80, 60, 159, 168, 81, 163, 64, 143, 146, 157, 56, 245, 188, 182, 218, 33, 16, 255,
   243, 210, 205, 12, 19, 236, 95, 151, 68, 23, 196, 167, 126, 61, 100, 93, 25, 115, 96, 129, 79,
   220, 34, 42, 144, 136, 70, 238, 184, 20, 222, 94, 11, 219, 224, 50, 58, 10, 73, 6, 36, 92, 194,
   211, 172, 98, 145, 149, 228, 121, 231, 200, 55, 109, 141, 213, 78, 169, 108, 86, 244, 234, 101,
   122, 174, 8, 186, 120, 37, 46, 28, 166, 180, 198, 232, 221, 116, 31, 75, 189, 139, 138, 112, 62,
   181, 102, 72, 3, 246, 14, 97, 53, 87, 185, 134, 193, 29, 158, 225, 248, 152, 17, 105, 217, 142,
   148, 155, 30, 135, 233, 206, 85, 40, 223, 140, 161, 137, 13, 191, 230, 66, 104, 65, 153, 45, 15,
   176, 84, 187, 22]

def aesSinvLit : List Nat :=
  [82, 9, 106, 213, 48, 54, 165, 56, 191, 64, 163, 158, 129, 243, 215, 251, 124, 227, 57, 130, 155,
   47, 255, 135, 52, 142, 67, 68, 196, 222, 233, 203, 84, 123, 148, 50, 166, 194, 35, 61, 238, 76,
   149, 11, 66, 250, 195, 78, 8, 46, 161, 102, 40, 217, 36, 178, 118, 91, 162, 73, 109, 139, 209,
   37, 114, 248, 246, 100, 134, 104, 152, 22, 212, 164, 92, 204, 93, 101, 182, 146, 108, 112, 72,
   80, 253, 237, 185, 218, 94, 21, 70, 87, 167, 141, 157, 132, 144, 216, 171, 0, 140, 188, 211, 10,
   247, 228, 88, 5, 184, 179, 69, 6, 208, 44, 30, 143, 202, 63, 15, 2, 193, 175, 189, 3, 1, 19, 138,
   107, 58, 145, 17, 65, 79, 103, 220, 234, 151, 242, 207, 206, 240, 180, 230, 115, 150, 172, 116,
   34, 231, 173, 53, 133, 226, 249, 55, 232, 28, 117, 223, 110, 71, 241, 26, 113, 29, 41, 197, 137,
   111, 183, 98, 14, 170, 24, 190, 27, 252, 86, 62, 75, 198, 210, 121, 32, 154, 219, 192, 254, 120,
   205, 90, 244, 31, 221, 168, 51, 136, 7, 199, 49, 177, 18, 16, 89, 39, 128, 236, 95, 96, 81, 127,
   169, 25, 181, 74, 13, 45, 229, 122, 159, 147, 201, 156, 239, 160, 224, 59, 77, 174, 42, 245, 176,
   200, 235, 187, 60, 131, 83, 153, 97, 23, 43, 4, 126, 186, 119, 214, 38, 225, 105, 20, 99, 85, 33,
   12, 125]

def aesT0Lit : List Nat :=
  [3328402341, 4168907908, 4000806809, 4135287693, 4294111757, 3597364157, 3731845041, 2445657428,
   1613770832, 33620227, 3462883241, 1445669757, 3892248089, 3050821474, 1303096294, 3967186586,
   2412431941, 528646813, 2311702848, 4202528135, 4026202645, 2992200171, 2387036105, 4226871307,
   1101901292, 3017069671, 1604494077, 1169141738, 597466303, 1403299063, 3832705686, 2613100635,
   1974974402, 3791519004, 1033081774, 1277568618, 1815492186, 2118074177, 4126668546, 2211236943,
   1748251740, 1369810420, 3521504564, 4193382664, 3799085459, 2883115123, 1647391059, 706024767,
   134480908, 2512897874, 1176707941, 2646852446, 806885416, 932615841, 168101135, 798661301,
   235341577, 605164086, 461406363, 3756188221, 3454790438, 1311188841, 2142417613, 3933566367,
   302582043, 495158174, 1479289972, 874125870, 907746093, 3698224818, 3025820398, 1537253627,
   2756858614, 1983593293, 3084310113, 2108928974, 1378429307, 3722699582, 1580150641, 327451799,
   2790478837, 3117535592, 0, 3253595436, 1075847264, 3825007647, 2041688520, 3059440621,
   3563743934, 2378943302, 1740553945, 1916352843, 2487896798, 2555137236, 2958579944, 2244988746,
   3151024235, 3320835882, 1336584933, 3992714006, 2252555205, 2588757463, 1714631509, 293963156,
   2319795663, 3925473552, 67240454, 4269768577, 2689618160, 2017213508, 631218106, 1269344483,
   2723238387, 1571005438, 2151694528, 93294474, 1066570413, 563977660, 1882732616, 4059428100,
   1673313503, 2008463041, 2950355573, 1109467491, 537923632, 3858759450, 4260623118, 3218264685,
   2177748300, 403442708, 638784309, 3287084079, 3193921505, 899127202, 2286175436, 773265209,
   2479146071, 1437050866, 4236148354, 2050833735, 3362022572, 3126681063, 840505643, 3866325909,
   3227541664, 427917720, 2655997905, 2749160575, 1143087718, 1412049534, 999329963, 193497219,
   2353415882, 3354324521, 1807268051, 672404540, 2816401017, 3160301282, 369822493, 2916866934,
   3688947771, 1681011286, 1949973070, 336202270, 2454276571, 201721354, 1210328172, 3093060836,
   2680341085, 3184776046, 1135389935, 3294782118, 965841320, 831886756, 3554993207, 4068047243,
   3588745010, 2345191491, 1849112409, 3664604599, 26054028, 2983581028, 2622377682, 1235855840,
   3630984372, 2891339514, 4092916743, 3488279077, 3395642799, 4101667470, 1202630377, 268961816,
   1874508501, 4034427016, 1243948399, 1546530418, 941366308, 1470539505, 1941222599, 2546386513,
   3421038627, 2715671932, 3899946140, 1042226977, 2521517021, 1639824860, 227249030, 260737669,
   3765465232, 2084453954, 1907733956, 3429263018, 2420656344, 100860677, 4160157185, 470683154,
   3261161891, 1781871967, 2924959737, 1773779408, 394692241, 2579611992, 974986535, 664706745,
   3655459128, 3958962195, 731420851, 571543859, 3530123707, 2849626480, 126783113, 865375399,
   765172662, 1008606754, 361203602, 3387549984, 2278477385, 2857719295, 1344809080, 2782912378,
   59542671, 1503764984, 160008576, 437062935, 1707065306, 3622233649, 2218934982, 3496503480,
   2185314755, 697932208, 1512910199, 504303377, 2075177163, 2824099068, 1841019862, 739644986]

def aesT1Lit : List Nat :=
  [2781242211, 2230877308, 2582542199, 2381740923, 234877682, 3184946027, 2984144751, 1418839493,
   1348481072, 50462977, 2848876391, 2102799147, 434634494, 1656084439, 3863849899, 2599188086,
   1167051466, 2636087938, 1082771913, 2281340285, 368048890, 3954334041, 3381544775, 201060592,
   3963727277, 1739838676, 4250903202, 3930435503, 3206782108, 4149453988, 2531553906, 1536934080,
   3262494647, 484572669, 2923271059, 1783375398, 1517041206, 1098792767, 49674231, 1334037708,
   1550332980, 4098991525, 886171109, 150598129, 2481090929, 1940642008, 1398944049, 1059722517,
   201851908, 1385547719, 1699095331, 1587397571, 674240536, 2704774806, 252314885, 3039795866,
   151914247, 908333586, 2602270848, 1038082786, 651029483, 1766729511, 3447698098, 2682942837,
   454166793, 2652734339, 1951935532, 775166490, 758520603, 3000790638, 4004797018, 4217086112,
   4137964114, 1299594043, 1639438038, 3464344499, 2068982057, 1054729187, 1901997871, 2534638724,
   4121318227, 1757008337, 0, 750906861, 1614815264, 535035132, 3363418545, 3988151131, 3201591914,
   1183697867, 3647454910, 1265776953, 3734260298, 3566750796, 3903871064, 1250283471, 1807470800,
   717615087, 3847203498, 384695291, 3313910595, 3617213773, 1432761139, 2484176261, 3481945413,
   283769337, 100925954, 2180939647, 4037038160, 1148730428, 3123027871, 3813386408, 4087501137,
   4267549603, 3229630528, 2315620239, 2906624658, 3156319645, 1215313976, 82966005, 3747855548,
   3245848246, 1974459098, 1665278241, 807407632, 451280895, 251524083, 1841287890, 1283575245,
   337120268, 891687699, 801369324, 3787349855, 2721421207, 3431482436, 959321879, 1469301956,
   4065699751, 2197585534, 1199193405, 2898814052, 3887750493, 724703513, 2514908019, 2696962144,
   2551808385, 3516813135, 2141445340, 1715741218, 2119445034, 2872807568, 2198571144, 3398190662,
   700968686, 3547052216, 1009259540, 2041044702, 3803995742, 487983883, 1991105499, 1004265696,
   1449407026, 1316239930, 504629770, 3683797321, 168560134, 1816667172, 3837287516, 1570751170,
   1857934291, 4014189740, 2797888098, 2822345105, 2754712981, 936633572, 2347923833, 852879335,
   1133234376, 1500395319, 3084545389, 2348912013, 1689376213, 3533459022, 3762923945, 3034082412,
   4205598294, 133428468, 634383082, 2949277029, 2398386810, 3913789102, 403703816, 3580869306,
   2297460856, 1867130149, 1918643758, 607656988, 4049053350, 3346248884, 1368901318, 600565992,
   2090982877, 2632479860, 557719327, 3717614411, 3697393085, 2249034635, 2232388234, 2430627952,
   1115438654, 3295786421, 2865522278, 3633334344, 84280067, 33027830, 303828494, 2747425121,
   1600795957, 4188952407, 3496589753, 2434238086, 1486471617, 658119965, 3106381470, 953803233,
   334231800, 3005978776, 857870609, 3151128937, 1890179545, 2298973838, 2805175444, 3056442267,
   574365214, 2450884487, 550103529, 1233637070, 4289353045, 2018519080, 2057691103, 2399374476,
   4166623649, 2148108681, 387583245, 3664101311, 836232934, 3330556482, 3100665960, 3280093505,
   2955516313, 2002398509, 287182607, 3413881008, 4238890068, 3597515707, 975967766]

def aesT2Lit : List Nat :=
  [1671808611, 2089089148, 2006576759, 2072901243, 4061003762, 1807603307, 1873927791, 3310653893,
   810573872, 16974337, 1739181671, 729634347, 4263110654, 3613570519, 2883997099, 1989864566,
   3393556426, 2191335298, 3376449993, 2106063485, 4195741690, 1508618841, 1204391495, 4027317232,
   2917941677, 3563566036, 2734514082, 2951366063, 2629772188, 2767672228, 1922491506, 3227229120,
   3082974647, 4246528509, 2477669779, 644500518, 911895606, 1061256767, 4144166391, 3427763148,
   878471220, 2784252325, 3845444069, 4043897329, 1905517169, 3631459288, 827548209, 356461077,
   67897348, 3344078279, 593839651, 3277757891, 405286936, 2527147926, 84871685, 2595565466,
   118033927, 305538066, 2157648768, 3795705826, 3945188843, 661212711, 2999812018, 1973414517,
   152769033, 2208177539, 745822252, 439235610, 455947803, 1857215598, 1525593178, 2700827552,
   1391895634, 994932283, 3596728278, 3016654259, 695947817, 3812548067, 795958831, 2224493444,
   1408607827, 3513301457, 0, 3979133421, 543178784, 4229948412, 2982705585, 1542305371, 1790891114,
   3410398667, 3201918910, 961245753, 1256100938, 1289001036, 1491644504, 3477767631, 3496721360,
   4012557807, 2867154858, 4212583931, 1137018435, 1305975373, 861234739, 2241073541, 1171229253,
   4178635257, 33948674, 2139225727, 1357946960, 1011120188, 2679776671, 2833468328, 1374921297,
   2751356323, 1086357568, 2408187279, 2460827538, 2646352285, 944271416, 4110742005, 3168756668,
   3066132406, 3665145818, 560153121, 271589392, 4279952895, 4077846003, 3530407890, 3444343245,
   202643468, 322250259, 3962553324, 1608629855, 2543990167, 1154254916, 389623319, 3294073796,
   2817676711, 2122513534, 1028094525, 1689045092, 1575467613, 422261273, 1939203699, 1621147744,
   2174228865, 1339137615, 3699352540, 577127458, 712922154, 2427141008, 2290289544, 1187679302,
   3995715566, 3100863416, 339486740, 3732514782, 1591917662, 186455563, 3681988059, 3762019296,
   844522546, 978220090, 169743370, 1239126601, 101321734, 611076132, 1558493276, 3260915650,
   3547250131, 2901361580, 1655096418, 2443721105, 2510565781, 3828863972, 2039214713, 3878868455,
   3359869896, 928607799, 1840765549, 2374762893, 3580146133, 1322425422, 2850048425, 1823791212,
   1459268694, 4094161908, 3928346602, 1706019429, 2056189050, 2934523822, 135794696, 3134549946,
   2022240376, 628050469, 779246638, 472135708, 2800834470, 3032970164, 3327236038, 3894660072,
   3715932637, 1956440180, 522272287, 1272813131, 3185336765, 2340818315, 2323976074, 1888542832,
   1044544574, 3049550261, 1722469478, 1222152264, 50660867, 4127324150, 236067854, 1638122081,
   895445557, 1475980887, 3117443513, 2257655686, 3243809217, 489110045, 2662934430, 3778599393,
   4162055160, 2561878936, 288563729, 1773916777, 3648039385, 2391345038, 2493985684, 2612407707,
   505560094, 2274497927, 3911240169, 3460925390, 1442818645, 678973480, 3749357023, 2358182796,
   2717407649, 2306869641, 219617805, 3218761151, 3862026214, 1120306242, 1756942440, 1103331905,
   2578459033, 762796589, 252780047, 2966125488, 1425844308, 3151392187, 372911126]

def aesT3Lit : List Nat :=
  [1667474886, 2088535288, 2004326894, 2071694838, 4075949567, 1802223062, 1869591006, 3318043793,
   808472672, 16843522, 1734846926, 724270422, 4278065639, 3621216949, 2880169549, 1987484396,
   3402253711, 2189597983, 3385409673, 2105378810, 4210693615, 1499065266, 1195886990, 4042263547,
   2913856577, 3570689971, 2728590687, 2947541573, 2627518243, 2762274643, 1920112356, 3233831835,
   3082273397, 4261223649, 2475929149, 640051788, 909531756, 1061110142, 4160160501, 3435941763,
   875846760, 2779116625, 3857003729, 4059105529, 1903268834, 3638064043, 825316194, 353713962,
   67374088, 3351728789, 589522246, 3284360861, 404236336, 2526454071, 84217610, 2593830191,
   117901582, 303183396, 2155911963, 3806477791, 3958056653, 656894286, 2998062463, 1970642922,
   151591698, 2206440989, 741110872, 437923380, 454765878, 1852748508, 1515908788, 2694904667,
   1381168804, 993742198, 3604373943, 3014905469, 690584402, 3823320797, 791638366, 2223281939,
   1398011302, 3520161977, 0, 3991743681, 538992704, 4244381667, 2981218425, 1532751286, 1785380564,
   3419096717, 3200178535, 960056178, 1246420628, 1280103576, 1482221744, 3486468741, 3503319995,
   4025428677, 2863326543, 4227536621, 1128514950, 1296947098, 859002214, 2240123921, 1162203018,
   4193849577, 33687044, 2139062782, 1347481760, 1010582648, 2678045221, 2829640523, 1364325282,
   2745433693, 1077985408, 2408548869, 2459086143, 2644360225, 943212656, 4126475505, 3166494563,
   3065430391, 3671750063, 555836226, 269496352, 4294908645, 4092792573, 3537006015, 3452783745,
   202118168, 320025894, 3974901699, 1600119230, 2543297077, 1145359496, 387397934, 3301201811,
   2812801621, 2122220284, 1027426170, 1684319432, 1566435258, 421079858, 1936954854, 1616945344,
   2172753945, 1330631070, 3705438115, 572679748, 707427924, 2425400123, 2290647819, 1179044492,
   4008585671, 3099120491, 336870440, 3739122087, 1583276732, 185277718, 3688593069, 3772791771,
   842159716, 976899700, 168435220, 1229577106, 101059084, 606366792, 1549591736, 3267517855,
   3553849021, 2897014595, 1650632388, 2442242105, 2509612081, 3840161747, 2038008818, 3890688725,
   3368567691, 926374254, 1835907034, 2374863873, 3587531953, 1313788572, 2846482505, 1819063512,
   1448540844, 4109633523, 3941213647, 1701162954, 2054852340, 2930698567, 134748176, 3132806511,
   2021165296, 623210314, 774795868, 471606328, 2795958615, 3031746419, 3334885783, 3907527627,
   3722280097, 1953799400, 522133822, 1263263126, 3183336545, 2341176845, 2324333839, 1886425312,
   1044267644, 3048588401, 1718004428, 1212733584, 50529542, 4143317495, 235803164, 1633788866,
   892690282, 1465383342, 3115962473, 2256965911, 3250673817, 488449850, 2661202215, 3789633753,
   4177007595, 2560144171, 286339874, 1768537042, 3654906025, 2391705863, 2492770099, 2610673197,
   505291324, 2273808917, 3924369609, 3469625735, 1431699370, 673740880, 3755965093, 2358021891,
   2711746649, 2307489801, 218961690, 3217021541, 3873845719, 1111672452, 1751693520, 1094828930,
   2576986153, 757954394, 252645662, 2964376443, 1414855848, 3149649517, 370555436]

def aesIT0Lit : List Nat :=
  [1374988112, 2118214995, 437757123, 975658646, 1001089995, 530400753, 2902087851, 1273168787,
   540080725, 2910219766, 2295101073, 4110568485, 1340463100, 3307916247, 641025152, 3043140495,
   3736164937, 632953703, 1172967064, 1576976609, 3274667266, 2169303058, 2370213795, 1809054150,
   59727847, 361929877, 3211623147, 2505202138, 3569255213, 1484005843, 1239443753, 2395588676,
   1975683434, 4102977912, 2572697195, 666464733, 3202437046, 4035489047, 3374361702, 2110667444,
   1675577880, 3843699074, 2538681184, 1649639237, 2976151520, 3144396420, 4269907996, 4178062228,
   1883793496, 2403728665, 2497604743, 1383856311, 2876494627, 1917518562, 3810496343, 1716890410,
   3001755655, 800440835, 2261089178, 3543599269, 807962610, 599762354, 33778362, 3977675356,
   2328828971, 2809771154, 4077384432, 1315562145, 1708848333, 101039829, 3509871135, 3299278474,
   875451293, 2733856160, 92987698, 2767645557, 193195065, 1080094634, 1584504582, 3178106961,
   1042385657, 2531067453, 3711829422, 1306967366, 2438237621, 1908694277, 67556463, 1615861247,
   429456164, 3602770327, 2302690252, 1742315127, 2968011453, 126454664, 3877198648, 2043211483,
   2709260871, 2084704233, 4169408201, 0, 159417987, 841739592, 504459436, 1817866830, 4245618683,
   260388950, 1034867998, 908933415, 168810852, 1750902305, 2606453969, 607530554, 202008497,
   2472011535, 3035535058, 463180190, 2160117071, 1641816226, 1517767529, 470948374, 3801332234,
   3231722213, 1008918595, 303765277, 235474187, 4069246893, 766945465, 337553864, 1475418501,
   2943682380, 4003061179, 2743034109, 4144047775, 1551037884, 1147550661, 1543208500, 2336434550,
   3408119516, 3069049960, 3102011747, 3610369226, 1113818384, 328671808, 2227573024, 2236228733,
   3535486456, 2935566865, 3341394285, 496906059, 3702665459, 226906860, 2009195472, 733156972,
   2842737049, 294930682, 1206477858, 2835123396, 2700099354, 1451044056, 573804783, 2269728455,
   3644379585, 2362090238, 2564033334, 2801107407, 2776292904, 3669462566, 1068351396, 742039012,
   1350078989, 1784663195, 1417561698, 4136440770, 2430122216, 775550814, 2193862645, 2673705150,
   1775276924, 1876241833, 3475313331, 3366754619, 270040487, 3902563182, 3678124923, 3441850377,
   1851332852, 3969562369, 2203032232, 3868552805, 2868897406, 566021896, 4011190502, 3135740889,
   1248802510, 3936291284, 699432150, 832877231, 708780849, 3332740144, 899835584, 1951317047,
   4236429990, 3767586992, 866637845, 4043610186, 1106041591, 2144161806, 395441711, 1984812685,
   1139781709, 3433712980, 3835036895, 2664543715, 1282050075, 3240894392, 1181045119, 2640243204,
   25965917, 4203181171, 4211818798, 3009879386, 2463879762, 3910161971, 1842759443, 2597806476,
   933301370, 1509430414, 3943906441, 3467192302, 3076639029, 3776767469, 2051518780, 2631065433,
   1441952575, 404016761, 1942435775, 1408749034, 1610459739, 3745345300, 2017778566, 3400528769,
   3110650942, 941896748, 3265478751, 371049330, 3168937228, 675039627, 4279080257, 967311729,
   135050206, 3635733660, 1683407248, 2076935265, 3576870512, 1215061108, 3501741890]

def aesIT1Lit : List Nat :=
  [1347548327, 1400783205, 3273267108, 2520393566, 3409685355, 4045380933, 2880240216, 2471224067,
   1428173050, 4138563181, 2441661558, 636813900, 4233094615, 3620022987, 2149987652, 2411029155,
   1239331162, 1730525723, 2554718734, 3781033664, 46346101, 310463728, 2743944855, 3328955385,
   3875770207, 2501218972, 3955191162, 3667219033, 768917123, 3545789473, 692707433, 1150208456,
   1786102409, 2029293177, 1805211710, 3710368113, 3065962831, 401639597, 1724457132, 3028143674,
   409198410, 2196052529, 1620529459, 1164071807, 3769721975, 2226875310, 486441376, 2499348523,
   1483753576, 428819965, 2274680428, 3075636216, 598438867, 3799141122, 1474502543, 711349675,
   129166120, 53458370, 2592523643, 2782082824, 4063242375, 2988687269, 3120694122, 1559041666,
   730517276, 2460449204, 4042459122, 2706270690, 3446004468, 3573941694, 533804130, 2328143614,
   2637442643, 2695033685, 839224033, 1973745387, 957055980, 2856345839, 106852767, 1371368976,
   4181598602, 1033297158, 2933734917, 1179510461, 3046200461, 91341917, 1862534868, 4284502037,
   605657339, 2547432937, 3431546947, 2003294622, 3182487618, 2282195339, 954669403, 3682191598,
   1201765386, 3917234703, 3388507166, 0, 2198438022, 1211247597, 2887651696, 1315723890,
   4227665663, 1443857720, 507358933, 657861945, 1678381017, 560487590, 3516619604, 975451694,
   2970356327, 261314535, 3535072918, 2652609425, 1333838021, 2724322336, 1767536459, 370938394,
   182621114, 3854606378, 1128014560, 487725847, 185469197, 2918353863, 3106780840, 3356761769,
   2237133081, 1286567175, 3152976349, 4255350624, 2683765030, 3160175349, 3309594171, 878443390,
   1988838185, 3704300486, 1756818940, 1673061617, 3403100636, 272786309, 1075025698, 545572369,
   2105887268, 4174560061, 296679730, 1841768865, 1260232239, 4091327024, 3960309330, 3497509347,
   1814803222, 2578018489, 4195456072, 575138148, 3299409036, 446754879, 3629546796, 4011996048,
   3347532110, 3252238545, 4270639778, 915985419, 3483825537, 681933534, 651868046, 2755636671,
   3828103837, 223377554, 2607439820, 1649704518, 3270937875, 3901806776, 1580087799, 4118987695,
   3198115200, 2087309459, 2842678573, 3016697106, 1003007129, 2802849917, 1860738147, 2077965243,
   164439672, 4100872472, 32283319, 2827177882, 1709610350, 2125135846, 136428751, 3874428392,
   3652904859, 3460984630, 3572145929, 3593056380, 2939266226, 824852259, 818324884, 3224740454,
   930369212, 2801566410, 2967507152, 355706840, 1257309336, 4148292826, 243256656, 790073846,
   2373340630, 1296297904, 1422699085, 3756299780, 3818836405, 457992840, 3099667487, 2135319889,
   77422314, 1560382517, 1945798516, 788204353, 1521706781, 1385356242, 870912086, 325965383,
   2358957921, 2050466060, 2388260884, 2313884476, 4006521127, 901210569, 3990953189, 1014646705,
   1503449823, 1062597235, 2031621326, 3212035895, 3931371469, 1533017514, 350174575, 2256028891,
   2177544179, 1052338372, 741876788, 1606591296, 1914052035, 213705253, 2334669897, 1107234197,
   1899603969, 3725069491, 2631447780, 2422494913, 1635502980, 1893020342, 1950903388, 1120974935]

def aesIT2Lit : List Nat :=
  [2807058932, 1699970625, 2764249623, 1586903591, 1808481195, 1173430173, 1487645946, 59984867,
   4199882800, 1844882806, 1989249228, 1277555970, 3623636965, 3419915562, 1149249077, 2744104290,
   1514790577, 459744698, 244860394, 3235995134, 1963115311, 4027744588, 2544078150, 4190530515,
   1608975247, 2627016082, 2062270317, 1507497298, 2200818878, 567498868, 1764313568, 3359936201,
   2305455554, 2037970062, 1047239000, 1910319033, 1337376481, 2904027272, 2892417312, 984907214,
   1243112415, 830661914, 861968209, 2135253587, 2011214180, 2927934315, 2686254721, 731183368,
   1750626376, 4246310725, 1820824798, 4172763771, 3542330227, 48394827, 2404901663, 2871682645,
   671593195, 3254988725, 2073724613, 145085239, 2280796200, 2779915199, 1790575107, 2187128086,
   472615631, 3029510009, 4075877127, 3802222185, 4107101658, 3201631749, 1646252340, 4270507174,
   1402811438, 1436590835, 3778151818, 3950355702, 3963161475, 4020912224, 2667994737, 273792366,
   2331590177, 104699613, 95345982, 3175501286, 2377486676, 1560637892, 3564045318, 369057872,
   4213447064, 3919042237, 1137477952, 2658625497, 1119727848, 2340947849, 1530455833, 4007360968,
   172466556, 266959938, 516552836, 0, 2256734592, 3980931627, 1890328081, 1917742170, 4294704398,
   945164165, 3575528878, 958871085, 3647212047, 2787207260, 1423022939, 775562294, 1739656202,
   3876557655, 2530391278, 2443058075, 3310321856, 547512796, 1265195639, 437656594, 3121275539,
   719700128, 3762502690, 387781147, 218828297, 3350065803, 2830708150, 2848461854, 428169201,
   122466165, 3720081049, 1627235199, 648017665, 4122762354, 1002783846, 2117360635, 695634755,
   3336358691, 4234721005, 4049844452, 3704280881, 2232435299, 574624663, 287343814, 612205898,
   1039717051, 840019705, 2708326185, 793451934, 821288114, 1391201670, 3822090177, 376187827,
   3113855344, 1224348052, 1679968233, 2361698556, 1058709744, 752375421, 2431590963, 1321699145,
   3519142200, 2734591178, 188127444, 2177869557, 3727205754, 2384911031, 3215212461, 2648976442,
   2450346104, 3432737375, 1180849278, 331544205, 3102249176, 4150144569, 2952102595, 2159976285,
   2474404304, 766078933, 313773861, 2570832044, 2108100632, 1668212892, 3145456443, 2013908262,
   418672217, 3070356634, 2594734927, 1852171925, 3867060991, 3473416636, 3907448597, 2614737639,
   919489135, 164948639, 2094410160, 2997825956, 590424639, 2486224549, 1723872674, 3157750862,
   3399941250, 3501252752, 3625268135, 2555048196, 3673637356, 1343127501, 4130281361, 3599595085,
   2957853679, 1297403050, 81781910, 3051593425, 2283490410, 532201772, 1367295589, 3926170974,
   895287692, 1953757831, 1093597963, 492483431, 3528626907, 1446242576, 1192455638, 1636604631,
   209336225, 344873464, 1015671571, 669961897, 3375740769, 3857572124, 2973530695, 3747192018,
   1933530610, 3464042516, 935293895, 3454686199, 2858115069, 1863638845, 3683022916, 4085369519,
   3292445032, 875313188, 1080017571, 3279033885, 621591778, 1233856572, 2504130317, 24197544,
   3017672716, 3835484340, 3247465558, 2220981195, 3060847922, 1551124588, 1463996600]

def aesIT3Lit : List Nat :=
  [4104605777, 1097159550, 396673818, 660510266, 2875968315, 2638606623, 4200115116, 3808662347,
   821712160, 1986918061, 3430322568, 38544885, 3856137295, 718002117, 893681702, 1654886325,
   2975484382, 3122358053, 3926825029, 4274053469, 796197571, 1290801793, 1184342925, 3556361835,
   2405426947, 2459735317, 1836772287, 1381620373, 3196267988, 1948373848, 3764988233, 3385345166,
   3263785589, 2390325492, 1480485785, 3111247143, 3780097726, 2293045232, 548169417, 3459953789,
   3746175075, 439452389, 1362321559, 1400849762, 1685577905, 1806599355, 2174754046, 137073913,
   1214797936, 1174215055, 3731654548, 2079897426, 1943217067, 1258480242, 529487843, 1437280870,
   3945269170, 3049390895, 3313212038, 923313619, 679998000, 3215307299, 57326082, 377642221,
   3474729866, 2041877159, 133361907, 1776460110, 3673476453, 96392454, 878845905, 2801699524,
   777231668, 4082475170, 2330014213, 4142626212, 2213296395, 1626319424, 1906247262, 1846563261,
   562755902, 3708173718, 1040559837, 3871163981, 1418573201, 3294430577, 114585348, 1343618912,
   2566595609, 3186202582, 1078185097, 3651041127, 3896688048, 2307622919, 425408743, 3371096953,
   2081048481, 1108339068, 2216610296, 0, 2156299017, 736970802, 292596766, 1517440620, 251657213,
   2235061775, 2933202493, 758720310, 265905162, 1554391400, 1532285339, 908999204, 174567692,
   1474760595, 4002861748, 2610011675, 3234156416, 3693126241, 2001430874, 303699484, 2478443234,
   2687165888, 585122620, 454499602, 151849742, 2345119218, 3064510765, 514443284, 4044981591,
   1963412655, 2581445614, 2137062819, 19308535, 1928707164, 1715193156, 4219352155, 1126790795,
   600235211, 3992742070, 3841024952, 836553431, 1669664834, 2535604243, 3323011204, 1243905413,
   3141400786, 4180808110, 698445255, 2653899549, 2989552604, 2253581325, 3252932727, 3004591147,
   1891211689, 2487810577, 3915653703, 4237083816, 4030667424, 2100090966, 865136418, 1229899655,
   953270745, 3399679628, 3557504664, 4118925222, 2061379749, 3079546586, 2915017791, 983426092,
   2022837584, 1607244650, 2118541908, 2366882550, 3635996816, 972512814, 3283088770, 1568718495,
   3499326569, 3576539503, 621982671, 2895723464, 410887952, 2623762152, 1002142683, 645401037,
   1494807662, 2595684844, 1335535747, 2507040230, 4293295786, 3167684641, 367585007, 3885750714,
   1865862730, 2668221674, 2960971305, 2763173681, 1059270954, 2777952454, 2724642869, 1320957812,
   2194319100, 2429595872, 2815956275, 77089521, 3973773121, 3444575871, 2448830231, 1305906550,
   4021308739, 2857194700, 2516901860, 3518358430, 1787304780, 740276417, 1699839814, 1592394909,
   2352307457, 2272556026, 188821243, 1729977011, 3687994002, 274084841, 3594982253, 3613494426,
   2701949495, 4162096729, 322734571, 2837966542, 1640576439, 484830689, 1202797690, 3537852828,
   4067639125, 349075736, 3342319475, 4157467219, 4255800159, 1030690015, 1155237496, 2951971274,
   1757691577, 607398968, 2738905026, 499347990, 3794078908, 1011452712, 227885567, 2818666809,
   213114376, 3034881240, 1455525988, 3414450555, 850817237, 1817998408, 3092726480]

def md5TLit : List Nat :=
  [3614090360, 3905402710, 606105819, 3250441966, 4118548399, 1200080426, 2821735955, 4249261313,
   1770035416, 2336552879, 4294925233, 2304563134, 1804603682, 4254626195, 2792965006, 1236535329,
   4129170786, 3225465664, 643717713, 3921069994, 3593408605, 38016083, 3634488961, 3889429448,
   568446438, 3275163606, 4107603335, 1163531501, 2850285829, 4243563512, 1735328473, 2368359562,
   4294588738, 2272392833, 1839030562, 4259657740, 2763975236, 1272893353, 4139469664, 3200236656,
   681279174, 3936430074, 3572445317, 76029189, 3654602809, 3873151461, 530742520, 3299628645,
   4096336452, 1126891415, 2878612391, 4237533241, 1700485571, 2399980690, 4293915773, 2240044497,
   1873313359, 4264355552, 2734768916, 1309151649, 4149444226, 3174756917, 718787259, 3951481745]

structure AesGenState where
  e : Nat
  j : Nat
  sboxA : List Nat
  sinvA : List Nat
  t0A : List Nat
  t1A : List Nat
  t2A : List Nat
  t3A : List Nat
  it0A : List Nat
  it1A : List Nat
  it2A : List Nat
  it3A : List Nat
deriving DecidableEq

/-- `a[c] = c < 128 ? c << 1 : c << 1 ^ 283` (the doubling table). -/
def aesXtimeGen : List Nat :=
  (List.range 256).map (fun c => if c < 128 then c <<< 1 else (c <<< 1) ^^^ 283)

/-- One iteration of the CryptoJS AES table-generation loop. -/
def aesGenStep (st : AesGenState) : AesGenState :=
  let a := aesXtimeLit
  let e := st.e
  let j := st.j
  let k := j ^^^ (j <<< 1) ^^^ (j <<< 2) ^^^ (j <<< 3) ^^^ (j <<< 4)
  let k := (k >>> 8) ^^^ (k &&& 255) ^^^ 99
  let z := a.getD e 0
  let f := a.getD z 0
  let g := a.getD f 0
  let y := ((257 * a.getD k 0) ^^^ (16843008 * k)) % 2 ^ 32
  let y2 := ((16843009 * g) ^^^ (65537 * f) ^^^ (257 * z) ^^^ (16843008 * e)) % 2 ^ 32
  { e := if e ≠ 0 then z ^^^ a.getD (a.getD (a.getD (g ^^^ z) 0) 0) 0 else 1,
    j := if e ≠ 0 then j ^^^ a.getD (a.getD j 0) 0 else 1,
    sboxA := st.sboxA.set e k,
    sinvA := st.sinvA.set k e,
    t0A := st.t0A.set e (((y <<< 24) ||| (y >>> 8)) % 2 ^ 32),
    t1A := st.t1A.set e (((y <<< 16) ||| (y >>> 16)) % 2 ^ 32),
    t2A := st.t2A.set e (((y <<< 8) ||| (y >>> 24)) % 2 ^ 32),
    t3A := st.t3A.set e y,
    it0A := st.it0A.set k (((y2 <<< 24) ||| (y2 >>> 8)) % 2 ^ 32),
    it1A := st.it1A.set k (((y2 <<< 16) ||| (y2 >>> 16)) % 2 ^ 32),
    it2A := st.it2A.set k (((y2 <<< 8) ||| (y2 >>> 24)) % 2 ^ 32),
    it3A := st.it3A.set k y2 }

def aesGen : AesGenState :=
  (List.range 256).foldl (fun st _ => aesGenStep st)
    ⟨0, 0, List.replicate 256 0, List.replicate 256 0, List.replicate 256 0,
     List.replicate 256 0, List.replicate 256 0, List.replicate 256 0,
     List.replicate 256 0, List.replicate 256 0, List.replicate 256 0,
     List.replicate 256 0⟩

/-- The `RCON` values `H` of the key schedule. -/
def aesRcon : List Nat := [0, 1, 2, 4, 8, 16, 32, 64, 128, 27, 54]

/-- `l[k>>>24]<<24 | l[k>>>16&255]<<16 | l[k>>>8&255]<<8 | l[k&255]`. -/
def aesSubWord (k : Nat) : Nat :=
  (aesSboxLit.getD (k >>> 24) 0 <<< 24) |||
  (aesSboxLit.getD ((k >>> 16) &&& 255) 0 <<< 16) |||
  (aesSboxLit.getD ((k >>> 8) &&& 255) 0 <<< 8) |||
  aesSboxLit.getD (k &&& 255) 0

/-- The AES-256 key schedule (`_doReset`): builds the 60 words `e[j]` from
the 8 key words; `cnt` counts the remaining rows. -/
def keyScheduleGo (keyWords : List Nat) : List Nat → Nat → List Nat
  | e, 0 => e
  | e, Nat.succ cnt =>
    let j := e.length
    let w :=
      if j < 8 then keyWords.getD j 0
      else
        let k := e.getD (j - 1) 0
        let k :=
          if j % 8 = 0 then
            aesSubWord (((k <<< 8) ||| (k >>> 24)) % 2 ^ 32) ^^^
              ((aesRcon.getD (j / 8) 0 <<< 24) % 2 ^ 32)
          else if j % 8 = 4 then aesSubWord k
          else k
        e.getD (j - 8) 0 ^^^ k
    keyScheduleGo keyWords (e ++ [w]) cnt

def keySchedule (keyWords : List Nat) : List Nat :=
  keyScheduleGo keyWords [] 60

/-- The inverse key schedule (`_doReset` continued): `c[d] = e[j]` (or
`e[j-4]`) passed through `InvMixColumns` via the inverse tables except at
both ends. -/
def invKeySchedule (e : List Nat) : List Nat :=
  (List.range 60).map (fun d =>
    let j := 60 - d
    let k := if d % 4 ≠ 0 then e.getD j 0 else e.getD (j - 4) 0
    if d < 4 ∨ j ≤ 4 then k
    else
      aesIT0Lit.getD (aesSboxLit.getD (k >>> 24) 0) 0 ^^^
      aesIT1Lit.getD (aesSboxLit.getD ((k >>> 16) &&& 255) 0) 0 ^^^
      aesIT2Lit.getD (aesSboxLit.getD ((k >>> 8) &&& 255) 0) 0 ^^^
      aesIT3Lit.getD (aesSboxLit.getD (k &&& 255) 0) 0)

/-- A 4-word (128-bit) AES state. -/
structure W4 where
  a : Nat
  b : Nat
  c : Nat
  d : Nat
deriving DecidableEq

def w4xor (u v : W4) : W4 :=
  ⟨u.a ^^^ v.a, u.b ^^^ v.b, u.c ^^^ v.c, u.d ^^^ v.d⟩

/-- One middle round of `_doCryptBlock`: the four T-table equations. -/
def aesRound (T0 T1 T2 T3 : List Nat) (rk : W4) (st : W4) : W4 :=
  ⟨T0.getD (st.a >>> 24) 0 ^^^ T1.getD ((st.b >>> 16) &&& 255) 0 ^^^
     T2.getD ((st.c >>> 8) &&& 255) 0 ^^^ T3.getD (st.d &&& 255) 0 ^^^ rk.a,
   T0.getD (st.b >>> 24) 0 ^^^ T1.getD ((st.c >>> 16) &&& 255) 0 ^^^
     T2.getD ((st.d >>> 8) &&& 255) 0 ^^^ T3.getD (st.a &&& 255) 0 ^^^ rk.b,
   T0.getD (st.c >>> 24) 0 ^^^ T1.getD ((st.d >>> 16) &&& 255) 0 ^^^
     T2.getD ((st.a >>> 8) &&& 255) 0 ^^^ T3.getD (st.b &&& 255) 0 ^^^ rk.c,
   T0.getD (st.d >>> 24) 0 ^^^ T1.getD ((st.a >>> 16) &&& 255) 0 ^^^
     T2.getD ((st.b >>> 8) &&& 255) 0 ^^^ T3.getD (st.c &&& 255) 0 ^^^ rk.d⟩

/-- The final round of `_doCryptBlock`: the plain S-box packed bytewise. -/
def aesFinalRound (SB : List Nat) (rk : W4) (st : W4) : W4 :=
  ⟨((SB.getD (st.a >>> 24) 0 <<< 24) ||| (SB.getD ((st.b >>> 16) &&& 255) 0 <<< 16) |||
      (SB.getD ((st.c >>> 8) &&& 255) 0 <<< 8) ||| SB.getD (st.d &&& 255) 0) ^^^ rk.a,
   ((SB.getD (st.b >>> 24) 0 <<< 24) ||| (SB.getD ((st.c >>> 16) &&& 255) 0 <<< 16) |||
      (SB.getD ((st.d >>> 8) &&& 255) 0 <<< 8) ||| SB.getD (st.a &&& 255) 0) ^^^ rk.b,
   ((SB.getD (st.c >>> 24) 0 <<< 24) ||| (SB.getD ((st.d >>> 16) &&& 255) 0 <<< 16) |||
      (SB.getD ((st.a >>> 8) &&& 255) 0 <<< 8) ||| SB.getD (st.b &&& 255) 0) ^^^ rk.c,
   ((SB.getD (st.d >>> 24) 0 <<< 24) ||| (SB.getD ((st.a >>> 16) &&& 255) 0 <<< 16) |||
      (SB.getD ((st.b >>> 8) &&& 255) 0 <<< 8) ||| SB.getD (st.c &&& 255) 0) ^^^ rk.d⟩

def ksW4 (ks : List Nat) (p : Nat) : W4 :=
  ⟨ks.getD p 0, ks.getD (p + 1) 0, ks.getD (p + 2) 0, ks.getD (p + 3) 0⟩

def aesRoundsGo (T0 T1 T2 T3 : List Nat) (ks : List Nat) :
    Nat → Nat → W4 → W4
  | _, 0, st => st
  | p, Nat.succ m, st =>
    aesRoundsGo T0 T1 T2 T3 ks (p + 4) m (aesRound T0 T1 T2 T3 (ksW4 ks p) st)

/-- `_doCryptBlock` for the fixed 14 rounds of AES-256. -/
def doCryptBlock (ks T0 T1 T2 T3 SB : List Nat) (st : W4) : W4 :=
  let st0 := w4xor st (ksW4 ks 0)
  let stm := aesRoundsGo T0 T1 T2 T3 ks 4 13 st0
  aesFinalRound SB (ksW4 ks 56) stm

def encryptBlock (ks : List Nat) (st : W4) : W4 :=
  doCryptBlock ks aesT0Lit aesT1Lit aesT2Lit aesT3Lit aesSboxLit st

/-- `decryptBlock` swaps words 1 and 3 around the core with the inverse
tables and the inverse key schedule. -/
def decryptBlock (iks : List Nat) (st : W4) : W4 :=
  let st1 : W4 := ⟨st.a, st.d, st.c, st.b⟩
  let r := doCryptBlock iks aesIT0Lit aesIT1Lit aesIT2Lit aesIT3Lit aesSinvLit st1
  ⟨r.a, r.d, r.c, r.b⟩

/-! ### MD5 (the CryptoJS `MD5` used only through `EvpKDF`)

The minified source parses input as big-endian words and byte-swaps them in
`_doProcessBlock`, which at the byte level is standard little-endian MD5; it
is translated here directly at the byte level.  The 64 constants are
`4294967296 * abs(sin(i+1)) | 0`, given as literals (`md5TLit` above).
Intermediate values are normalised with `% 2 ^ 32` at each step; the source
leaves some sums unnormalised until the next bitwise coercion, which is
observationally the same since every later use is modulo `2 ^ 32`. -/

def md5F (x y z : Nat) : Nat := (x &&& y) ||| ((x ^^^ 0xffffffff) &&& z)

def md5G (x y z : Nat) : Nat := (x &&& z) ||| (y &&& (z ^^^ 0xffffffff))

def md5H (x y z : Nat) : Nat := x ^^^ y ^^^ z

def md5I (x y z : Nat) : Nat := y ^^^ (x ||| (z ^^^ 0xffffffff))

def rotl32 (s x : Nat) : Nat := ((x <<< s) ||| (x >>> (32 - s))) % 2 ^ 32

def md5Shifts : List Nat := [7, 12, 17, 22, 5, 9, 14, 20, 4, 11, 16, 23, 6, 10, 15, 21]

structure Md5State where
  a : Nat
  b : Nat
  c : Nat
  d : Nat
deriving DecidableEq

def md5Step (x : List Nat) (st : Md5State) (i : Nat) : Md5State :=
  let f :=
    if i < 16 then md5F st.b st.c st.d
    else if i < 32 then md5G st.b st.c st.d
    else if i < 48 then md5H st.b st.c st.d
    else md5I st.b st.c st.d
  let k :=
    if i < 16 then i
    else if i < 32 then (5 * i + 1) % 16
    else if i < 48 then (3 * i + 5) % 16
    else (7 * i) % 16
  let s := md5Shifts.getD ((i / 16) * 4 + i % 4) 0
  let nb := (rotl32 s ((st.a + f + x.getD k 0 + md5TLit.getD i 0) % 2 ^ 32) + st.b) % 2 ^ 32
  ⟨st.d, nb, st.b, st.c⟩

/-- Little-endian packing of bytes into 32-bit words. -/
def bytesToWordsLE : List Nat → List Nat
  | [] => []
  | [a] => [a]
  | [a, b] => [a ||| (b <<< 8)]
  | [a, b, c] => [a ||| (b <<< 8) ||| (c <<< 16)]
  | a :: b :: c :: d :: rest =>
    (a ||| (b <<< 8) ||| (c <<< 16) ||| (d <<< 24)) :: bytesToWordsLE rest

def md5Block (st : Md5State) (x : List Nat) : Md5State :=
  let r := (List.range 64).foldl (md5Step x) st
  ⟨(st.a + r.a) % 2 ^ 32, (st.b + r.b) % 2 ^ 32,
   (st.c + r.c) % 2 ^ 32, (st.d + r.d) % 2 ^ 32⟩

def md5Loop : Md5State → List Nat → Nat → Md5State
  | st, _, 0 => st
  | st, ws, Nat.succ n => md5Loop (md5Block st (ws.take 16)) (ws.drop 16) n

def md5Pad (msg : List Nat) : List Nat :=
  let lenBits := msg.length * 8 % 2 ^ 64
  msg ++ [0x80] ++ List.replicate ((119 - msg.length % 64) % 64) 0 ++
    [lenBits % 256, lenBits / 2 ^ 8 % 256, lenBits / 2 ^ 16 % 256,
     lenBits / 2 ^ 24 % 256, lenBits / 2 ^ 32 % 256, lenBits / 2 ^ 40 % 256,
     lenBits / 2 ^ 48 % 256, lenBits / 2 ^ 56 % 256]

def wordLE4 (w : Nat) : List Nat :=
  [w &&& 255, (w >>> 8) &&& 255, (w >>> 16) &&& 255, (w >>> 24) &&& 255]

def md5Bytes (msg : List Nat) : List Nat :=
  let padded := md5Pad msg
  let st := md5Loop ⟨1732584193, 4023233417, 2562383102, 271733878⟩
    (bytesToWordsLE padded) (padded.length / 64)
  wordLE4 st.a ++ wordLE4 st.b ++ wordLE4 st.c ++ wordLE4 st.d

/-- `EvpKDF` with `keySize = 8` words, `ivSize = 4` words, MD5 hasher, one
iteration: three MD5 blocks are concatenated to give 48 bytes (32-byte key
followed by the 16-byte IV). -/
def evpkdf48 (password salt : List Nat) : List Nat :=
  let b1 := md5Bytes (password ++ salt)
  let b2 := md5Bytes (b1 ++ password ++ salt)
  let b3 := md5Bytes (b2 ++ password ++ salt)
  b1 ++ b2 ++ b3

/-! ### Base64 (`CryptoJS.enc.Base64`) -/

def b64Map : List Char :=
  "ABCDEFGHIJKLMNOPQRSTUVWXYZabcdefghijklmnopqrstuvwxyz0123456789+/=".data

/-- `stringify`: three bytes become four alphabet characters; a trailing
group of one or two bytes emits two or three characters and is padded with
`=` to a multiple of four, exactly as the source loop with its
`r + 0.75 * v < sigBytes` guard does. -/
def base64StringifyGo : List Nat → List Char
  | [] => []
  | [a] =>
    let w := a <<< 16
    [b64Map.getD ((w >>> 18) &&& 63) 'A', b64Map.getD ((w >>> 12) &&& 63) 'A', '=', '=']
  | [a, b] =>
    let w := (a <<< 16) ||| (b <<< 8)
    [b64Map.getD ((w >>> 18) &&& 63) 'A', b64Map.getD ((w >>> 12) &&& 63) 'A',
     b64Map.getD ((w >>> 6) &&& 63) 'A', '=']
  | a :: b :: c :: rest =>
    let w := (a <<< 16) ||| (b <<< 8) ||| c
    b64Map.getD ((w >>> 18) &&& 63) 'A' :: b64Map.getD ((w >>> 12) &&& 63) 'A' ::
      b64Map.getD ((w >>> 6) &&& 63) 'A' :: b64Map.getD (w &&& 63) 'A' ::
      base64StringifyGo rest

def base64Stringify (bytes : List Nat) : String :=
  ⟨base64StringifyGo bytes⟩

/-- `map.indexOf(ch)` as the following bitwise operations see it: the index
for alphabet characters, and `ToUint32(-1) = 2 ^ 32 - 1` otherwise. -/
def b64IdxGo : List Char → Nat → Char → Nat
  | [], _, _ => 2 ^ 32 - 1
  | m :: rest, i, c => if m = c then i else b64IdxGo rest (i + 1) c

def b64IdxU (c : Char) : Nat := b64IdxGo b64Map 0 c

def takeUntilEq : List Char → List Char
  | [] => []
  | c :: rest => if c = '=' then [] else c :: takeUntilEq rest

/-- `parse`: after truncating at the first `=`, every position `w` with
`w % 4 ≠ 0` contributes the byte
`(idx(ch[w-1]) << 2*(w%4) | idx(ch[w]) >>> (6-2*(w%4))) & 255`; grouped in
fours this is the chunked recursion below (a trailing single character
contributes nothing). -/
def base64ParseGo : List Char → List Nat
  | c0 :: c1 :: c2 :: c3 :: rest =>
    (((b64IdxU c0 <<< 2) % 2 ^ 32 ||| (b64IdxU c1 >>> 4)) &&& 255) ::
    (((b64IdxU c1 <<< 4) % 2 ^ 32 ||| (b64IdxU c2 >>> 2)) &&& 255) ::
    (((b64IdxU c2 <<< 6) % 2 ^ 32 ||| b64IdxU c3) &&& 255) ::
    base64ParseGo rest
  | [c0, c1, c2] =>
    [(((b64IdxU c0 <<< 2) % 2 ^ 32 ||| (b64IdxU c1 >>> 4)) &&& 255),
     (((b64IdxU c1 <<< 4) % 2 ^ 32 ||| (b64IdxU c2 >>> 2)) &&& 255)]
  | [c0, c1] =>
    [(((b64IdxU c0 <<< 2) % 2 ^ 32 ||| (b64IdxU c1 >>> 4)) &&& 255)]
  | _ => []

def base64Parse (s : String) : List Nat :=
  base64ParseGo (takeUntilEq s.data)

/-! ### Padding, CBC chaining and the OpenSSL transport format -/

def pkcs7Pad (bs : List Nat) : List Nat :=
  let c := 16 - bs.length % 16
  bs ++ List.replicate c c

def pkcs7Unpad (bs : List Nat) : List Nat :=
  bs.take (bs.length - ((bs.getLast?.getD 0) &&& 255))

def wordsToW4 : List Nat → List W4
  | a :: b :: c :: d :: rest => ⟨a, b, c, d⟩ :: wordsToW4 rest
  | _ => []

def w4ToWords : List W4 → List Nat
  | [] => []
  | u :: rest => u.a :: u.b :: u.c :: u.d :: w4ToWords rest

def wordsToBytesBE (ws : List Nat) : List Nat :=
  (ws.map (fun w => [w >>> 24, (w >>> 16) &&& 255, (w >>> 8) &&& 255, w &&& 255])).flatten

def cbcEncryptGo (ks : List Nat) (prev : W4) : List W4 → List W4
  | [] => []
  | blk :: rest =>
    let c := encryptBlock ks (w4xor blk prev)
    c :: cbcEncryptGo ks c rest

def cbcDecryptGo (iks : List Nat) (prev : W4) : List W4 → List W4
  | [] => []
  | blk :: rest => w4xor (decryptBlock iks blk) prev :: cbcDecryptGo iks blk rest

/-- The bytes of the OpenSSL format magic `Salted__`
(words `1398893684, 1701076831`). -/
def saltedMagic : List Nat := [83, 97, 108, 116, 101, 100, 95, 95]

/-- Zero-fill to a whole number of blocks: the flushing `_process` call reads
words past `sigBytes`, whose clamped bits are zero.  (For the well-formed,
block-aligned ciphertext produced by `encode` this adds nothing.) -/
def zeroPad16 (bs : List Nat) : List Nat :=
  bs ++ List.replicate ((16 - bs.length % 16) % 16) 0

/-! ### UTF-8 decoding (`CryptoJS.enc.Utf8.stringify`)

`decodeURIComponent(escape(latin1))` decodes the byte stream as UTF-8 and
throws `Malformed UTF-8 data` (caught by `decryptMessages`) on invalid
sequences: stray or missing continuation bytes, overlong encodings,
surrogate code points, or out-of-range code points. -/

def isUtf8Cont (b : Nat) : Bool := 128 ≤ b && b < 192

def utf8DecodeGo : Nat → Nat → Nat → List Nat → List Char → Option (List Char)
  | need, _, _, [], acc => if need = 0 then some acc.reverse else none
  | need, code, minC, b :: rest, acc =>
    if need = 0 then
      if b < 128 then utf8DecodeGo 0 0 0 rest (Char.ofNat b :: acc)
      else if b < 192 then none
      else if b < 224 then utf8DecodeGo 1 (b - 192) 128 rest acc
      else if b < 240 then utf8DecodeGo 2 (b - 224) 2048 rest acc
      else if b < 248 then utf8DecodeGo 3 (b - 240) 65536 rest acc
      else none
    else
      if isUtf8Cont b then
        let code2 := code * 64 + (b - 128)
        if need = 1 then
          if minC ≤ code2 && code2 < 1114112 &&
              (code2 < 55296 || decide (57344 ≤ code2)) then
            utf8DecodeGo 0 0 0 rest (Char.ofNat code2 :: acc)
          else none
        else utf8DecodeGo (need - 1) code2 minC rest acc
      else none

def utf8DecodeBytes (bs : List Nat) : Option String :=
  (utf8DecodeGo 0 0 0 bs []).map (fun l => ⟨l⟩)

/-! ### The message codec

`aesEncode P K salt` is `CryptoJS.AES.encrypt(P, K).toString()` with the
8-byte random salt made explicit; `aesDecode rndSalt T K` is
`CryptoJS.AES.decrypt(T, K).toString(CryptoJS.enc.Utf8)` returning `Except`
instead of throwing (`rndSalt` is the random salt the KDF would draw if the
transport carries no `Salted__` header, which never happens for `aesEncode`
outputs). -/

def aesEncode (plaintext passphrase : String) (salt : List Nat) : String :=
  let kdf := evpkdf48 (utf8Bytes passphrase) salt
  let keyW := bytesToWordsBE (kdf.take 32)
  let ivW := bytesToWordsBE ((kdf.drop 32).take 16)
  let ks := keySchedule keyW
  let iv : W4 := ⟨ivW.getD 0 0, ivW.getD 1 0, ivW.getD 2 0, ivW.getD 3 0⟩
  let data := pkcs7Pad (utf8Bytes plaintext)
  let ctBlocks := cbcEncryptGo ks iv (wordsToW4 (bytesToWordsBE data))
  let ctBytes := wordsToBytesBE (w4ToWords ctBlocks)
  base64Stringify (saltedMagic ++ salt ++ ctBytes)

def aesDecode (rndSalt : List Nat) (transport passphrase : String) :
    Except String String :=
  let bytes := base64Parse transport
  let hasMagic := bytes.take 8 = saltedMagic
  let salt := if hasMagic then (bytes.drop 8).take 8 else rndSalt
  let ct := if hasMagic then bytes.drop 16 else bytes
  let kdf := evpkdf48 (utf8Bytes passphrase) salt
  let keyW := bytesToWordsBE (kdf.take 32)
  let ivW := bytesToWordsBE ((kdf.drop 32).take 16)
  let ks := keySchedule keyW
  let iks := invKeySchedule ks
  let iv : W4 := ⟨ivW.getD 0 0, ivW.getD 1 0, ivW.getD 2 0, ivW.getD 3 0⟩
  let ptBlocks := cbcDecryptGo iks iv (wordsToW4 (bytesToWordsBE (zeroPad16 ct)))
  let ptBytes := (wordsToBytesBE (w4ToWords ptBlocks)).take ct.length
  let pt := pkcs7Unpad ptBytes
  match utf8DecodeBytes pt with
  | some s => Except.ok s
  | none => Except.error "Malformed UTF-8 data"

/-! ### Proof-side byte/word views of the cipher

`pack4`/`wb0..wb3` are the arithmetic view of a big-endian 32-bit word as
four bytes; `gm2..gm14` are multiplication by the AES MixColumns
coefficients in GF(256), expressed through the doubling map `xtimeF` (the
closed form of the source table `a`); `sr4`/`isr4`/`sb4`/`mc4`/`imc4` are
the ShiftRows/SubBytes/MixColumns round maps the T-tables implement.  These
are specification-side definitions used to state and prove that
`encryptBlock` and `decryptBlock` are mutually inverse. -/

def pack4 (b0 b1 b2 b3 : Nat) : Nat :=
  b0 * 2 ^ 24 + b1 * 2 ^ 16 + b2 * 2 ^ 8 + b3

def wb0 (w : Nat) : Nat := w / 2 ^ 24

def wb1 (w : Nat) : Nat := w / 2 ^ 16 % 256

def wb2 (w : Nat) : Nat := w / 2 ^ 8 % 256

def wb3 (w : Nat) : Nat := w % 256

def xtimeF (u : Nat) : Nat := if u < 128 then u <<< 1 else (u <<< 1) ^^^ 283

def gm2 (u : Nat) : Nat := xtimeF u

def gm3 (u : Nat) : Nat := xtimeF u ^^^ u

def gm9 (u : Nat) : Nat := xtimeF (xtimeF (xtimeF u)) ^^^ u

def gm11 (u : Nat) : Nat := xtimeF (xtimeF (xtimeF u)) ^^^ xtimeF u ^^^ u

def gm13 (u : Nat) : Nat := xtimeF (xtimeF (xtimeF u)) ^^^ xtimeF (xtimeF u) ^^^ u

def gm14 (u : Nat) : Nat :=
  xtimeF (xtimeF (xtimeF u)) ^^^ xtimeF (xtimeF u) ^^^ xtimeF u

def sboxF (u : Nat) : Nat := aesSboxLit.getD u 0

def sinvF (u : Nat) : Nat := aesSinvLit.getD u 0

def wmap (f : Nat → Nat) (w : Nat) : Nat :=
  pack4 (f (wb0 w)) (f (wb1 w)) (f (wb2 w)) (f (wb3 w))

def mixCol (w : Nat) : Nat :=
  pack4 (gm2 (wb0 w) ^^^ gm3 (wb1 w) ^^^ wb2 w ^^^ wb3 w)
        (wb0 w ^^^ gm2 (wb1 w) ^^^ gm3 (wb2 w) ^^^ wb3 w)
        (wb0 w ^^^ wb1 w ^^^ gm2 (wb2 w) ^^^ gm3 (wb3 w))
        (gm3 (wb0 w) ^^^ wb1 w ^^^ wb2 w ^^^ gm2 (wb3 w))

def imixCol (w : Nat) : Nat :=
  pack4 (gm14 (wb0 w) ^^^ gm11 (wb1 w) ^^^ gm13 (wb2 w) ^^^ gm9 (wb3 w))
        (gm9 (wb0 w) ^^^ gm14 (wb1 w) ^^^ gm11 (wb2 w) ^^^ gm13 (wb3 w))
        (gm13 (wb0 w) ^^^ gm9 (wb1 w) ^^^ gm14 (wb2 w) ^^^ gm11 (wb3 w))
        (gm11 (wb0 w) ^^^ gm13 (wb1 w) ^^^ gm9 (wb2 w) ^^^ gm14 (wb3 w))

def sb4 (f : Nat → Nat) (st : W4) : W4 :=
  ⟨wmap f st.a, wmap f st.b, wmap f st.c, wmap f st.d⟩

def sr4 (st : W4) : W4 :=
  ⟨pack4 (wb0 st.a) (wb1 st.b) (wb2 st.c) (wb3 st.d),
   pack4 (wb0 st.b) (wb1 st.c) (wb2 st.d) (wb3 st.a),
   pack4 (wb0 st.c) (wb1 st.d) (wb2 st.a) (wb3 st.b),
   pack4 (wb0 st.d) (wb1 st.a) (wb2 st.b) (wb3 st.c)⟩

def isr4 (st : W4) : W4 :=
  ⟨pack4 (wb0 st.a) (wb1 st.d) (wb2 st.c) (wb3 st.b),
   pack4 (wb0 st.b) (wb1 st.a) (wb2 st.d) (wb3 st.c),
   pack4 (wb0 st.c) (wb1 st.b) (wb2 st.a) (wb3 st.d),
   pack4 (wb0 st.d) (wb1 st.c) (wb2 st.b) (wb3 st.a)⟩

def mc4 (st : W4) : W4 := ⟨mixCol st.a, mixCol st.b, mixCol st.c, mixCol st.d⟩

def imc4 (st : W4) : W4 :=
  ⟨imixCol st.a, imixCol st.b, imixCol st.c, imixCol st.d⟩

def swp (st : W4) : W4 := ⟨st.a, st.d, st.c, st.b⟩

/-- All four words of a state are 32-bit values. -/
def w4lt (st : W4) : Prop :=
  st.a < 2 ^ 32 ∧ st.b < 2 ^ 32 ∧ st.c < 2 ^ 32 ∧ st.d < 2 ^ 32

/-- The specification form of one middle encryption round. -/
def encRoundS (rk st : W4) : W4 := w4xor (mc4 (sb4 sboxF (sr4 st))) rk

/-- The specification form of one middle round of the equivalent inverse
cipher (as run by `_doCryptBlock` on the inverse tables). -/
def decRoundS (rk st : W4) : W4 := w4xor (imc4 (sb4 sinvF (sr4 st))) rk

def encFoldS : List W4 → W4 → W4
  | [], st => st
  | k :: rest, st => encFoldS rest (encRoundS k st)

def decFoldS : List W4 → W4 → W4
  | [], st => st
  | k :: rest, st => decFoldS rest (decRoundS k st)

/-- The middle-round keys `ksW4 ks p, ksW4 ks (p+4), ...`. -/
def ksGroups (ks : List Nat) (p : Nat) : Nat → List W4
  | 0 => []
  | Nat.succ m => ksW4 ks p :: ksGroups ks (p + 4) m

-- C1DEFS-MARKER (further definitions are inserted above this line)

/-! # Theorems -/

theorem joinSlash_three (a b c : String) :
    joinSlash [a, b, c] = a ++ "/" ++ b ++ "/" ++ c := by
  simp [joinSlash, String.append_assoc]

/-- C9: the Passphrase Deriver (inject.js `setPassphrase`) and the Key Store
configuration path (popup `loadKeys`/`setKeys`) compute the same scope
identifiers for every location string: both strip the scheme prefix and join
the first three path segments for the broad scope, and both use the full
stripped location as the narrow scope. -/
theorem c9_scope_agreement :
    (∀ loc : String, injectServerUrl loc = popupServerUrl loc) ∧
    (∀ loc : String, injectChannelUrl loc = popupChannelUrl loc) ∧
    (∀ loc : String, 3 ≤ (jsSplit (injectStrippedUrl loc) "/").length →
      injectServerUrl loc = firstThreeSegments (injectStrippedUrl loc)) ∧
    (∀ loc : String, injectChannelUrl loc = injectStrippedUrl loc) := by
  refine ⟨fun _ => rfl, fun _ => rfl, ?_, fun _ => rfl⟩
  intro loc hlen
  rcases hsplit : jsSplit (injectStrippedUrl loc) "/" with _ | ⟨a, _ | ⟨b, _ | ⟨c, rest⟩⟩⟩ <;>
    rw [hsplit] at hlen <;> simp at hlen
  simp only [injectServerUrl, firstThreeSegments, hsplit, jsIndex, List.get?,
    Option.getD_some, List.take, joinSlash_three]

theorem c9_scope_agreement_witness :
    3 ≤ (jsSplit (injectStrippedUrl "https://discordapp.com/channels/586/999") "/").length ∧
    injectServerUrl "https://discordapp.com/channels/586/999" =
      firstThreeSegments (injectStrippedUrl "https://discordapp.com/channels/586/999") :=
  ⟨by decide, c9_scope_agreement.2.2.1 "https://discordapp.com/channels/586/999" (by decide)⟩

/-- C10: `setKeys` strips every whitespace character from both entered
secrets before validating or storing them; the channel secret is written only
after (and in addition to) the server secret passing the length check
(strictly more than 5 characters after stripping); a non-empty channel secret
of fewer than 6 characters raises a validation message and is not written; an
empty channel secret is skipped silently. -/
theorem c10_setKeys (su cu si ci : String) :
    ((stripJsWhitespace si).length ≤ 5 →
      setKeysModel su cu si ci =
        ⟨[], ["Your server password is too short"], none⟩) ∧
    (5 < (stripJsWhitespace si).length → stripJsWhitespace ci = "" →
      setKeysModel su cu si ci =
        ⟨[(su, stripJsWhitespace si)], [], some setKeysDoneMsg⟩) ∧
    (5 < (stripJsWhitespace si).length → stripJsWhitespace ci ≠ "" →
      (stripJsWhitespace ci).length ≤ 5 →
      setKeysModel su cu si ci =
        ⟨[(su, stripJsWhitespace si)], ["Your channel password is too short"],
         some setKeysDoneMsg⟩) ∧
    (5 < (stripJsWhitespace si).length → 5 < (stripJsWhitespace ci).length →
      setKeysModel su cu si ci =
        ⟨[(su, stripJsWhitespace si), (cu, stripJsWhitespace ci)], [],
         some setKeysDoneMsg⟩) := by
  refine ⟨?_, ?_, ?_, ?_⟩
  · intro h
    simp only [setKeysModel]
    rw [if_neg (by omega)]
  · intro h he
    simp only [setKeysModel]
    rw [if_pos (by omega), if_neg (by simp [he])]
  · intro h hne hlen
    simp only [setKeysModel]
    rw [if_pos (by omega), if_pos (by simpa using hne), if_neg (by omega)]
  · intro h hlen
    have hne : stripJsWhitespace ci ≠ "" := by
      intro he
      rw [he] at hlen
      simp at hlen
    simp only [setKeysModel]
    rw [if_pos (by omega), if_pos (by simpa using hne), if_pos (by omega)]

theorem c10_setKeys_witness :
    setKeysModel "S" "C" "abc" "x" =
      ⟨[], ["Your server password is too short"], none⟩ ∧
    setKeysModel "S" "C" " abc def " "" =
      ⟨[("S", "abcdef")], [], some setKeysDoneMsg⟩ ∧
    setKeysModel "S" "C" " abc def " " x y " =
      ⟨[("S", "abcdef")], ["Your channel password is too short"],
       some setKeysDoneMsg⟩ ∧
    setKeysModel "S" "C" " abc def " "uvwxyz7" =
      ⟨[("S", "abcdef"), ("C", "uvwxyz7")], [], some setKeysDoneMsg⟩ :=
  ⟨(c10_setKeys "S" "C" "abc" "x").1 (by decide),
   (c10_setKeys "S" "C" " abc def " "").2.1 (by decide) (by decide),
   (c10_setKeys "S" "C" " abc def " " x y ").2.2.1 (by decide) (by decide) (by decide),
   (c10_setKeys "S" "C" " abc def " "uvwxyz7").2.2.2 (by decide) (by decide)⟩

set_option maxRecDepth 100000 in
/-- C8: sizing classification appends the `widermessage` hint exactly when
the tag-stripped visible text is strictly longer than 80 characters and
additionally the `evenwidermessage` hint exactly when it is strictly longer
than 200 (both hints retained together); stripped length 81 yields the wide
hint only, 201 yields both, 79 yields neither. -/
theorem c8_sizing :
    (∀ className s : String,
      sizingAppend className s =
        className ++ (if s.length > 80 then " widermessage" else "") ++
          (if s.length > 200 then " evenwidermessage" else "")) ∧
    sizingAppend "" (stripTags ⟨List.replicate 81 'a'⟩) = " widermessage" ∧
    sizingAppend "" (stripTags ⟨List.replicate 201 'a'⟩) =
      " widermessage evenwidermessage" ∧
    sizingAppend "" (stripTags ⟨List.replicate 79 'a'⟩) = "" := by
  refine ⟨?_, by decide, by decide, by decide⟩
  intro className s
  simp only [sizingAppend]
  split_ifs with h1 h2 h3 <;> first | rfl | simp [String.append_assoc]

theorem replFirstL_none (pat rep : List Char) :
    ∀ l : List Char, firstOccIdxL pat l = none → replFirstL pat rep l = l := by
  intro l
  induction l with
  | nil =>
    intro h
    simp only [firstOccIdxL] at h
    by_cases hp : pat.isEmpty
    · simp [hp] at h
    · simp [replFirstL, hp]
  | cons c rest ih =>
    intro h
    simp only [firstOccIdxL] at h
    by_cases hp : pat.isPrefixOf (c :: rest) = true
    · rw [if_pos hp] at h
      exact absurd h (by simp)
    · rw [if_neg hp] at h
      rcases hfo : firstOccIdxL pat rest with _ | j
      · simp only [replFirstL]
        rw [if_neg hp, ih hfo]
      · rw [hfo] at h
        simp [Option.map] at h

theorem replFirstL_some (pat rep : List Char) :
    ∀ (l : List Char) (i : Nat), firstOccIdxL pat l = some i →
      replFirstL pat rep l = l.take i ++ rep ++ l.drop (i + pat.length) := by
  intro l
  induction l with
  | nil =>
    intro i h
    simp only [firstOccIdxL] at h
    by_cases hp : pat.isEmpty
    · rw [if_pos hp] at h
      obtain rfl : (0 : Nat) = i := Option.some.inj h
      rw [List.isEmpty_iff] at hp
      simp [replFirstL, hp]
    · rw [if_neg hp] at h
      exact absurd h (by simp)
  | cons c rest ih =>
    intro i h
    simp only [firstOccIdxL] at h
    by_cases hp : pat.isPrefixOf (c :: rest) = true
    · rw [if_pos hp] at h
      obtain rfl : (0 : Nat) = i := Option.some.inj h
      simp [replFirstL, hp]
    · rw [if_neg hp] at h
      rcases hfo : firstOccIdxL pat rest with _ | j
      · rw [hfo] at h
        exact absurd h (by simp)
      · rw [hfo] at h
        simp only [Option.map] at h
        obtain rfl : j + 1 = i := Option.some.inj h
        simp only [replFirstL]
        rw [if_neg hp, ih j hfo]
        simp [List.take_succ_cons, List.drop_succ_cons, Nat.succ_add]

/-- C7 (amended): emoji substitution is attempted only when the text reaching
it (the decrypted plaintext after the URL-classification step) contains a
colon, and then performs, for each known shorthand code in map order, a
single literal first-match substring replacement — `jsReplaceFirst` leaves a
string without an occurrence unchanged and replaces exactly the first
occurrence otherwise.  (The original claim additionally asserted that a
replacement never lands inside markup inserted by the URL step or by a
previous code; `c7_counterexample` refutes that.) -/
theorem c7_emoji_substitution :
    (∀ (emap : List (String × String)) (d : String),
      (jsSplit d ":").length ≤ 1 → emojiStep emap d = d) ∧
    (∀ (emap : List (String × String)) (d : String),
      1 < (jsSplit d ":").length →
      emojiStep emap d =
        emap.foldl (fun acc kv => jsReplaceFirst acc kv.1 kv.2) d) ∧
    (∀ s pat rep : String, firstOccIdxL pat.data s.data = none →
      jsReplaceFirst s pat rep = s) ∧
    (∀ (s pat rep : String) (i : Nat), firstOccIdxL pat.data s.data = some i →
      jsReplaceFirst s pat rep =
        ⟨s.data.take i ++ rep.data ++ s.data.drop (i + pat.data.length)⟩) := by
  refine ⟨?_, ?_, ?_, ?_⟩
  · intro emap d h
    simp only [emojiStep]
    rw [if_neg (by omega)]
  · intro emap d h
    simp only [emojiStep]
    rw [if_pos (by omega)]
  · intro s pat rep h
    obtain ⟨l⟩ := s
    simp only [jsReplaceFirst]
    rw [replFirstL_none pat.data rep.data l h]
  · intro s pat rep i h
    obtain ⟨l⟩ := s
    simp only [jsReplaceFirst]
    rw [replFirstL_some pat.data rep.data l i h]

theorem c7_emoji_substitution_witness :
    (jsSplit "abc" ":").length ≤ 1 ∧
    emojiStep loadEmojisBase "abc" = "abc" ∧
    1 < (jsSplit "a:b" ":").length ∧
    emojiStep [(":x:", "Z")] "a:b" =
      [(":x:", "Z")].foldl (fun acc kv => jsReplaceFirst acc kv.1 kv.2) "a:b" ∧
    firstOccIdxL "X".data "aXbXc".data = some 1 ∧
    jsReplaceFirst "aXbXc" "X" "Y" =
      ⟨"aXbXc".data.take 1 ++ "Y".data ++ "aXbXc".data.drop (1 + "X".data.length)⟩ ∧
    firstOccIdxL "q".data "aXbXc".data = none ∧
    jsReplaceFirst "aXbXc" "q" "Y" = "aXbXc" :=
  ⟨by decide, c7_emoji_substitution.1 loadEmojisBase "abc" (by decide),
   by decide, c7_emoji_substitution.2.1 [(":x:", "Z")] "a:b" (by decide),
   by decide, c7_emoji_substitution.2.2.2 "aXbXc" "X" "Y" 1 (by decide),
   by decide, c7_emoji_substitution.2.2.1 "aXbXc" "q" "Y" (by decide)⟩

set_option maxRecDepth 100000 in
/-- C7 counterexample: with the emoji map installed by `loadEmojis`, the
plaintext `see https://a/:joy:/b.png` is first turned by the URL step into
markup containing `<a href="https://a/:joy:/b.png">`, and the emoji loop then
substitutes the `:joy:` markup *inside* that inserted anchor markup (the
anchor href is destroyed and the image markup appears inside it), refuting
the claim that replacement never re-substitutes inside markup inserted by the
URL-classification step. -/
theorem c7_counterexample :
    jsIncludes ((urlStep "see https://a/:joy:/b.png").1)
      "<a href=\"https://a/:joy:/b.png\">" = true ∧
    jsIncludes (emojiStep loadEmojisBase ((urlStep "see https://a/:joy:/b.png").1))
      "<a href=\"https://a/:joy:/b.png\">" = false ∧
    jsIncludes (emojiStep loadEmojisBase ((urlStep "see https://a/:joy:/b.png").1))
      "<a href=\"https://a/<img src=" = true := by
  refine ⟨by decide, by decide, by decide⟩

theorem takeSetEq {α : Type} : ∀ (l : List α) (n : Nat) (v : α),
    (l.set n v).take n = l.take n := by
  intro l
  induction l with
  | nil => intro n v; simp
  | cons x xs ih =>
    intro n v
    cases n with
    | zero => simp
    | succ m => simp [List.set, List.take, ih xs.length]; exact ih m v

theorem dropSetCons {α : Type} : ∀ (l : List α) (n : Nat) (v : α),
    n < l.length → (l.set n v).drop n = v :: l.drop (n + 1) := by
  intro l
  induction l with
  | nil => intro n v h; simp at h
  | cons x xs ih =>
    intro n v h
    cases n with
    | zero => simp
    | succ m =>
      simp only [List.set, List.drop_succ_cons]
      exact ih m v (by simpa using h)

theorem takeSuccGet {α : Type} : ∀ (l : List α) (n : Nat) (p : α),
    l.get? n = some p → l.take (n + 1) = l.take n ++ [p] := by
  intro l
  induction l with
  | nil => intro n p h; simp [List.get?] at h
  | cons x xs ih =>
    intro n p h
    cases n with
    | zero =>
      simp only [List.get?] at h
      obtain rfl := Option.some.inj h
      simp
    | succ m =>
      simp only [List.get?] at h
      simp [List.take_succ_cons, ih m p h]

theorem passLoop_spec (decrypt : String → Except String String)
    (emap : List (String × String)) :
    ∀ (k : Nat) (nodes : List (String × String)),
      passLoop decrypt emap nodes k =
        (nodes.take (k + 1)).map (fun p => processNode decrypt emap p.1 p.2) ++
          nodes.drop (k + 1) := by
  intro k
  induction k with
  | zero =>
    intro nodes
    cases hg : nodes.get? 0 with
    | none =>
      have hlen : nodes.length ≤ 0 := by
        cases nodes with
        | nil => simp
        | cons a l => simp [List.get?] at hg
      have hnil : nodes = [] := List.eq_nil_of_length_eq_zero (by omega)
      subst hnil
      simp [passLoop, processAt]
    | some p =>
      cases nodes with
      | nil => simp [List.get?] at hg
      | cons a l =>
        simp only [List.get?] at hg
        obtain rfl := Option.some.inj hg
        simp [passLoop, processAt, List.get?, List.set]
  | succ k ih =>
    intro nodes
    show passLoop decrypt emap (processAt decrypt emap nodes (k + 1)) k = _
    rw [ih]
    cases hg : nodes.get? (k + 1) with
    | none =>
      have hlen : nodes.length ≤ k + 1 := by
        by_contra hlt
        rcases List.get?_eq_get (by omega : k + 1 < nodes.length) with h
        rw [hg] at h
        exact Option.noConfusion h
      simp only [processAt, hg]
      rw [List.take_of_length_le hlen, List.take_of_length_le (by omega),
        List.drop_of_length_le hlen, List.drop_of_length_le (by omega)]
    | some p =>
      have hlt : k + 1 < nodes.length := by
        by_contra hle
        rw [List.get?_eq_none.mpr (by omega)] at hg
        exact Option.noConfusion hg
      simp only [processAt, hg]
      rw [takeSetEq, dropSetCons nodes (k + 1) _ hlt,
        takeSuccGet nodes (k + 1) p hg]
      simp

theorem decryptMessagesPass_eq_map (decrypt : String → Except String String)
    (emap : List (String × String)) (nodes : List (String × String)) :
    decryptMessagesPass decrypt emap nodes =
      nodes.map (fun p => processNode decrypt emap p.1 p.2) := by
  cases hlen : nodes.length with
  | zero =>
    have hnil : nodes = [] := List.eq_nil_of_length_eq_zero hlen
    subst hnil
    rfl
  | succ n =>
    show (match nodes.length with
      | 0 => nodes
      | Nat.succ n => passLoop decrypt emap nodes n) = _
    rw [hlen]
    show passLoop decrypt emap nodes n = _
    rw [passLoop_spec]
    rw [List.take_of_length_le (by omega), List.drop_of_length_le (by omega),
      List.append_nil]

/-- C2: `decryptMessages` never lets a cipher failure escape: on a marked
node, a decrypt error (the `catch` branch) rewrites the node to the literal
fallback text, a successful decryption with empty output is treated exactly
the same, and the pass processes every node independently (it equals a map
over the node list), so a failure on one message cannot stop the processing
of the remaining messages of the same pass. -/
theorem c2_decode_never_throws :
    (∀ (decrypt : String → Except String String) (emap : List (String × String))
      (content className : String) (e : String),
      content.data.head? = some '§' →
      decrypt ⟨(content.data.drop 1).dropLast⟩ = Except.error e →
      processNode decrypt emap content className = (fallbackText, className)) ∧
    (∀ (decrypt : String → Except String String) (emap : List (String × String))
      (content className : String),
      content.data.head? = some '§' →
      decrypt ⟨(content.data.drop 1).dropLast⟩ = Except.ok "" →
      processNode decrypt emap content className = (fallbackText, className)) ∧
    (∀ (decrypt : String → Except String String) (emap : List (String × String))
      (nodes : List (String × String)),
      decryptMessagesPass decrypt emap nodes =
        nodes.map (fun p => processNode decrypt emap p.1 p.2)) := by
  refine ⟨?_, ?_, decryptMessagesPass_eq_map⟩
  · intro decrypt emap content className e hhead hdec
    simp only [processNode, hhead, if_pos, hdec]
  · intro decrypt emap content className hhead hdec
    simp only [processNode, hhead, if_pos, hdec]
    rfl

theorem c2_decode_never_throws_witness :
    ("§x§" : String).data.head? = some '§' ∧
    processNode (fun _ => Except.error "bad data") [] "§x§" "cls" =
      (fallbackText, "cls") ∧
    processNode (fun _ => Except.ok "") [] "§x§" "cls" =
      (fallbackText, "cls") ∧
    decryptMessagesPass (fun _ => Except.error "bad data") []
        [("§x§", "a"), ("§y§", "b"), ("plain", "c")] =
      [("§x§", "a"), ("§y§", "b"), ("plain", "c")].map
        (fun p => processNode (fun _ => Except.error "bad data") [] p.1 p.2) :=
  ⟨by decide,
   c2_decode_never_throws.1 (fun _ => Except.error "bad data") [] "§x§" "cls"
     "bad data" (by decide) rfl,
   c2_decode_never_throws.2.1 (fun _ => Except.ok "") [] "§x§" "cls"
     (by decide) rfl,
   c2_decode_never_throws.2.2 (fun _ => Except.error "bad data") [] _⟩

/-- C5 (amended): a second run of the decrypt pass leaves a rewritten node
unchanged (same content, no class additions) *provided* the rewritten content
does not itself begin with the marker character; the fallback text never
begins with the marker, but a decrypted plaintext that begins with `§`
re-triggers processing on the next pass (see the counterexample). -/
theorem c5_idempotence_amended :
    (∀ (decrypt : String → Except String String) (emap : List (String × String))
      (content className : String),
      (processNode decrypt emap content className).1.data.head? ≠ some '§' →
      processNode decrypt emap (processNode decrypt emap content className).1
          (processNode decrypt emap content className).2 =
        processNode decrypt emap content className) ∧
    (∀ (decrypt : String → Except String String) (emap : List (String × String))
      (className : String),
      processNode decrypt emap fallbackText className = (fallbackText, className)) := by
  constructor
  · intro decrypt emap content className hhead
    conv_lhs => rw [processNode]
    rw [if_neg (by simpa using hhead)]
  · intro decrypt emap className
    rw [processNode]
    rw [if_neg (by decide)]

theorem c5_idempotence_amended_witness :
    (processNode (fun _ => Except.error "x") [] "§x§" "cls").1.data.head? ≠ some '§' ∧
    processNode (fun _ => Except.error "x")
        [] (processNode (fun _ => Except.error "x") [] "§x§" "cls").1
        (processNode (fun _ => Except.error "x") [] "§x§" "cls").2 =
      processNode (fun _ => Except.error "x") [] "§x§" "cls" :=
  ⟨by decide,
   c5_idempotence_amended.1 (fun _ => Except.error "x") [] "§x§" "cls" (by decide)⟩

/-- C4: on the trigger keypress (`event.key === "§"`) while idle, the keydown
handler arms the machine, flags the pending send, and replaces the input
value with the delimiter followed by the encryption of the previous value;
the handler does not call `preventDefault` on this event, so the default
action then inserts the trigger character itself, leaving the input holding
exactly delimiter, transport string, delimiter. -/
theorem c4_trigger_encrypts (encrypt : String → String) (st : KeyState)
    (ev : KeyEvent) (hidle : st.lastKeyWasStopKey = false)
    (hkey : ev.key = stopkey) (htext : ev.text = some '§') :
    (keydownHandler encrypt st ev).2 = false ∧
    domKeyStep encrypt st ev =
      { lastKeyWasStopKey := true, send := true,
        value := stopkey ++ encrypt st.value ++ stopkey } := by
  have hh : keydownHandler encrypt st ev =
      ({ lastKeyWasStopKey := true, send := true,
         value := stopkey ++ encrypt st.value }, false) := by
    simp only [keydownHandler, hidle, hkey]
    rw [ite_self]
    simp
  refine ⟨by rw [hh], ?_⟩
  simp only [domKeyStep, hh, htext]
  rfl

theorem c4_trigger_encrypts_witness :
    domKeyStep (fun s => s) ⟨false, false, "hi"⟩ ⟨"§", 222, some '§'⟩ =
      ⟨true, true, "§hi§"⟩ :=
  ((c4_trigger_encrypts (fun s => s) ⟨false, false, "hi"⟩ ⟨"§", 222, some '§'⟩
      rfl rfl rfl).2).trans (by decide)

/-- C6 (amended): while the interceptor is armed, every keypress whose key
code is not the commit key (13, Enter), the delete key (8, Backspace) or the
control key (17) has its default action prevented and leaves the state
unchanged — this includes the trigger key itself; pressing the commit key or
the control key resets the machine to idle.  (The original claim omitted the
control key from the exceptions: `c6_counterexample` shows a Control keypress
while armed is not suppressed.) -/
theorem c6_armed_suppression (encrypt : String → String) (st : KeyState)
    (ev : KeyEvent) (harmed : st.lastKeyWasStopKey = true) :
    (ev.keyCode ≠ 13 → ev.keyCode ≠ 8 → ev.keyCode ≠ 17 →
      keydownHandler encrypt st ev = (st, true)) ∧
    (ev.keyCode = 13 → ev.key ≠ stopkey →
      (keydownHandler encrypt st ev).1.lastKeyWasStopKey = false) ∧
    (ev.keyCode = 17 → ev.key ≠ stopkey →
      (keydownHandler encrypt st ev).1.lastKeyWasStopKey = false) := by
  refine ⟨?_, ?_, ?_⟩
  · intro h13 h8 h17
    simp only [keydownHandler, harmed]
    rw [if_neg h17, if_pos (by simp [h13, h8])]
    cases st with
    | mk a b c =>
      simp at harmed
      simp [harmed]
  · intro h13 hkey
    simp [keydownHandler, harmed, h13, hkey]
  · intro h17 hkey
    simp [keydownHandler, harmed, h17, hkey]

theorem c6_armed_suppression_witness :
    keydownHandler (fun s => s) ⟨true, false, "v"⟩ ⟨"a", 65, some 'a'⟩ =
      (⟨true, false, "v"⟩, true) ∧
    (keydownHandler (fun s => s) ⟨true, false, "v"⟩ ⟨"Enter", 13, none⟩).1.lastKeyWasStopKey
      = false ∧
    (keydownHandler (fun s => s) ⟨true, false, "v"⟩ ⟨"Control", 17, none⟩).1.lastKeyWasStopKey
      = false :=
  ⟨(c6_armed_suppression (fun s => s) ⟨true, false, "v"⟩ ⟨"a", 65, some 'a'⟩ rfl).1
      (by decide) (by decide) (by decide),
   (c6_armed_suppression (fun s => s) ⟨true, false, "v"⟩ ⟨"Enter", 13, none⟩ rfl).2.1
      rfl (by decide),
   (c6_armed_suppression (fun s => s) ⟨true, false, "v"⟩ ⟨"Control", 17, none⟩ rfl).2.2
      rfl (by decide)⟩

/-- C6 counterexample: while armed, a Control keypress (key code 17, not the
trigger key, not Enter, not Backspace) is *not* suppressed — the handler
clears the armed flag before evaluating the suppression condition — refuting
the claim that every key other than trigger/Enter/Backspace is suppressed. -/
theorem c6_counterexample :
    ("Control" : String) ≠ stopkey ∧ (17 : Nat) ≠ 13 ∧ (17 : Nat) ≠ 8 ∧
    (keydownHandler (fun s => s) ⟨true, false, "v"⟩ ⟨"Control", 17, none⟩).2 = false := by
  refine ⟨by decide, by decide, by decide, by decide⟩

theorem charToNat_lt (c : Char) : c.toNat < 1114112 := by
  rcases c.valid with h | ⟨h1, h2⟩
  · exact Nat.lt_trans h (by decide)
  · exact h2

theorem encNatL_lt : ∀ l : List Char, encNatL l < encNatBase ^ l.length := by
  intro l
  induction l with
  | nil => decide
  | cons c t ih =>
    calc c.toNat * encNatBase ^ t.length + encNatL t
        < c.toNat * encNatBase ^ t.length + encNatBase ^ t.length := by omega
      _ = (c.toNat + 1) * encNatBase ^ t.length := by ring
      _ ≤ encNatBase * encNatBase ^ t.length :=
          Nat.mul_le_mul_right _ (charToNat_lt c)
      _ = encNatBase ^ (c :: t).length := by rw [List.length_cons]; ring

theorem charToNat_inj {c d : Char} (h : c.toNat = d.toNat) : c = d := by
  apply Char.ext
  exact UInt32.ext h

theorem encNatL_inj : ∀ l1 l2 : List Char, l1.length = l2.length →
    encNatL l1 = encNatL l2 → l1 = l2 := by
  intro l1
  induction l1 with
  | nil =>
    intro l2 hlen henc
    cases l2 with
    | nil => rfl
    | cons d u => simp at hlen
  | cons c t ih =>
    intro l2 hlen henc
    cases l2 with
    | nil => simp at hlen
    | cons d u =>
      simp only [List.length_cons, Nat.succ.injEq] at hlen
      simp only [encNatL, hlen] at henc
      have hect : encNatL t < encNatBase ^ u.length := by
        have := encNatL_lt t
        rwa [hlen] at this
      have hecu : encNatL u < encNatBase ^ u.length := encNatL_lt u
      have hcd : c.toNat = d.toNat := by
        rcases Nat.lt_trichotomy c.toNat d.toNat with hlt | heq | hgt
        · exfalso
          have h1 : c.toNat + 1 ≤ d.toNat := hlt
          have h2 : (c.toNat + 1) * encNatBase ^ u.length ≤
              d.toNat * encNatBase ^ u.length := Nat.mul_le_mul_right _ h1
          nlinarith
        · exact heq
        · exfalso
          have h1 : d.toNat + 1 ≤ c.toNat := hgt
          have h2 : (d.toNat + 1) * encNatBase ^ u.length ≤
              c.toNat * encNatBase ^ u.length := Nat.mul_le_mul_right _ h1
          nlinarith
      have ht : encNatL t = encNatL u := by
        rw [hcd] at henc
        omega
      rw [charToNat_inj hcd, ih u hlen ht]

theorem wordHex8_length (w : Nat) : (wordHex8 w).length = 8 := by
  simp only [wordHex8]
  rw [List.length_drop, List.length_append]
  simp only [String.data, List.length_cons, List.length_nil]
  omega

theorem sha256HexOfBytes_length (msg : List Nat) :
    (sha256HexOfBytes msg).length = 64 := by
  simp only [sha256HexOfBytes, String.length]
  simp only [List.length_append, wordHex8_length]

theorem setPassphraseModel_length (storage : String → Option String)
    (href channelname : String) :
    (setPassphraseModel storage href channelname).length = 64 :=
  sha256HexOfBytes_length _

set_option maxRecDepth 1000000 in
/-- C3 (amended): the session passphrase is exactly the SHA-256 hex digest of
the concatenation displayedName ++ strippedLocation ++ broadSecret ++
narrowSecret ++ staticSalt, with a missing secret replaced by the empty
string; derivation is a pure deterministic function of its inputs; and on the
concrete tested value domain, changing the displayed name, the broad secret,
the narrow secret, or the location each changes the resulting passphrase.
(The original claim asserted the last point for *all* inputs; a fixed-length
digest of unboundedly many inputs cannot be injective — `c3_counterexample`
proves the negation — so it is amended to the tested value domain, matching
the spec wording «no accidental collision for the tested value domain».) -/
theorem c3_passphrase_derivation :
    (∀ (storage : String → Option String) (href channelname : String),
      setPassphraseModel storage href channelname =
        sha256Hash (channelname ++ injectStrippedUrl href ++
          ((storage (injectServerUrl href)).getD "") ++
          ((storage (injectStrippedUrl href)).getD "") ++ clientSideSalt)) ∧
    (∀ (storage1 storage2 : String → Option String) (href1 href2 name1 name2 : String),
      (∀ k, storage1 k = storage2 k) → href1 = href2 → name1 = name2 →
      setPassphraseModel storage1 href1 name1 =
        setPassphraseModel storage2 href2 name2) ∧
    (setPassphraseModel
        (fun k => if k = "discordapp.com/channels/586" then some "abcdef"
          else if k = "discordapp.com/channels/586/999" then some "ghijkl" else none)
        "https://discordapp.com/channels/586/999" "general" ≠
      setPassphraseModel
        (fun k => if k = "discordapp.com/channels/586" then some "abcdef"
          else if k = "discordapp.com/channels/586/999" then some "ghijkl" else none)
        "https://discordapp.com/channels/586/999" "other") ∧
    (setPassphraseModel
        (fun k => if k = "discordapp.com/channels/586" then some "abcdef"
          else if k = "discordapp.com/channels/586/999" then some "ghijkl" else none)
        "https://discordapp.com/channels/586/999" "general" ≠
      setPassphraseModel
        (fun k => if k = "discordapp.com/channels/586" then some "abcdeX"
          else if k = "discordapp.com/channels/586/999" then some "ghijkl" else none)
        "https://discordapp.com/channels/586/999" "general") ∧
    (setPassphraseModel
        (fun k => if k = "discordapp.com/channels/586" then some "abcdef"
          else if k = "discordapp.com/channels/586/999" then some "ghijkl" else none)
        "https://discordapp.com/channels/586/999" "general" ≠
      setPassphraseModel
        (fun k => if k = "discordapp.com/channels/586" then some "abcdef"
          else if k = "discordapp.com/channels/586/999" then some "ghijkX" else none)
        "https://discordapp.com/channels/586/999" "general") ∧
    (setPassphraseModel
        (fun k => if k = "discordapp.com/channels/586" then some "abcdef"
          else if k = "discordapp.com/channels/586/999" then some "ghijkl" else none)
        "https://discordapp.com/channels/586/999" "general" ≠
      setPassphraseModel
        (fun k => if k = "discordapp.com/channels/586" then some "abcdef"
          else if k = "discordapp.com/channels/586/999" then some "ghijkl" else none)
        "https://discordapp.com/channels/586/998" "general") := by
  refine ⟨fun _ _ _ => rfl, ?_, by decide, by decide, by decide, by decide⟩
  intro storage1 storage2 href1 href2 name1 name2 hs hh hn
  have hfun : storage1 = storage2 := funext hs
  rw [hfun, hh, hn]

theorem c3_passphrase_derivation_witness :
    setPassphraseModel (fun _ => none) "https://d/x/y" "general" =
      setPassphraseModel (fun _ => none) "https://d/x/y" "general" :=
  c3_passphrase_derivation.2.1 (fun _ => none) (fun _ => none)
    "https://d/x/y" "https://d/x/y" "general" "general"
    (fun _ => rfl) rfl rfl

/-- C3 counterexample: it is not true that any change of the displayed name
changes the derived passphrase — the derivation maps infinitely many names
onto finitely many 64-character digests, so two distinct names must share a
passphrase (pigeonhole; necessarily non-constructive for a cryptographic
hash). -/
theorem c3_counterexample :
    ¬ (∀ name1 name2 : String, name1 ≠ name2 →
        setPassphraseModel (fun _ => none)
            "https://discordapp.com/channels/586/999" name1 ≠
          setPassphraseModel (fun _ => none)
            "https://discordapp.com/channels/586/999" name2) := by
  intro hinj
  have hlen : ∀ s : String,
      (setPassphraseModel (fun _ => none)
        "https://discordapp.com/channels/586/999" s).data.length = 64 :=
    fun s => setPassphraseModel_length (fun _ => none) _ s
  have hpos : 0 < encNatBase ^ 64 := Nat.pos_pow_of_pos 64 (by decide)
  let f : ℕ → Fin (encNatBase ^ 64) := fun n =>
    ⟨encNatL (setPassphraseModel (fun _ => none)
        "https://discordapp.com/channels/586/999" ⟨List.replicate n 'a'⟩).data,
     by
      have h := encNatL_lt (setPassphraseModel (fun _ => none)
        "https://discordapp.com/channels/586/999" ⟨List.replicate n 'a'⟩).data
      rwa [hlen] at h⟩
  obtain ⟨a, b, hab, hfeq⟩ := Finite.exists_ne_map_eq_of_infinite f
  have hne : (⟨List.replicate a 'a'⟩ : String) ≠ ⟨List.replicate b 'a'⟩ := by
    intro h
    apply hab
    have : List.replicate a 'a' = List.replicate b 'a' := congrArg String.data h
    have := congrArg List.length this
    simpa using this
  apply hinj ⟨List.replicate a 'a'⟩ ⟨List.replicate b 'a'⟩ hne
  have henc : encNatL (setPassphraseModel (fun _ => none)
        "https://discordapp.com/channels/586/999" ⟨List.replicate a 'a'⟩).data =
      encNatL (setPassphraseModel (fun _ => none)
        "https://discordapp.com/channels/586/999" ⟨List.replicate b 'a'⟩).data :=
    congrArg Fin.val hfeq
  have hdata := encNatL_inj _ _ (by rw [hlen, hlen]) henc
  exact congrArg String.mk hdata

theorem natXorLtTwoPow {a b n : Nat} (ha : a < 2 ^ n) (hb : b < 2 ^ n) :
    a ^^^ b < 2 ^ n := Nat.xor_lt_two_pow ha hb

theorem testBit_mulPow_add_low (a b n i : Nat) (h : i < n) :
    (a * 2 ^ n + b).testBit i = b.testBit i := by
  have h2 : 2 ^ n = 2 ^ i * 2 ^ (n - i) := by
    rw [← pow_add]
    congr 1
    omega
  have h3 : a * 2 ^ n + b = 2 ^ i * (a * 2 ^ (n - i)) + b := by
    rw [h2]; ring
  have h4 : a * 2 ^ (n - i) = 2 * (a * 2 ^ (n - i - 1)) := by
    have h5 : 2 ^ (n - i) = 2 * 2 ^ (n - i - 1) := by
      rw [← pow_succ']
      congr 1
      omega
    rw [h5]; ring
  have key : (a * 2 ^ n + b) / 2 ^ i % 2 = b / 2 ^ i % 2 := by
    rw [h3, Nat.mul_add_div (Nat.two_pow_pos i), h4]
    generalize a * 2 ^ (n - i - 1) = c
    omega
  rw [Nat.testBit_to_div_mod, Nat.testBit_to_div_mod, key]

theorem testBit_mulPow_add_high (a b n i : Nat) (hb : b < 2 ^ n) (h : n ≤ i) :
    (a * 2 ^ n + b).testBit i = a.testBit (i - n) := by
  rw [Nat.testBit_to_div_mod, Nat.testBit_to_div_mod]
  have h2 : 2 ^ i = 2 ^ n * 2 ^ (i - n) := by
    rw [← pow_add]
    congr 1
    omega
  rw [h2, ← Nat.div_div_eq_div_mul]
  have h3 : a * 2 ^ n + b = 2 ^ n * a + b := by ring
  rw [h3, Nat.mul_add_div (Nat.two_pow_pos n), Nat.div_eq_of_lt hb, Nat.add_zero]

theorem lorAdd (a b n : Nat) (hb : b < 2 ^ n) :
    (a <<< n) ||| b = a * 2 ^ n + b := by
  apply Nat.eq_of_testBit_eq
  intro i
  rw [Nat.testBit_lor, Nat.testBit_shiftLeft]
  by_cases h : i < n
  · rw [testBit_mulPow_add_low a b n i h]
    have : ¬ (i ≥ n) := by omega
    simp [this]
  · rw [testBit_mulPow_add_high a b n i hb (by omega)]
    have hbf : b.testBit i = false :=
      Nat.testBit_eq_false_of_lt (lt_of_lt_of_le hb (Nat.pow_le_pow_right (by omega) (by omega)))
    have : i ≥ n := by omega
    simp [this, hbf]

theorem xorDiv (x y k : Nat) : (x ^^^ y) / 2 ^ k = x / 2 ^ k ^^^ y / 2 ^ k := by
  rw [← Nat.shiftRight_eq_div_pow, ← Nat.shiftRight_eq_div_pow,
    ← Nat.shiftRight_eq_div_pow]
  apply Nat.eq_of_testBit_eq
  intro i
  rw [Nat.testBit_shiftRight, Nat.testBit_xor, Nat.testBit_xor,
    Nat.testBit_shiftRight, Nat.testBit_shiftRight]

theorem xorMod (x y k : Nat) : (x ^^^ y) % 2 ^ k = x % 2 ^ k ^^^ y % 2 ^ k := by
  apply Nat.eq_of_testBit_eq
  intro i
  rw [Nat.testBit_mod_two_pow, Nat.testBit_xor, Nat.testBit_xor,
    Nat.testBit_mod_two_pow, Nat.testBit_mod_two_pow]
  by_cases h : i < k <;> simp [h]

theorem pack4_lt {b0 b1 b2 b3 : Nat} (h0 : b0 < 256) (h1 : b1 < 256)
    (h2 : b2 < 256) (h3 : b3 < 256) : pack4 b0 b1 b2 b3 < 2 ^ 32 := by
  simp only [pack4]
  omega

theorem wb0_pack4 {b0 b1 b2 b3 : Nat} (h1 : b1 < 256) (h2 : b2 < 256)
    (h3 : b3 < 256) : wb0 (pack4 b0 b1 b2 b3) = b0 := by
  simp only [pack4, wb0]
  omega

theorem wb1_pack4 {b0 b1 b2 b3 : Nat} (h1 : b1 < 256) (h2 : b2 < 256)
    (h3 : b3 < 256) : wb1 (pack4 b0 b1 b2 b3) = b1 := by
  simp only [pack4, wb1]
  omega

theorem wb2_pack4 {b0 b1 b2 b3 : Nat} (h1 : b1 < 256) (h2 : b2 < 256)
    (h3 : b3 < 256) : wb2 (pack4 b0 b1 b2 b3) = b2 := by
  simp only [pack4, wb2]
  omega

theorem wb3_pack4 {b0 b1 b2 b3 : Nat} (h3 : b3 < 256) :
    wb3 (pack4 b0 b1 b2 b3) = b3 := by
  simp only [pack4, wb3]
  omega

theorem pack4_wb {w : Nat} (h : w < 2 ^ 32) :
    pack4 (wb0 w) (wb1 w) (wb2 w) (wb3 w) = w := by
  simp only [pack4, wb0, wb1, wb2, wb3]
  omega

theorem wb0_lt {w : Nat} (h : w < 2 ^ 32) : wb0 w < 256 := by
  simp only [wb0]; omega

theorem wb1_lt (w : Nat) : wb1 w < 256 := by
  simp only [wb1]; omega

theorem wb2_lt (w : Nat) : wb2 w < 256 := by
  simp only [wb2]; omega

theorem wb3_lt (w : Nat) : wb3 w < 256 := by
  simp only [wb3]; omega

theorem orPack4 {b0 b1 b2 b3 : Nat} (h0 : b0 < 256) (h1 : b1 < 256)
    (h2 : b2 < 256) (h3 : b3 < 256) :
    (b0 <<< 24) ||| (b1 <<< 16) ||| (b2 <<< 8) ||| b3 = pack4 b0 b1 b2 b3 := by
  rw [Nat.lor_assoc, Nat.lor_assoc]
  rw [lorAdd b2 b3 8 (by omega)]
  rw [lorAdd b1 (b2 * 2 ^ 8 + b3) 16 (by omega)]
  rw [lorAdd b0 (b1 * 2 ^ 16 + (b2 * 2 ^ 8 + b3)) 24 (by omega)]
  simp only [pack4]
  ring

theorem wb0_xor (x y : Nat) : wb0 (x ^^^ y) = wb0 x ^^^ wb0 y := xorDiv x y 24

theorem wb1_xor (x y : Nat) : wb1 (x ^^^ y) = wb1 x ^^^ wb1 y := by
  have h : (256 : Nat) = 2 ^ 8 := by norm_num
  simp only [wb1, h, xorDiv, xorMod]

theorem wb2_xor (x y : Nat) : wb2 (x ^^^ y) = wb2 x ^^^ wb2 y := by
  have h : (256 : Nat) = 2 ^ 8 := by norm_num
  simp only [wb2, h, xorDiv, xorMod]

theorem wb3_xor (x y : Nat) : wb3 (x ^^^ y) = wb3 x ^^^ wb3 y := by
  have h : (256 : Nat) = 2 ^ 8 := by norm_num
  simp only [wb3, h, xorMod]

theorem xorPack4 {a0 a1 a2 a3 b0 b1 b2 b3 : Nat}
    (ha0 : a0 < 256) (ha1 : a1 < 256) (ha2 : a2 < 256) (ha3 : a3 < 256)
    (hb0 : b0 < 256) (hb1 : b1 < 256) (hb2 : b2 < 256) (hb3 : b3 < 256) :
    pack4 a0 a1 a2 a3 ^^^ pack4 b0 b1 b2 b3 =
      pack4 (a0 ^^^ b0) (a1 ^^^ b1) (a2 ^^^ b2) (a3 ^^^ b3) := by
  have hlt : pack4 a0 a1 a2 a3 ^^^ pack4 b0 b1 b2 b3 < 2 ^ 32 :=
    Nat.xor_lt_two_pow (pack4_lt ha0 ha1 ha2 ha3) (pack4_lt hb0 hb1 hb2 hb3)
  rw [← pack4_wb hlt, wb0_xor, wb1_xor, wb2_xor, wb3_xor,
    wb0_pack4 ha1 ha2 ha3, wb0_pack4 hb1 hb2 hb3,
    wb1_pack4 ha1 ha2 ha3, wb1_pack4 hb1 hb2 hb3,
    wb2_pack4 ha1 ha2 ha3, wb2_pack4 hb1 hb2 hb3,
    wb3_pack4 ha3, wb3_pack4 hb3]

theorem xorShiftLeft (x y n : Nat) : (x ^^^ y) <<< n = (x <<< n) ^^^ (y <<< n) := by
  apply Nat.eq_of_testBit_eq
  intro i
  rw [Nat.testBit_shiftLeft, Nat.testBit_xor, Nat.testBit_xor,
    Nat.testBit_shiftLeft, Nat.testBit_shiftLeft]
  by_cases h : i ≥ n <;> simp [h]

theorem xorPairCancel (a b c : Nat) : (a ^^^ c) ^^^ (b ^^^ c) = a ^^^ b := by
  apply Nat.eq_of_testBit_eq
  intro i
  simp only [Nat.testBit_xor]
  cases a.testBit i <;> cases b.testBit i <;> cases c.testBit i <;> rfl

theorem xorRightSwap (a b c : Nat) : (a ^^^ b) ^^^ c = (a ^^^ c) ^^^ b := by
  apply Nat.eq_of_testBit_eq
  intro i
  simp only [Nat.testBit_xor]
  cases a.testBit i <;> cases b.testBit i <;> cases c.testBit i <;> rfl

theorem testBit7_eq {z : Nat} (hz : z < 256) :
    z.testBit 7 = decide (128 ≤ z) := by
  rw [Nat.testBit_to_div_mod]
  have h : (z / 2 ^ 7 % 2 = 1) ↔ (128 ≤ z) := by omega
  rw [decide_eq_decide.mpr h]

theorem xor128_iff {x y : Nat} (hx : x < 256) (hy : y < 256) :
    x ^^^ y < 128 ↔ (x < 128 ↔ y < 128) := by
  have hxy : x ^^^ y < 256 := by
    have h8 : (256 : Nat) = 2 ^ 8 := by norm_num
    rw [h8] at hx hy ⊢
    exact Nat.xor_lt_two_pow hx hy
  have h1 := Nat.testBit_xor x y 7
  rw [testBit7_eq hx, testBit7_eq hy, testBit7_eq hxy] at h1
  by_cases hx1 : 128 ≤ x <;> by_cases hy1 : 128 ≤ y <;>
    simp [hx1, hy1] at h1 <;> omega

theorem xtimeF_linear {x y : Nat} (hx : x < 256) (hy : y < 256) :
    xtimeF (x ^^^ y) = xtimeF x ^^^ xtimeF y := by
  simp only [xtimeF]
  by_cases hx1 : x < 128 <;> by_cases hy1 : y < 128
  · have hxy : x ^^^ y < 128 := (xor128_iff hx hy).mpr (by tauto)
    rw [if_pos hx1, if_pos hy1, if_pos hxy, xorShiftLeft]
  · have hxy : ¬ x ^^^ y < 128 := by
      intro hc
      have := (xor128_iff hx hy).mp hc
      tauto
    rw [if_pos hx1, if_neg hy1, if_neg hxy, xorShiftLeft, Nat.xor_assoc]
  · have hxy : ¬ x ^^^ y < 128 := by
      intro hc
      have := (xor128_iff hx hy).mp hc
      tauto
    rw [if_neg hx1, if_pos hy1, if_neg hxy, xorShiftLeft, xorRightSwap]
  · have hxy : x ^^^ y < 128 := (xor128_iff hx hy).mpr (by tauto)
    rw [if_neg hx1, if_neg hy1, if_pos hxy, xorShiftLeft, ← xorPairCancel (x <<< 1) (y <<< 1) 283]

set_option maxRecDepth 10000 in
theorem xtimeF_lt : ∀ i : Fin 256, xtimeF i.val < 256 := by decide

theorem xtimeF_lt' {u : Nat} (h : u < 256) : xtimeF u < 256 := xtimeF_lt ⟨u, h⟩

theorem xorLt256 {x y : Nat} (hx : x < 256) (hy : y < 256) : x ^^^ y < 256 := by
  have h8 : (256 : Nat) = 2 ^ 8 := by norm_num
  rw [h8] at hx hy ⊢
  exact Nat.xor_lt_two_pow hx hy

theorem gm2_lt {u : Nat} (h : u < 256) : gm2 u < 256 := xtimeF_lt' h

theorem gm3_lt {u : Nat} (h : u < 256) : gm3 u < 256 := xorLt256 (xtimeF_lt' h) h

theorem gm9_lt {u : Nat} (h : u < 256) : gm9 u < 256 :=
  xorLt256 (xtimeF_lt' (xtimeF_lt' (xtimeF_lt' h))) h

theorem gm11_lt {u : Nat} (h : u < 256) : gm11 u < 256 :=
  xorLt256 (xorLt256 (xtimeF_lt' (xtimeF_lt' (xtimeF_lt' h))) (xtimeF_lt' h)) h

theorem gm13_lt {u : Nat} (h : u < 256) : gm13 u < 256 :=
  xorLt256 (xorLt256 (xtimeF_lt' (xtimeF_lt' (xtimeF_lt' h))) (xtimeF_lt' (xtimeF_lt' h))) h

theorem gm14_lt {u : Nat} (h : u < 256) : gm14 u < 256 :=
  xorLt256 (xorLt256 (xtimeF_lt' (xtimeF_lt' (xtimeF_lt' h))) (xtimeF_lt' (xtimeF_lt' h)))
    (xtimeF_lt' h)

theorem xorShuffle4 (a b c d : Nat) :
    (a ^^^ b) ^^^ (c ^^^ d) = (a ^^^ c) ^^^ (b ^^^ d) := by
  apply Nat.eq_of_testBit_eq
  intro i
  simp only [Nat.testBit_xor]
  cases a.testBit i <;> cases b.testBit i <;> cases c.testBit i <;> cases d.testBit i <;> rfl

theorem xorShuffle6 (a b c d e f : Nat) :
    ((a ^^^ b) ^^^ (c ^^^ d)) ^^^ (e ^^^ f) =
      ((a ^^^ c) ^^^ e) ^^^ ((b ^^^ d) ^^^ f) := by
  apply Nat.eq_of_testBit_eq
  intro i
  simp only [Nat.testBit_xor]
  cases a.testBit i <;> cases b.testBit i <;> cases c.testBit i <;> cases d.testBit i <;>
    cases e.testBit i <;> cases f.testBit i <;> rfl

theorem xt3_linear {x y : Nat} (hx : x < 256) (hy : y < 256) :
    xtimeF (xtimeF (xtimeF (x ^^^ y))) =
      xtimeF (xtimeF (xtimeF x)) ^^^ xtimeF (xtimeF (xtimeF y)) := by
  rw [xtimeF_linear hx hy, xtimeF_linear (xtimeF_lt' hx) (xtimeF_lt' hy),
    xtimeF_linear (xtimeF_lt' (xtimeF_lt' hx)) (xtimeF_lt' (xtimeF_lt' hy))]

theorem gm2_linear {x y : Nat} (hx : x < 256) (hy : y < 256) :
    gm2 (x ^^^ y) = gm2 x ^^^ gm2 y := xtimeF_linear hx hy

theorem gm3_linear {x y : Nat} (hx : x < 256) (hy : y < 256) :
    gm3 (x ^^^ y) = gm3 x ^^^ gm3 y := by
  simp only [gm3]
  rw [xtimeF_linear hx hy, xorShuffle4]

theorem gm9_linear {x y : Nat} (hx : x < 256) (hy : y < 256) :
    gm9 (x ^^^ y) = gm9 x ^^^ gm9 y := by
  simp only [gm9]
  rw [xt3_linear hx hy, xorShuffle4]

theorem gm11_linear {x y : Nat} (hx : x < 256) (hy : y < 256) :
    gm11 (x ^^^ y) = gm11 x ^^^ gm11 y := by
  simp only [gm11]
  rw [xt3_linear hx hy, xtimeF_linear hx hy, xorShuffle6]

theorem gm13_linear {x y : Nat} (hx : x < 256) (hy : y < 256) :
    gm13 (x ^^^ y) = gm13 x ^^^ gm13 y := by
  simp only [gm13]
  rw [xt3_linear hx hy, xtimeF_linear hx hy,
    xtimeF_linear (xtimeF_lt' hx) (xtimeF_lt' hy), xorShuffle6]

theorem gm14_linear {x y : Nat} (hx : x < 256) (hy : y < 256) :
    gm14 (x ^^^ y) = gm14 x ^^^ gm14 y := by
  simp only [gm14]
  rw [xt3_linear hx hy, xtimeF_linear hx hy,
    xtimeF_linear (xtimeF_lt' hx) (xtimeF_lt' hy), xorShuffle6]

theorem gm2_zero : gm2 0 = 0 := by decide

theorem gm3_zero : gm3 0 = 0 := by decide

theorem gm9_zero : gm9 0 = 0 := by decide

theorem gm11_zero : gm11 0 = 0 := by decide

theorem gm13_zero : gm13 0 = 0 := by decide

theorem gm14_zero : gm14 0 = 0 := by decide

set_option maxRecDepth 100000 in
set_option maxHeartbeats 2000000 in
/-- The four InvMixColumns-times-MixColumns coefficient identities, stated
once per output position and basis position (16 conjuncts, each decided over
the byte domain). -/
theorem mixRowIdentities : ∀ u : Fin 256,
    gm14 (gm2 u.val) ^^^ gm11 u.val ^^^ gm13 u.val ^^^ gm9 (gm3 u.val) = u.val ∧
    gm9 (gm2 u.val) ^^^ gm14 u.val ^^^ gm11 u.val ^^^ gm13 (gm3 u.val) = 0 ∧
    gm13 (gm2 u.val) ^^^ gm9 u.val ^^^ gm14 u.val ^^^ gm11 (gm3 u.val) = 0 ∧
    gm11 (gm2 u.val) ^^^ gm13 u.val ^^^ gm9 u.val ^^^ gm14 (gm3 u.val) = 0 ∧
    gm14 (gm3 u.val) ^^^ gm11 (gm2 u.val) ^^^ gm13 u.val ^^^ gm9 u.val = 0 ∧
    gm9 (gm3 u.val) ^^^ gm14 (gm2 u.val) ^^^ gm11 u.val ^^^ gm13 u.val = u.val ∧
    gm13 (gm3 u.val) ^^^ gm9 (gm2 u.val) ^^^ gm14 u.val ^^^ gm11 u.val = 0 ∧
    gm11 (gm3 u.val) ^^^ gm13 (gm2 u.val) ^^^ gm9 u.val ^^^ gm14 u.val = 0 ∧
    gm14 u.val ^^^ gm11 (gm3 u.val) ^^^ gm13 (gm2 u.val) ^^^ gm9 u.val = 0 ∧
    gm9 u.val ^^^ gm14 (gm3 u.val) ^^^ gm11 (gm2 u.val) ^^^ gm13 u.val = 0 ∧
    gm13 u.val ^^^ gm9 (gm3 u.val) ^^^ gm14 (gm2 u.val) ^^^ gm11 u.val = u.val ∧
    gm11 u.val ^^^ gm13 (gm3 u.val) ^^^ gm9 (gm2 u.val) ^^^ gm14 u.val = 0 ∧
    gm14 u.val ^^^ gm11 u.val ^^^ gm13 (gm3 u.val) ^^^ gm9 (gm2 u.val) = 0 ∧
    gm9 u.val ^^^ gm14 u.val ^^^ gm11 (gm3 u.val) ^^^ gm13 (gm2 u.val) = 0 ∧
    gm13 u.val ^^^ gm9 u.val ^^^ gm14 (gm3 u.val) ^^^ gm11 (gm2 u.val) = 0 ∧
    gm11 u.val ^^^ gm13 u.val ^^^ gm9 (gm3 u.val) ^^^ gm14 (gm2 u.val) = u.val := by
  decide

theorem mixCol_comp_lt {w : Nat} (h : w < 2 ^ 32) : mixCol w < 2 ^ 32 := by
  have h0 := wb0_lt h
  have h1 := wb1_lt w
  have h2 := wb2_lt w
  have h3 := wb3_lt w
  exact pack4_lt
    (xorLt256 (xorLt256 (xorLt256 (gm2_lt h0) (gm3_lt h1)) h2) h3)
    (xorLt256 (xorLt256 (xorLt256 h0 (gm2_lt h1)) (gm3_lt h2)) h3)
    (xorLt256 (xorLt256 (xorLt256 h0 h1) (gm2_lt h2)) (gm3_lt h3))
    (xorLt256 (xorLt256 (xorLt256 (gm3_lt h0) h1) h2) (gm2_lt h3))

theorem imixCol_comp_lt {w : Nat} (h : w < 2 ^ 32) : imixCol w < 2 ^ 32 := by
  have h0 := wb0_lt h
  have h1 := wb1_lt w
  have h2 := wb2_lt w
  have h3 := wb3_lt w
  exact pack4_lt
    (xorLt256 (xorLt256 (xorLt256 (gm14_lt h0) (gm11_lt h1)) (gm13_lt h2)) (gm9_lt h3))
    (xorLt256 (xorLt256 (xorLt256 (gm9_lt h0) (gm14_lt h1)) (gm11_lt h2)) (gm13_lt h3))
    (xorLt256 (xorLt256 (xorLt256 (gm13_lt h0) (gm9_lt h1)) (gm14_lt h2)) (gm11_lt h3))
    (xorLt256 (xorLt256 (xorLt256 (gm11_lt h0) (gm13_lt h1)) (gm9_lt h2)) (gm14_lt h3))

theorem imixCol_linear {x y : Nat} (hx : x < 2 ^ 32) (hy : y < 2 ^ 32) :
    imixCol (x ^^^ y) = imixCol x ^^^ imixCol y := by
  have h0x := wb0_lt hx
  have h0y := wb0_lt hy
  have h1x := wb1_lt x
  have h1y := wb1_lt y
  have h2x := wb2_lt x
  have h2y := wb2_lt y
  have h3x := wb3_lt x
  have h3y := wb3_lt y
  simp only [imixCol, wb0_xor, wb1_xor, wb2_xor, wb3_xor]
  rw [gm14_linear h0x h0y, gm11_linear h1x h1y, gm13_linear h2x h2y, gm9_linear h3x h3y,
    gm9_linear h0x h0y, gm14_linear h1x h1y, gm11_linear h2x h2y, gm13_linear h3x h3y,
    gm13_linear h0x h0y, gm9_linear h1x h1y, gm14_linear h2x h2y, gm11_linear h3x h3y,
    gm11_linear h0x h0y, gm13_linear h1x h1y, gm9_linear h2x h2y, gm14_linear h3x h3y]
  rw [xorShuffle6 (gm14 (wb0 x)) (gm14 (wb0 y)) (gm11 (wb1 x)) (gm11 (wb1 y))
      (gm13 (wb2 x)) (gm13 (wb2 y)),
    xorShuffle6 (gm9 (wb0 x)) (gm9 (wb0 y)) (gm14 (wb1 x)) (gm14 (wb1 y))
      (gm11 (wb2 x)) (gm11 (wb2 y)),
    xorShuffle6 (gm13 (wb0 x)) (gm13 (wb0 y)) (gm9 (wb1 x)) (gm9 (wb1 y))
      (gm14 (wb2 x)) (gm14 (wb2 y)),
    xorShuffle6 (gm11 (wb0 x)) (gm11 (wb0 y)) (gm13 (wb1 x)) (gm13 (wb1 y))
      (gm9 (wb2 x)) (gm9 (wb2 y))]
  rw [xorShuffle4 (gm14 (wb0 x) ^^^ gm11 (wb1 x) ^^^ gm13 (wb2 x))
      (gm14 (wb0 y) ^^^ gm11 (wb1 y) ^^^ gm13 (wb2 y)) (gm9 (wb3 x)) (gm9 (wb3 y)),
    xorShuffle4 (gm9 (wb0 x) ^^^ gm14 (wb1 x) ^^^ gm11 (wb2 x))
      (gm9 (wb0 y) ^^^ gm14 (wb1 y) ^^^ gm11 (wb2 y)) (gm13 (wb3 x)) (gm13 (wb3 y)),
    xorShuffle4 (gm13 (wb0 x) ^^^ gm9 (wb1 x) ^^^ gm14 (wb2 x))
      (gm13 (wb0 y) ^^^ gm9 (wb1 y) ^^^ gm14 (wb2 y)) (gm11 (wb3 x)) (gm11 (wb3 y)),
    xorShuffle4 (gm11 (wb0 x) ^^^ gm13 (wb1 x) ^^^ gm9 (wb2 x))
      (gm11 (wb0 y) ^^^ gm13 (wb1 y) ^^^ gm9 (wb2 y)) (gm14 (wb3 x)) (gm14 (wb3 y))]
  rw [xorPack4
    (xorLt256 (xorLt256 (xorLt256 (gm14_lt h0x) (gm11_lt h1x)) (gm13_lt h2x)) (gm9_lt h3x))
    (xorLt256 (xorLt256 (xorLt256 (gm9_lt h0x) (gm14_lt h1x)) (gm11_lt h2x)) (gm13_lt h3x))
    (xorLt256 (xorLt256 (xorLt256 (gm13_lt h0x) (gm9_lt h1x)) (gm14_lt h2x)) (gm11_lt h3x))
    (xorLt256 (xorLt256 (xorLt256 (gm11_lt h0x) (gm13_lt h1x)) (gm9_lt h2x)) (gm14_lt h3x))
    (xorLt256 (xorLt256 (xorLt256 (gm14_lt h0y) (gm11_lt h1y)) (gm13_lt h2y)) (gm9_lt h3y))
    (xorLt256 (xorLt256 (xorLt256 (gm9_lt h0y) (gm14_lt h1y)) (gm11_lt h2y)) (gm13_lt h3y))
    (xorLt256 (xorLt256 (xorLt256 (gm13_lt h0y) (gm9_lt h1y)) (gm14_lt h2y)) (gm11_lt h3y))
    (xorLt256 (xorLt256 (xorLt256 (gm11_lt h0y) (gm13_lt h1y)) (gm9_lt h2y)) (gm14_lt h3y))]

theorem pack4_split {b0 b1 b2 b3 : Nat} (h0 : b0 < 256) (h1 : b1 < 256)
    (h2 : b2 < 256) (h3 : b3 < 256) :
    pack4 b0 b1 b2 b3 =
      pack4 b0 0 0 0 ^^^ pack4 0 b1 0 0 ^^^ pack4 0 0 b2 0 ^^^ pack4 0 0 0 b3 := by
  have e1 : pack4 b0 0 0 0 ^^^ pack4 0 b1 0 0 = pack4 b0 b1 0 0 := by
    rw [xorPack4 h0 (by omega) (by omega) (by omega) (by omega) h1 (by omega) (by omega)]
    simp [Nat.xor_zero, Nat.zero_xor]
  have e2 : pack4 b0 b1 0 0 ^^^ pack4 0 0 b2 0 = pack4 b0 b1 b2 0 := by
    rw [xorPack4 h0 h1 (by omega) (by omega) (by omega) (by omega) h2 (by omega)]
    simp [Nat.xor_zero, Nat.zero_xor]
  have e3 : pack4 b0 b1 b2 0 ^^^ pack4 0 0 0 b3 = pack4 b0 b1 b2 b3 := by
    rw [xorPack4 h0 h1 h2 (by omega) (by omega) (by omega) (by omega) h3]
    simp [Nat.xor_zero, Nat.zero_xor]
  rw [e1, e2, e3]

theorem mixCol_basis0 {u : Nat} (h : u < 256) :
    mixCol (pack4 u 0 0 0) = pack4 (gm2 u) u u (gm3 u) := by
  simp only [mixCol, wb0_pack4 (by omega : (0:Nat) < 256) (by omega : (0:Nat) < 256)
    (by omega : (0:Nat) < 256), wb1_pack4 (by omega : (0:Nat) < 256)
    (by omega : (0:Nat) < 256) (by omega : (0:Nat) < 256),
    wb2_pack4 (by omega : (0:Nat) < 256) (by omega : (0:Nat) < 256)
    (by omega : (0:Nat) < 256), wb3_pack4 (by omega : (0:Nat) < 256)]
  rw [gm3_zero, gm2_zero]
  simp [Nat.xor_zero, Nat.zero_xor]

theorem mixCol_basis1 {u : Nat} (h : u < 256) :
    mixCol (pack4 0 u 0 0) = pack4 (gm3 u) (gm2 u) u u := by
  simp only [mixCol, wb0_pack4 h (by omega : (0:Nat) < 256) (by omega : (0:Nat) < 256),
    wb1_pack4 h (by omega : (0:Nat) < 256) (by omega : (0:Nat) < 256),
    wb2_pack4 h (by omega : (0:Nat) < 256) (by omega : (0:Nat) < 256),
    wb3_pack4 (by omega : (0:Nat) < 256)]
  rw [gm3_zero, gm2_zero]
  simp [Nat.xor_zero, Nat.zero_xor]

theorem mixCol_basis2 {u : Nat} (h : u < 256) :
    mixCol (pack4 0 0 u 0) = pack4 u (gm3 u) (gm2 u) u := by
  simp only [mixCol, wb0_pack4 (by omega : (0:Nat) < 256) h (by omega : (0:Nat) < 256),
    wb1_pack4 (by omega : (0:Nat) < 256) h (by omega : (0:Nat) < 256),
    wb2_pack4 (by omega : (0:Nat) < 256) h (by omega : (0:Nat) < 256),
    wb3_pack4 (by omega : (0:Nat) < 256)]
  rw [gm3_zero, gm2_zero]
  simp [Nat.xor_zero, Nat.zero_xor]

theorem mixCol_basis3 {u : Nat} (h : u < 256) :
    mixCol (pack4 0 0 0 u) = pack4 u u (gm3 u) (gm2 u) := by
  simp only [mixCol, wb0_pack4 (by omega : (0:Nat) < 256) (by omega : (0:Nat) < 256) h,
    wb1_pack4 (by omega : (0:Nat) < 256) (by omega : (0:Nat) < 256) h,
    wb2_pack4 (by omega : (0:Nat) < 256) (by omega : (0:Nat) < 256) h,
    wb3_pack4 h]
  rw [gm3_zero, gm2_zero]
  simp [Nat.xor_zero, Nat.zero_xor]

theorem imix_mix_basis0 {u : Nat} (h : u < 256) :
    imixCol (mixCol (pack4 u 0 0 0)) = pack4 u 0 0 0 := by
  rw [mixCol_basis0 h]
  have e := mixRowIdentities ⟨u, h⟩
  simp only [imixCol, wb0_pack4 h h (gm3_lt h), wb1_pack4 h h (gm3_lt h),
    wb2_pack4 h h (gm3_lt h), wb3_pack4 (gm3_lt h)]
  rw [e.1, e.2.1, e.2.2.1, e.2.2.2.1]

theorem imix_mix_basis1 {u : Nat} (h : u < 256) :
    imixCol (mixCol (pack4 0 u 0 0)) = pack4 0 u 0 0 := by
  rw [mixCol_basis1 h]
  have e := mixRowIdentities ⟨u, h⟩
  simp only [imixCol, wb0_pack4 (gm2_lt h) h h, wb1_pack4 (gm2_lt h) h h,
    wb2_pack4 (gm2_lt h) h h, wb3_pack4 h]
  rw [e.2.2.2.2.1, e.2.2.2.2.2.1, e.2.2.2.2.2.2.1, e.2.2.2.2.2.2.2.1]

theorem imix_mix_basis2 {u : Nat} (h : u < 256) :
    imixCol (mixCol (pack4 0 0 u 0)) = pack4 0 0 u 0 := by
  rw [mixCol_basis2 h]
  have e := mixRowIdentities ⟨u, h⟩
  simp only [imixCol, wb0_pack4 (gm3_lt h) (gm2_lt h) h,
    wb1_pack4 (gm3_lt h) (gm2_lt h) h, wb2_pack4 (gm3_lt h) (gm2_lt h) h,
    wb3_pack4 h]
  rw [e.2.2.2.2.2.2.2.2.1, e.2.2.2.2.2.2.2.2.2.1,
    e.2.2.2.2.2.2.2.2.2.2.1, e.2.2.2.2.2.2.2.2.2.2.2.1]

theorem imix_mix_basis3 {u : Nat} (h : u < 256) :
    imixCol (mixCol (pack4 0 0 0 u)) = pack4 0 0 0 u := by
  rw [mixCol_basis3 h]
  have e := mixRowIdentities ⟨u, h⟩
  simp only [imixCol, wb0_pack4 h (gm3_lt h) (gm2_lt h),
    wb1_pack4 h (gm3_lt h) (gm2_lt h), wb2_pack4 h (gm3_lt h) (gm2_lt h),
    wb3_pack4 (gm2_lt h)]
  rw [e.2.2.2.2.2.2.2.2.2.2.2.2.1, e.2.2.2.2.2.2.2.2.2.2.2.2.2.1,
    e.2.2.2.2.2.2.2.2.2.2.2.2.2.2.1, e.2.2.2.2.2.2.2.2.2.2.2.2.2.2.2]

theorem mixCol_linear {x y : Nat} (hx : x < 2 ^ 32) (hy : y < 2 ^ 32) :
    mixCol (x ^^^ y) = mixCol x ^^^ mixCol y := by
  have h0x := wb0_lt hx
  have h0y := wb0_lt hy
  have h1x := wb1_lt x
  have h1y := wb1_lt y
  have h2x := wb2_lt x
  have h2y := wb2_lt y
  have h3x := wb3_lt x
  have h3y := wb3_lt y
  simp only [mixCol, wb0_xor, wb1_xor, wb2_xor, wb3_xor]
  rw [gm2_linear h0x h0y, gm3_linear h1x h1y, gm2_linear h1x h1y, gm3_linear h2x h2y,
    gm2_linear h2x h2y, gm3_linear h3x h3y, gm3_linear h0x h0y, gm2_linear h3x h3y]
  rw [xorShuffle6 (gm2 (wb0 x)) (gm2 (wb0 y)) (gm3 (wb1 x)) (gm3 (wb1 y)) (wb2 x) (wb2 y),
    xorShuffle6 (wb0 x) (wb0 y) (gm2 (wb1 x)) (gm2 (wb1 y)) (gm3 (wb2 x)) (gm3 (wb2 y)),
    xorShuffle6 (wb0 x) (wb0 y) (wb1 x) (wb1 y) (gm2 (wb2 x)) (gm2 (wb2 y)),
    xorShuffle6 (gm3 (wb0 x)) (gm3 (wb0 y)) (wb1 x) (wb1 y) (wb2 x) (wb2 y)]
  rw [xorShuffle4 (gm2 (wb0 x) ^^^ gm3 (wb1 x) ^^^ wb2 x)
      (gm2 (wb0 y) ^^^ gm3 (wb1 y) ^^^ wb2 y) (wb3 x) (wb3 y),
    xorShuffle4 (wb0 x ^^^ gm2 (wb1 x) ^^^ gm3 (wb2 x))
      (wb0 y ^^^ gm2 (wb1 y) ^^^ gm3 (wb2 y)) (wb3 x) (wb3 y),
    xorShuffle4 (wb0 x ^^^ wb1 x ^^^ gm2 (wb2 x))
      (wb0 y ^^^ wb1 y ^^^ gm2 (wb2 y)) (gm3 (wb3 x)) (gm3 (wb3 y)),
    xorShuffle4 (gm3 (wb0 x) ^^^ wb1 x ^^^ wb2 x)
      (gm3 (wb0 y) ^^^ wb1 y ^^^ wb2 y) (gm2 (wb3 x)) (gm2 (wb3 y))]
  rw [xorPack4
    (xorLt256 (xorLt256 (xorLt256 (gm2_lt h0x) (gm3_lt h1x)) h2x) h3x)
    (xorLt256 (xorLt256 (xorLt256 h0x (gm2_lt h1x)) (gm3_lt h2x)) h3x)
    (xorLt256 (xorLt256 (xorLt256 h0x h1x) (gm2_lt h2x)) (gm3_lt h3x))
    (xorLt256 (xorLt256 (xorLt256 (gm3_lt h0x) h1x) h2x) (gm2_lt h3x))
    (xorLt256 (xorLt256 (xorLt256 (gm2_lt h0y) (gm3_lt h1y)) h2y) h3y)
    (xorLt256 (xorLt256 (xorLt256 h0y (gm2_lt h1y)) (gm3_lt h2y)) h3y)
    (xorLt256 (xorLt256 (xorLt256 h0y h1y) (gm2_lt h2y)) (gm3_lt h3y))
    (xorLt256 (xorLt256 (xorLt256 (gm3_lt h0y) h1y) h2y) (gm2_lt h3y))]

theorem imix_mix {w : Nat} (h : w < 2 ^ 32) : imixCol (mixCol w) = w := by
  have h0 := wb0_lt h
  have h1 := wb1_lt w
  have h2 := wb2_lt w
  have h3 := wb3_lt w
  have hp0 : pack4 (wb0 w) 0 0 0 < 2 ^ 32 := pack4_lt h0 (by omega) (by omega) (by omega)
  have hp1 : pack4 0 (wb1 w) 0 0 < 2 ^ 32 := pack4_lt (by omega) h1 (by omega) (by omega)
  have hp2 : pack4 0 0 (wb2 w) 0 < 2 ^ 32 := pack4_lt (by omega) (by omega) h2 (by omega)
  have hp3 : pack4 0 0 0 (wb3 w) < 2 ^ 32 := pack4_lt (by omega) (by omega) (by omega) h3
  conv_lhs => rw [← pack4_wb h, pack4_split h0 h1 h2 h3]
  rw [mixCol_linear (Nat.xor_lt_two_pow (Nat.xor_lt_two_pow hp0 hp1) hp2) hp3,
    mixCol_linear (Nat.xor_lt_two_pow hp0 hp1) hp2,
    mixCol_linear hp0 hp1]
  rw [imixCol_linear
      (Nat.xor_lt_two_pow (Nat.xor_lt_two_pow (mixCol_comp_lt hp0) (mixCol_comp_lt hp1))
        (mixCol_comp_lt hp2)) (mixCol_comp_lt hp3),
    imixCol_linear (Nat.xor_lt_two_pow (mixCol_comp_lt hp0) (mixCol_comp_lt hp1))
      (mixCol_comp_lt hp2),
    imixCol_linear (mixCol_comp_lt hp0) (mixCol_comp_lt hp1)]
  rw [imix_mix_basis0 h0, imix_mix_basis1 h1, imix_mix_basis2 h2, imix_mix_basis3 h3]
  rw [← pack4_split h0 h1 h2 h3, pack4_wb h]

set_option maxRecDepth 10000 in
theorem sboxF_lt : ∀ i : Fin 256, sboxF i.val < 256 := by decide

set_option maxRecDepth 10000 in
theorem sinvF_lt : ∀ i : Fin 256, sinvF i.val < 256 := by decide

set_option maxRecDepth 10000 in
theorem sinv_sbox : ∀ i : Fin 256, sinvF (sboxF i.val) = i.val := by decide

set_option maxRecDepth 10000 in
theorem t0_struct : ∀ i : Fin 256, aesT0Lit.getD i.val 0 =
    pack4 (gm2 (sboxF i.val)) (sboxF i.val) (sboxF i.val) (gm3 (sboxF i.val)) := by
  decide

set_option maxRecDepth 10000 in
theorem t1_struct : ∀ i : Fin 256, aesT1Lit.getD i.val 0 =
    pack4 (gm3 (sboxF i.val)) (gm2 (sboxF i.val)) (sboxF i.val) (sboxF i.val) := by
  decide

set_option maxRecDepth 10000 in
theorem t2_struct : ∀ i : Fin 256, aesT2Lit.getD i.val 0 =
    pack4 (sboxF i.val) (gm3 (sboxF i.val)) (gm2 (sboxF i.val)) (sboxF i.val) := by
  decide

set_option maxRecDepth 10000 in
theorem t3_struct : ∀ i : Fin 256, aesT3Lit.getD i.val 0 =
    pack4 (sboxF i.val) (sboxF i.val) (gm3 (sboxF i.val)) (gm2 (sboxF i.val)) := by
  decide

set_option maxRecDepth 10000 in
theorem it0_struct : ∀ i : Fin 256, aesIT0Lit.getD i.val 0 =
    pack4 (gm14 (sinvF i.val)) (gm9 (sinvF i.val)) (gm13 (sinvF i.val))
      (gm11 (sinvF i.val)) := by
  decide

set_option maxRecDepth 10000 in
theorem it1_struct : ∀ i : Fin 256, aesIT1Lit.getD i.val 0 =
    pack4 (gm11 (sinvF i.val)) (gm14 (sinvF i.val)) (gm9 (sinvF i.val))
      (gm13 (sinvF i.val)) := by
  decide

set_option maxRecDepth 10000 in
theorem it2_struct : ∀ i : Fin 256, aesIT2Lit.getD i.val 0 =
    pack4 (gm13 (sinvF i.val)) (gm11 (sinvF i.val)) (gm14 (sinvF i.val))
      (gm9 (sinvF i.val)) := by
  decide

set_option maxRecDepth 10000 in
theorem it3_struct : ∀ i : Fin 256, aesIT3Lit.getD i.val 0 =
    pack4 (gm9 (sinvF i.val)) (gm13 (sinvF i.val)) (gm11 (sinvF i.val))
      (gm14 (sinvF i.val)) := by
  decide

theorem sboxF_ltN {u : Nat} (h : u < 256) : sboxF u < 256 := sboxF_lt ⟨u, h⟩

theorem sinvF_ltN {u : Nat} (h : u < 256) : sinvF u < 256 := sinvF_lt ⟨u, h⟩

theorem sinv_sboxN {u : Nat} (h : u < 256) : sinvF (sboxF u) = u := sinv_sbox ⟨u, h⟩

theorem t0_structN {u : Nat} (h : u < 256) : aesT0Lit.getD u 0 =
    pack4 (gm2 (sboxF u)) (sboxF u) (sboxF u) (gm3 (sboxF u)) := t0_struct ⟨u, h⟩

theorem t1_structN {u : Nat} (h : u < 256) : aesT1Lit.getD u 0 =
    pack4 (gm3 (sboxF u)) (gm2 (sboxF u)) (sboxF u) (sboxF u) := t1_struct ⟨u, h⟩

theorem t2_structN {u : Nat} (h : u < 256) : aesT2Lit.getD u 0 =
    pack4 (sboxF u) (gm3 (sboxF u)) (gm2 (sboxF u)) (sboxF u) := t2_struct ⟨u, h⟩

theorem t3_structN {u : Nat} (h : u < 256) : aesT3Lit.getD u 0 =
    pack4 (sboxF u) (sboxF u) (gm3 (sboxF u)) (gm2 (sboxF u)) := t3_struct ⟨u, h⟩

theorem it0_structN {u : Nat} (h : u < 256) : aesIT0Lit.getD u 0 =
    pack4 (gm14 (sinvF u)) (gm9 (sinvF u)) (gm13 (sinvF u)) (gm11 (sinvF u)) :=
  it0_struct ⟨u, h⟩

theorem it1_structN {u : Nat} (h : u < 256) : aesIT1Lit.getD u 0 =
    pack4 (gm11 (sinvF u)) (gm14 (sinvF u)) (gm9 (sinvF u)) (gm13 (sinvF u)) :=
  it1_struct ⟨u, h⟩

theorem it2_structN {u : Nat} (h : u < 256) : aesIT2Lit.getD u 0 =
    pack4 (gm13 (sinvF u)) (gm11 (sinvF u)) (gm14 (sinvF u)) (gm9 (sinvF u)) :=
  it2_struct ⟨u, h⟩

theorem it3_structN {u : Nat} (h : u < 256) : aesIT3Lit.getD u 0 =
    pack4 (gm9 (sinvF u)) (gm13 (sinvF u)) (gm11 (sinvF u)) (gm14 (sinvF u)) :=
  it3_struct ⟨u, h⟩

theorem sboxGetD (u : Nat) : aesSboxLit.getD u 0 = sboxF u := rfl

theorem sinvGetD (u : Nat) : aesSinvLit.getD u 0 = sinvF u := rfl

theorem shrIsWb0 (x : Nat) : x >>> 24 = wb0 x := by
  rw [Nat.shiftRight_eq_div_pow]; rfl

theorem shrIsWb1 (x : Nat) : (x >>> 16) &&& 255 = wb1 x := by
  have h : (255 : Nat) = 2 ^ 8 - 1 := by norm_num
  rw [h, Nat.and_pow_two_sub_one_eq_mod, Nat.shiftRight_eq_div_pow]
  norm_num [wb1]

theorem shrIsWb2 (x : Nat) : (x >>> 8) &&& 255 = wb2 x := by
  have h : (255 : Nat) = 2 ^ 8 - 1 := by norm_num
  rw [h, Nat.and_pow_two_sub_one_eq_mod, Nat.shiftRight_eq_div_pow]
  norm_num [wb2]

theorem andIsWb3 (x : Nat) : x &&& 255 = wb3 x := by
  have h : (255 : Nat) = 2 ^ 8 - 1 := by norm_num
  rw [h, Nat.and_pow_two_sub_one_eq_mod]
  norm_num [wb3]

theorem wmap_pack4 (f : Nat → Nat) {b0 b1 b2 b3 : Nat} (h1 : b1 < 256)
    (h2 : b2 < 256) (h3 : b3 < 256) :
    wmap f (pack4 b0 b1 b2 b3) = pack4 (f b0) (f b1) (f b2) (f b3) := by
  simp only [wmap, wb0_pack4 h1 h2 h3, wb1_pack4 h1 h2 h3, wb2_pack4 h1 h2 h3,
    wb3_pack4 h3]

theorem mixCol_pack4 {b0 b1 b2 b3 : Nat} (h1 : b1 < 256) (h2 : b2 < 256)
    (h3 : b3 < 256) :
    mixCol (pack4 b0 b1 b2 b3) =
      pack4 (gm2 b0 ^^^ gm3 b1 ^^^ b2 ^^^ b3) (b0 ^^^ gm2 b1 ^^^ gm3 b2 ^^^ b3)
        (b0 ^^^ b1 ^^^ gm2 b2 ^^^ gm3 b3) (gm3 b0 ^^^ b1 ^^^ b2 ^^^ gm2 b3) := by
  simp only [mixCol, wb0_pack4 h1 h2 h3, wb1_pack4 h1 h2 h3, wb2_pack4 h1 h2 h3,
    wb3_pack4 h3]

theorem imixCol_pack4 {b0 b1 b2 b3 : Nat} (h1 : b1 < 256) (h2 : b2 < 256)
    (h3 : b3 < 256) :
    imixCol (pack4 b0 b1 b2 b3) =
      pack4 (gm14 b0 ^^^ gm11 b1 ^^^ gm13 b2 ^^^ gm9 b3)
        (gm9 b0 ^^^ gm14 b1 ^^^ gm11 b2 ^^^ gm13 b3)
        (gm13 b0 ^^^ gm9 b1 ^^^ gm14 b2 ^^^ gm11 b3)
        (gm11 b0 ^^^ gm13 b1 ^^^ gm9 b2 ^^^ gm14 b3) := by
  simp only [imixCol, wb0_pack4 h1 h2 h3, wb1_pack4 h1 h2 h3, wb2_pack4 h1 h2 h3,
    wb3_pack4 h3]

theorem encRoundWord (x0 x1 x2 x3 rk : Nat) (h0 : x0 < 2 ^ 32) :
    aesT0Lit.getD (x0 >>> 24) 0 ^^^ aesT1Lit.getD ((x1 >>> 16) &&& 255) 0 ^^^
      aesT2Lit.getD ((x2 >>> 8) &&& 255) 0 ^^^ aesT3Lit.getD (x3 &&& 255) 0 ^^^ rk =
    mixCol (wmap sboxF (pack4 (wb0 x0) (wb1 x1) (wb2 x2) (wb3 x3))) ^^^ rk := by
  have hs0 : sboxF (wb0 x0) < 256 := sboxF_ltN (wb0_lt h0)
  have hs1 : sboxF (wb1 x1) < 256 := sboxF_ltN (wb1_lt x1)
  have hs2 : sboxF (wb2 x2) < 256 := sboxF_ltN (wb2_lt x2)
  have hs3 : sboxF (wb3 x3) < 256 := sboxF_ltN (wb3_lt x3)
  rw [shrIsWb0, shrIsWb1, shrIsWb2, andIsWb3,
    t0_structN (wb0_lt h0), t1_structN (wb1_lt x1), t2_structN (wb2_lt x2),
    t3_structN (wb3_lt x3),
    wmap_pack4 sboxF (wb1_lt x1) (wb2_lt x2) (wb3_lt x3),
    mixCol_pack4 hs1 hs2 hs3,
    xorPack4 (gm2_lt hs0) hs0 hs0 (gm3_lt hs0) (gm3_lt hs1) (gm2_lt hs1) hs1 hs1,
    xorPack4 (xorLt256 (gm2_lt hs0) (gm3_lt hs1)) (xorLt256 hs0 (gm2_lt hs1))
      (xorLt256 hs0 hs1) (xorLt256 (gm3_lt hs0) hs1) hs2 (gm3_lt hs2)
      (gm2_lt hs2) hs2,
    xorPack4 (xorLt256 (xorLt256 (gm2_lt hs0) (gm3_lt hs1)) hs2)
      (xorLt256 (xorLt256 hs0 (gm2_lt hs1)) (gm3_lt hs2))
      (xorLt256 (xorLt256 hs0 hs1) (gm2_lt hs2))
      (xorLt256 (xorLt256 (gm3_lt hs0) hs1) hs2) hs3 hs3 (gm3_lt hs3)
      (gm2_lt hs3)]

theorem decRoundWord (x0 x1 x2 x3 rk : Nat) (h0 : x0 < 2 ^ 32) :
    aesIT0Lit.getD (x0 >>> 24) 0 ^^^ aesIT1Lit.getD ((x1 >>> 16) &&& 255) 0 ^^^
      aesIT2Lit.getD ((x2 >>> 8) &&& 255) 0 ^^^ aesIT3Lit.getD (x3 &&& 255) 0 ^^^ rk =
    imixCol (wmap sinvF (pack4 (wb0 x0) (wb1 x1) (wb2 x2) (wb3 x3))) ^^^ rk := by
  have hs0 : sinvF (wb0 x0) < 256 := sinvF_ltN (wb0_lt h0)
  have hs1 : sinvF (wb1 x1) < 256 := sinvF_ltN (wb1_lt x1)
  have hs2 : sinvF (wb2 x2) < 256 := sinvF_ltN (wb2_lt x2)
  have hs3 : sinvF (wb3 x3) < 256 := sinvF_ltN (wb3_lt x3)
  rw [shrIsWb0, shrIsWb1, shrIsWb2, andIsWb3,
    it0_structN (wb0_lt h0), it1_structN (wb1_lt x1), it2_structN (wb2_lt x2),
    it3_structN (wb3_lt x3),
    wmap_pack4 sinvF (wb1_lt x1) (wb2_lt x2) (wb3_lt x3),
    imixCol_pack4 hs1 hs2 hs3,
    xorPack4 (gm14_lt hs0) (gm9_lt hs0) (gm13_lt hs0) (gm11_lt hs0)
      (gm11_lt hs1) (gm14_lt hs1) (gm9_lt hs1) (gm13_lt hs1),
    xorPack4 (xorLt256 (gm14_lt hs0) (gm11_lt hs1)) (xorLt256 (gm9_lt hs0) (gm14_lt hs1))
      (xorLt256 (gm13_lt hs0) (gm9_lt hs1)) (xorLt256 (gm11_lt hs0) (gm13_lt hs1))
      (gm13_lt hs2) (gm11_lt hs2) (gm14_lt hs2) (gm9_lt hs2),
    xorPack4 (xorLt256 (xorLt256 (gm14_lt hs0) (gm11_lt hs1)) (gm13_lt hs2))
      (xorLt256 (xorLt256 (gm9_lt hs0) (gm14_lt hs1)) (gm11_lt hs2))
      (xorLt256 (xorLt256 (gm13_lt hs0) (gm9_lt hs1)) (gm14_lt hs2))
      (xorLt256 (xorLt256 (gm11_lt hs0) (gm13_lt hs1)) (gm9_lt hs2))
      (gm9_lt hs3) (gm13_lt hs3) (gm11_lt hs3) (gm14_lt hs3)]

theorem finalRoundWord (SB : List Nat) (f : Nat → Nat)
    (hSB : ∀ u, SB.getD u 0 = f u) (hlt : ∀ u, u < 256 → f u < 256)
    (x0 x1 x2 x3 rk : Nat) (h0 : x0 < 2 ^ 32) :
    ((SB.getD (x0 >>> 24) 0 <<< 24) ||| (SB.getD ((x1 >>> 16) &&& 255) 0 <<< 16) |||
      (SB.getD ((x2 >>> 8) &&& 255) 0 <<< 8) ||| SB.getD (x3 &&& 255) 0) ^^^ rk =
    wmap f (pack4 (wb0 x0) (wb1 x1) (wb2 x2) (wb3 x3)) ^^^ rk := by
  rw [shrIsWb0, shrIsWb1, shrIsWb2, andIsWb3, hSB, hSB, hSB, hSB,
    orPack4 (hlt _ (wb0_lt h0)) (hlt _ (wb1_lt x1)) (hlt _ (wb2_lt x2))
      (hlt _ (wb3_lt x3)),
    wmap_pack4 f (wb1_lt x1) (wb2_lt x2) (wb3_lt x3)]

theorem aesRound_enc (rk st : W4) (h : w4lt st) :
    aesRound aesT0Lit aesT1Lit aesT2Lit aesT3Lit rk st = encRoundS rk st := by
  obtain ⟨ha, hb, hc, hd⟩ := h
  have e0 := encRoundWord st.a st.b st.c st.d rk.a ha
  have e1 := encRoundWord st.b st.c st.d st.a rk.b hb
  have e2 := encRoundWord st.c st.d st.a st.b rk.c hc
  have e3 := encRoundWord st.d st.a st.b st.c rk.d hd
  simp only [aesRound, encRoundS, w4xor, mc4, sb4, sr4]
  rw [W4.mk.injEq]
  exact ⟨e0, e1, e2, e3⟩

theorem aesRound_dec (rk st : W4) (h : w4lt st) :
    aesRound aesIT0Lit aesIT1Lit aesIT2Lit aesIT3Lit rk st = decRoundS rk st := by
  obtain ⟨ha, hb, hc, hd⟩ := h
  have e0 := decRoundWord st.a st.b st.c st.d rk.a ha
  have e1 := decRoundWord st.b st.c st.d st.a rk.b hb
  have e2 := decRoundWord st.c st.d st.a st.b rk.c hc
  have e3 := decRoundWord st.d st.a st.b st.c rk.d hd
  simp only [aesRound, decRoundS, w4xor, imc4, sb4, sr4]
  rw [W4.mk.injEq]
  exact ⟨e0, e1, e2, e3⟩

theorem aesFinal_enc (rk st : W4) (h : w4lt st) :
    aesFinalRound aesSboxLit rk st = w4xor (sb4 sboxF (sr4 st)) rk := by
  obtain ⟨ha, hb, hc, hd⟩ := h
  have e0 := finalRoundWord aesSboxLit sboxF sboxGetD (fun u hu => sboxF_ltN hu)
    st.a st.b st.c st.d rk.a ha
  have e1 := finalRoundWord aesSboxLit sboxF sboxGetD (fun u hu => sboxF_ltN hu)
    st.b st.c st.d st.a rk.b hb
  have e2 := finalRoundWord aesSboxLit sboxF sboxGetD (fun u hu => sboxF_ltN hu)
    st.c st.d st.a st.b rk.c hc
  have e3 := finalRoundWord aesSboxLit sboxF sboxGetD (fun u hu => sboxF_ltN hu)
    st.d st.a st.b st.c rk.d hd
  simp only [aesFinalRound, w4xor, sb4, sr4]
  rw [W4.mk.injEq]
  exact ⟨e0, e1, e2, e3⟩

theorem aesFinal_dec (rk st : W4) (h : w4lt st) :
    aesFinalRound aesSinvLit rk st = w4xor (sb4 sinvF (sr4 st)) rk := by
  obtain ⟨ha, hb, hc, hd⟩ := h
  have e0 := finalRoundWord aesSinvLit sinvF sinvGetD (fun u hu => sinvF_ltN hu)
    st.a st.b st.c st.d rk.a ha
  have e1 := finalRoundWord aesSinvLit sinvF sinvGetD (fun u hu => sinvF_ltN hu)
    st.b st.c st.d st.a rk.b hb
  have e2 := finalRoundWord aesSinvLit sinvF sinvGetD (fun u hu => sinvF_ltN hu)
    st.c st.d st.a st.b rk.c hc
  have e3 := finalRoundWord aesSinvLit sinvF sinvGetD (fun u hu => sinvF_ltN hu)
    st.d st.a st.b st.c rk.d hd
  simp only [aesFinalRound, w4xor, sb4, sr4]
  rw [W4.mk.injEq]
  exact ⟨e0, e1, e2, e3⟩

theorem sr4_swp (st : W4) : sr4 (swp st) = swp (isr4 st) := rfl

theorem sb4_swp (f : Nat → Nat) (st : W4) : sb4 f (swp st) = swp (sb4 f st) := rfl

theorem imc4_swp (st : W4) : imc4 (swp st) = swp (imc4 st) := rfl

theorem w4xor_swp (u v : W4) : w4xor (swp u) (swp v) = swp (w4xor u v) := rfl

theorem wb0_wmap (f : Nat → Nat) (hf : ∀ u, u < 256 → f u < 256) (w : Nat) :
    wb0 (wmap f w) = f (wb0 w) := by
  simp only [wmap]
  exact wb0_pack4 (hf _ (wb1_lt w)) (hf _ (wb2_lt w)) (hf _ (wb3_lt w))

theorem wb1_wmap (f : Nat → Nat) (hf : ∀ u, u < 256 → f u < 256) (w : Nat) :
    wb1 (wmap f w) = f (wb1 w) := by
  simp only [wmap]
  exact wb1_pack4 (hf _ (wb1_lt w)) (hf _ (wb2_lt w)) (hf _ (wb3_lt w))

theorem wb2_wmap (f : Nat → Nat) (hf : ∀ u, u < 256 → f u < 256) (w : Nat) :
    wb2 (wmap f w) = f (wb2 w) := by
  simp only [wmap]
  exact wb2_pack4 (hf _ (wb1_lt w)) (hf _ (wb2_lt w)) (hf _ (wb3_lt w))

theorem wb3_wmap (f : Nat → Nat) (hf : ∀ u, u < 256 → f u < 256) (w : Nat) :
    wb3 (wmap f w) = f (wb3 w) := by
  simp only [wmap]
  exact wb3_pack4 (hf _ (wb3_lt w))

theorem sb4_isr4 (f : Nat → Nat) (hf : ∀ u, u < 256 → f u < 256) (st : W4) :
    sb4 f (isr4 st) = isr4 (sb4 f st) := by
  simp only [sb4, isr4]
  rw [W4.mk.injEq]
  refine ⟨?_, ?_, ?_, ?_⟩ <;>
    rw [wmap_pack4 f (wb1_lt _) (wb2_lt _) (wb3_lt _),
      wb0_wmap f hf, wb1_wmap f hf, wb2_wmap f hf, wb3_wmap f hf]

theorem isr4_sr4 (st : W4) (h : w4lt st) : isr4 (sr4 st) = st := by
  obtain ⟨ha, hb, hc, hd⟩ := h
  simp only [isr4, sr4]
  rw [W4.mk.injEq]
  refine ⟨?_, ?_, ?_, ?_⟩ <;>
    rw [wb0_pack4 (wb1_lt _) (wb2_lt _) (wb3_lt _),
      wb1_pack4 (wb1_lt _) (wb2_lt _) (wb3_lt _),
      wb2_pack4 (wb1_lt _) (wb2_lt _) (wb3_lt _),
      wb3_pack4 (wb3_lt _)]
  exacts [pack4_wb ha, pack4_wb hb, pack4_wb hc, pack4_wb hd]

theorem sinv_sbox_w (w : Nat) (h : w < 2 ^ 32) :
    wmap sinvF (wmap sboxF w) = w := by
  rw [show wmap sboxF w =
      pack4 (sboxF (wb0 w)) (sboxF (wb1 w)) (sboxF (wb2 w)) (sboxF (wb3 w)) from rfl]
  rw [wmap_pack4 sinvF (sboxF_ltN (wb1_lt w)) (sboxF_ltN (wb2_lt w))
    (sboxF_ltN (wb3_lt w))]
  rw [sinv_sboxN (wb0_lt h), sinv_sboxN (wb1_lt w), sinv_sboxN (wb2_lt w),
    sinv_sboxN (wb3_lt w), pack4_wb h]

theorem sb4_inv (st : W4) (h : w4lt st) : sb4 sinvF (sb4 sboxF st) = st := by
  obtain ⟨ha, hb, hc, hd⟩ := h
  simp only [sb4]
  rw [W4.mk.injEq]
  exact ⟨sinv_sbox_w _ ha, sinv_sbox_w _ hb, sinv_sbox_w _ hc, sinv_sbox_w _ hd⟩

theorem wmap_lt (f : Nat → Nat) (hf : ∀ u, u < 256 → f u < 256) {w : Nat}
    (h : w < 2 ^ 32) : wmap f w < 2 ^ 32 :=
  pack4_lt (hf _ (wb0_lt h)) (hf _ (wb1_lt w)) (hf _ (wb2_lt w)) (hf _ (wb3_lt w))

theorem w4lt_sb4 (f : Nat → Nat) (hf : ∀ u, u < 256 → f u < 256) {st : W4}
    (h : w4lt st) : w4lt (sb4 f st) :=
  ⟨wmap_lt f hf h.1, wmap_lt f hf h.2.1, wmap_lt f hf h.2.2.1, wmap_lt f hf h.2.2.2⟩

theorem w4lt_sr4 {st : W4} (h : w4lt st) : w4lt (sr4 st) := by
  obtain ⟨ha, hb, hc, hd⟩ := h
  exact ⟨pack4_lt (wb0_lt ha) (wb1_lt _) (wb2_lt _) (wb3_lt _),
    pack4_lt (wb0_lt hb) (wb1_lt _) (wb2_lt _) (wb3_lt _),
    pack4_lt (wb0_lt hc) (wb1_lt _) (wb2_lt _) (wb3_lt _),
    pack4_lt (wb0_lt hd) (wb1_lt _) (wb2_lt _) (wb3_lt _)⟩

theorem w4lt_mc4 {st : W4} (h : w4lt st) : w4lt (mc4 st) :=
  ⟨mixCol_comp_lt h.1, mixCol_comp_lt h.2.1, mixCol_comp_lt h.2.2.1,
    mixCol_comp_lt h.2.2.2⟩

theorem w4lt_imc4 {st : W4} (h : w4lt st) : w4lt (imc4 st) :=
  ⟨imixCol_comp_lt h.1, imixCol_comp_lt h.2.1, imixCol_comp_lt h.2.2.1,
    imixCol_comp_lt h.2.2.2⟩

theorem w4lt_xor {u v : W4} (hu : w4lt u) (hv : w4lt v) : w4lt (w4xor u v) :=
  ⟨Nat.xor_lt_two_pow hu.1 hv.1, Nat.xor_lt_two_pow hu.2.1 hv.2.1,
    Nat.xor_lt_two_pow hu.2.2.1 hv.2.2.1, Nat.xor_lt_two_pow hu.2.2.2 hv.2.2.2⟩

theorem w4lt_swp {st : W4} (h : w4lt st) : w4lt (swp st) :=
  ⟨h.1, h.2.2.2, h.2.2.1, h.2.1⟩

theorem w4lt_encRound {k st : W4} (hk : w4lt k) (hst : w4lt st) :
    w4lt (encRoundS k st) :=
  w4lt_xor (w4lt_mc4 (w4lt_sb4 sboxF (fun _ hu => sboxF_ltN hu) (w4lt_sr4 hst))) hk

theorem w4lt_decRound {k st : W4} (hk : w4lt k) (hst : w4lt st) :
    w4lt (decRoundS k st) :=
  w4lt_xor (w4lt_imc4 (w4lt_sb4 sinvF (fun _ hu => sinvF_ltN hu) (w4lt_sr4 hst))) hk

theorem imc4_xor {u v : W4} (hu : w4lt u) (hv : w4lt v) :
    imc4 (w4xor u v) = w4xor (imc4 u) (imc4 v) := by
  simp only [imc4, w4xor]
  rw [W4.mk.injEq]
  exact ⟨imixCol_linear hu.1 hv.1, imixCol_linear hu.2.1 hv.2.1,
    imixCol_linear hu.2.2.1 hv.2.2.1, imixCol_linear hu.2.2.2 hv.2.2.2⟩

theorem imc4_mc4 {st : W4} (h : w4lt st) : imc4 (mc4 st) = st := by
  simp only [imc4, mc4]
  rw [W4.mk.injEq]
  exact ⟨imix_mix h.1, imix_mix h.2.1, imix_mix h.2.2.1, imix_mix h.2.2.2⟩

theorem w4xor_cancel (u v : W4) : w4xor (w4xor u v) v = u := by
  simp [w4xor, Nat.xor_assoc]

theorem cancelRound (k st : W4) (hk : w4lt k) (hst : w4lt st) :
    decRoundS (swp (imc4 k)) (swp (sb4 sboxF (sr4 (encRoundS k st)))) =
      swp (sb4 sboxF (sr4 st)) := by
  have hu : w4lt (sb4 sboxF (sr4 st)) :=
    w4lt_sb4 sboxF (fun _ hu => sboxF_ltN hu) (w4lt_sr4 hst)
  have hy : w4lt (encRoundS k st) := w4lt_encRound hk hst
  simp only [decRoundS]
  rw [sr4_swp, ← sb4_isr4 sboxF (fun _ hu => sboxF_ltN hu), isr4_sr4 _ hy,
    sb4_swp, sb4_inv _ hy, imc4_swp, w4xor_swp]
  show swp (w4xor (imc4 (encRoundS k st)) (imc4 k)) = _
  rw [show encRoundS k st = w4xor (mc4 (sb4 sboxF (sr4 st))) k from rfl,
    imc4_xor (w4lt_mc4 hu) hk, imc4_mc4 hu, w4xor_cancel]

theorem decFoldS_append (l1 l2 : List W4) (st : W4) :
    decFoldS (l1 ++ l2) st = decFoldS l2 (decFoldS l1 st) := by
  induction l1 generalizing st with
  | nil => rfl
  | cons k rest ih =>
    simp only [List.cons_append, decFoldS, List.append_eq]
    exact ih _

theorem w4lt_encFold (ks : List W4) : ∀ st : W4, (∀ k ∈ ks, w4lt k) → w4lt st →
    w4lt (encFoldS ks st) := by
  induction ks with
  | nil => intro st _ hst; exact hst
  | cons k rest ih =>
    intro st hks hst
    exact ih (encRoundS k st) (fun x hx => hks x (by simp [hx]))
      (w4lt_encRound (hks k (by simp)) hst)

theorem foldCancel (ks : List W4) : ∀ st : W4, (∀ k ∈ ks, w4lt k) → w4lt st →
    decFoldS (ks.reverse.map (fun k => swp (imc4 k)))
        (swp (sb4 sboxF (sr4 (encFoldS ks st)))) =
      swp (sb4 sboxF (sr4 st)) := by
  induction ks with
  | nil => intro st _ _; rfl
  | cons k rest ih =>
    intro st hks hst
    have hk : w4lt k := hks k (by simp)
    have hrest : ∀ x ∈ rest, w4lt x := fun x hx => hks x (by simp [hx])
    have hst' : w4lt (encRoundS k st) := w4lt_encRound hk hst
    simp only [List.reverse_cons, List.map_append, List.map_cons, List.map_nil,
      encFoldS]
    rw [decFoldS_append, ih (encRoundS k st) hrest hst']
    exact cancelRound k st hk hst

theorem getD_map_range (f : Nat → Nat) (n d : Nat) (hd : d < n) :
    ((List.range n).map f).getD d 0 = f d := by
  have hlen : d < ((List.range n).map f).length := by simpa using hd
  rw [List.getD_eq_getElem _ _ hlen, List.getElem_map, List.getElem_range]

theorem invKs_getD (e : List Nat) (d : Nat) (hd : d < 60) :
    (invKeySchedule e).getD d 0 =
      (let j := 60 - d
       let k := if d % 4 ≠ 0 then e.getD j 0 else e.getD (j - 4) 0
       if d < 4 ∨ j ≤ 4 then k
       else
         aesIT0Lit.getD (aesSboxLit.getD (k >>> 24) 0) 0 ^^^
         aesIT1Lit.getD (aesSboxLit.getD ((k >>> 16) &&& 255) 0) 0 ^^^
         aesIT2Lit.getD (aesSboxLit.getD ((k >>> 8) &&& 255) 0) 0 ^^^
         aesIT3Lit.getD (aesSboxLit.getD (k &&& 255) 0) 0) := by
  unfold invKeySchedule
  exact getD_map_range _ 60 d hd

theorem invKs_length (e : List Nat) : (invKeySchedule e).length = 60 := by
  simp [invKeySchedule]

set_option maxRecDepth 10000 in
theorem aesIT0_length : aesIT0Lit.length = 256 := rfl

set_option maxRecDepth 10000 in
theorem aesIT1_length : aesIT1Lit.length = 256 := rfl

set_option maxRecDepth 10000 in
theorem aesIT2_length : aesIT2Lit.length = 256 := rfl

set_option maxRecDepth 10000 in
theorem aesIT3_length : aesIT3Lit.length = 256 := rfl

theorem it0_lt_all (u : Nat) : aesIT0Lit.getD u 0 < 2 ^ 32 := by
  rcases lt_or_ge u 256 with h | h
  · rw [it0_structN h]
    exact pack4_lt (gm14_lt (sinvF_ltN h)) (gm9_lt (sinvF_ltN h))
      (gm13_lt (sinvF_ltN h)) (gm11_lt (sinvF_ltN h))
  · rw [List.getD_eq_default _ _ (by rw [aesIT0_length]; exact h)]
    norm_num

theorem it1_lt_all (u : Nat) : aesIT1Lit.getD u 0 < 2 ^ 32 := by
  rcases lt_or_ge u 256 with h | h
  · rw [it1_structN h]
    exact pack4_lt (gm11_lt (sinvF_ltN h)) (gm14_lt (sinvF_ltN h))
      (gm9_lt (sinvF_ltN h)) (gm13_lt (sinvF_ltN h))
  · rw [List.getD_eq_default _ _ (by rw [aesIT1_length]; exact h)]
    norm_num

theorem it2_lt_all (u : Nat) : aesIT2Lit.getD u 0 < 2 ^ 32 := by
  rcases lt_or_ge u 256 with h | h
  · rw [it2_structN h]
    exact pack4_lt (gm13_lt (sinvF_ltN h)) (gm11_lt (sinvF_ltN h))
      (gm14_lt (sinvF_ltN h)) (gm9_lt (sinvF_ltN h))
  · rw [List.getD_eq_default _ _ (by rw [aesIT2_length]; exact h)]
    norm_num

theorem it3_lt_all (u : Nat) : aesIT3Lit.getD u 0 < 2 ^ 32 := by
  rcases lt_or_ge u 256 with h | h
  · rw [it3_structN h]
    exact pack4_lt (gm9_lt (sinvF_ltN h)) (gm13_lt (sinvF_ltN h))
      (gm11_lt (sinvF_ltN h)) (gm14_lt (sinvF_ltN h))
  · rw [List.getD_eq_default _ _ (by rw [aesIT3_length]; exact h)]
    norm_num

theorem invKs_lt (e : List Nat) (hb : ∀ i, e.getD i 0 < 2 ^ 32) (i : Nat) :
    (invKeySchedule e).getD i 0 < 2 ^ 32 := by
  rcases lt_or_ge i 60 with h | h
  · rw [invKs_getD e i h]
    by_cases hc : i < 4 ∨ 60 - i ≤ 4
    · simp only [if_pos hc]
      by_cases hm : i % 4 ≠ 0
      · simp only [if_pos hm]; exact hb _
      · simp only [if_neg hm]; exact hb _
    · simp only [if_neg hc]
      exact natXorLtTwoPow (natXorLtTwoPow (natXorLtTwoPow (it0_lt_all _)
        (it1_lt_all _)) (it2_lt_all _)) (it3_lt_all _)
  · rw [List.getD_eq_default _ _ (by rw [invKs_length]; exact h)]
    norm_num

theorem invKsWord (k : Nat) (hk : k < 2 ^ 32) :
    aesIT0Lit.getD (aesSboxLit.getD (k >>> 24) 0) 0 ^^^
      aesIT1Lit.getD (aesSboxLit.getD ((k >>> 16) &&& 255) 0) 0 ^^^
      aesIT2Lit.getD (aesSboxLit.getD ((k >>> 8) &&& 255) 0) 0 ^^^
      aesIT3Lit.getD (aesSboxLit.getD (k &&& 255) 0) 0 = imixCol k := by
  have h0 := wb0_lt hk
  have h1 := wb1_lt k
  have h2 := wb2_lt k
  have h3 := wb3_lt k
  rw [shrIsWb0, shrIsWb1, shrIsWb2, andIsWb3, sboxGetD, sboxGetD, sboxGetD,
    sboxGetD, it0_structN (sboxF_ltN h0), it1_structN (sboxF_ltN h1),
    it2_structN (sboxF_ltN h2), it3_structN (sboxF_ltN h3),
    sinv_sboxN h0, sinv_sboxN h1, sinv_sboxN h2, sinv_sboxN h3,
    xorPack4 (gm14_lt h0) (gm9_lt h0) (gm13_lt h0) (gm11_lt h0)
      (gm11_lt h1) (gm14_lt h1) (gm9_lt h1) (gm13_lt h1),
    xorPack4 (xorLt256 (gm14_lt h0) (gm11_lt h1)) (xorLt256 (gm9_lt h0) (gm14_lt h1))
      (xorLt256 (gm13_lt h0) (gm9_lt h1)) (xorLt256 (gm11_lt h0) (gm13_lt h1))
      (gm13_lt h2) (gm11_lt h2) (gm14_lt h2) (gm9_lt h2),
    xorPack4 (xorLt256 (xorLt256 (gm14_lt h0) (gm11_lt h1)) (gm13_lt h2))
      (xorLt256 (xorLt256 (gm9_lt h0) (gm14_lt h1)) (gm11_lt h2))
      (xorLt256 (xorLt256 (gm13_lt h0) (gm9_lt h1)) (gm14_lt h2))
      (xorLt256 (xorLt256 (gm11_lt h0) (gm13_lt h1)) (gm9_lt h2))
      (gm9_lt h3) (gm13_lt h3) (gm11_lt h3) (gm14_lt h3),
    ← imixCol_pack4 h1 h2 h3, pack4_wb hk]

theorem ik_zero (e : List Nat) : ksW4 (invKeySchedule e) 0 = swp (ksW4 e 56) := by
  have g0 := invKs_getD e 0 (by norm_num)
  have g1 := invKs_getD e 1 (by norm_num)
  have g2 := invKs_getD e 2 (by norm_num)
  have g3 := invKs_getD e 3 (by norm_num)
  norm_num at g0 g1 g2 g3
  simp only [ksW4, swp]
  rw [W4.mk.injEq]
  norm_num [g0, g1, g2, g3]

theorem ik_final (e : List Nat) : ksW4 (invKeySchedule e) 56 = swp (ksW4 e 0) := by
  have g0 := invKs_getD e 56 (by norm_num)
  have g1 := invKs_getD e 57 (by norm_num)
  have g2 := invKs_getD e 58 (by norm_num)
  have g3 := invKs_getD e 59 (by norm_num)
  norm_num at g0 g1 g2 g3
  simp only [ksW4, swp]
  rw [W4.mk.injEq]
  norm_num [g0, g1, g2, g3]

theorem ik_middle (e : List Nat) (hb : ∀ i, e.getD i 0 < 2 ^ 32) (r : Nat)
    (h1 : 1 ≤ r) (h2 : r ≤ 13) :
    ksW4 (invKeySchedule e) (4 * r) = swp (imc4 (ksW4 e (56 - 4 * r))) := by
  have c0 : ¬(4 * r % 4 ≠ 0) := by omega
  have c1 : (4 * r + 1) % 4 ≠ 0 := by omega
  have c2 : (4 * r + 2) % 4 ≠ 0 := by omega
  have c3 : (4 * r + 3) % 4 ≠ 0 := by omega
  have d0 : ¬(4 * r < 4 ∨ 60 - (4 * r) ≤ 4) := by omega
  have d1 : ¬(4 * r + 1 < 4 ∨ 60 - (4 * r + 1) ≤ 4) := by omega
  have d2 : ¬(4 * r + 2 < 4 ∨ 60 - (4 * r + 2) ≤ 4) := by omega
  have d3 : ¬(4 * r + 3 < 4 ∨ 60 - (4 * r + 3) ≤ 4) := by omega
  have j0 : 60 - 4 * r - 4 = 56 - 4 * r := by omega
  have j1 : 60 - (4 * r + 1) = 56 - 4 * r + 3 := by omega
  have j2 : 60 - (4 * r + 2) = 56 - 4 * r + 2 := by omega
  have j3 : 60 - (4 * r + 3) = 56 - 4 * r + 1 := by omega
  simp only [ksW4, swp, imc4]
  rw [W4.mk.injEq]
  refine ⟨?_, ?_, ?_, ?_⟩
  · rw [invKs_getD e (4 * r) (by omega)]
    simp only [if_neg d0, if_neg c0]
    rw [j0, invKsWord _ (hb _)]
  · rw [invKs_getD e (4 * r + 1) (by omega)]
    simp only [if_neg d1, if_pos c1]
    rw [j1, invKsWord _ (hb _)]
  · rw [invKs_getD e (4 * r + 2) (by omega)]
    simp only [if_neg d2, if_pos c2]
    rw [j2, invKsWord _ (hb _)]
  · rw [invKs_getD e (4 * r + 3) (by omega)]
    simp only [if_neg d3, if_pos c3]
    rw [j3, invKsWord _ (hb _)]

theorem swp_swp (st : W4) : swp (swp st) = st := rfl

theorem w4lt_decFold (ks : List W4) : ∀ st : W4, (∀ k ∈ ks, w4lt k) → w4lt st →
    w4lt (decFoldS ks st) := by
  induction ks with
  | nil => intro st _ hst; exact hst
  | cons k rest ih =>
    intro st hks hst
    exact ih (decRoundS k st) (fun x hx => hks x (by simp [hx]))
      (w4lt_decRound (hks k (by simp)) hst)

theorem ksGroups_lt (ks : List Nat) (hb : ∀ i, ks.getD i 0 < 2 ^ 32) :
    ∀ (n p : Nat), ∀ k ∈ ksGroups ks p n, w4lt k := by
  intro n
  induction n with
  | zero => intro p k hk; simp [ksGroups] at hk
  | succ m ih =>
    intro p k hk
    simp only [ksGroups, List.mem_cons] at hk
    rcases hk with h | h
    · rw [h]; exact ⟨hb p, hb (p + 1), hb (p + 2), hb (p + 3)⟩
    · exact ih (p + 4) k h

theorem aesRoundsGo_enc (ks : List Nat) (hb : ∀ i, ks.getD i 0 < 2 ^ 32) :
    ∀ (m p : Nat) (st : W4), w4lt st →
      aesRoundsGo aesT0Lit aesT1Lit aesT2Lit aesT3Lit ks p m st =
        encFoldS (ksGroups ks p m) st := by
  intro m
  induction m with
  | zero => intro p st _; rfl
  | succ m ih =>
    intro p st hst
    have hk : w4lt (ksW4 ks p) := ⟨hb p, hb (p + 1), hb (p + 2), hb (p + 3)⟩
    simp only [aesRoundsGo, ksGroups, encFoldS]
    rw [aesRound_enc (ksW4 ks p) st hst]
    exact ih (p + 4) _ (w4lt_encRound hk hst)

theorem aesRoundsGo_dec (ks : List Nat) (hb : ∀ i, ks.getD i 0 < 2 ^ 32) :
    ∀ (m p : Nat) (st : W4), w4lt st →
      aesRoundsGo aesIT0Lit aesIT1Lit aesIT2Lit aesIT3Lit ks p m st =
        decFoldS (ksGroups ks p m) st := by
  intro m
  induction m with
  | zero => intro p st _; rfl
  | succ m ih =>
    intro p st hst
    have hk : w4lt (ksW4 ks p) := ⟨hb p, hb (p + 1), hb (p + 2), hb (p + 3)⟩
    simp only [aesRoundsGo, ksGroups, decFoldS]
    rw [aesRound_dec (ksW4 ks p) st hst]
    exact ih (p + 4) _ (w4lt_decRound hk hst)

theorem encryptBlock_spec (ks : List Nat) (hb : ∀ i, ks.getD i 0 < 2 ^ 32)
    (st : W4) (hst : w4lt st) :
    encryptBlock ks st =
      w4xor (sb4 sboxF (sr4 (encFoldS (ksGroups ks 4 13)
        (w4xor st (ksW4 ks 0))))) (ksW4 ks 56) := by
  have h0 : w4lt (w4xor st (ksW4 ks 0)) :=
    w4lt_xor hst ⟨hb 0, hb 1, hb 2, hb 3⟩
  have hm : w4lt (encFoldS (ksGroups ks 4 13) (w4xor st (ksW4 ks 0))) :=
    w4lt_encFold _ _ (ksGroups_lt ks hb 13 4) h0
  simp only [encryptBlock, doCryptBlock]
  rw [aesRoundsGo_enc ks hb 13 4 _ h0, aesFinal_enc _ _ hm]

theorem decryptBlock_spec (iks : List Nat) (hb : ∀ i, iks.getD i 0 < 2 ^ 32)
    (ct : W4) (hct : w4lt ct) :
    decryptBlock iks ct =
      swp (w4xor (sb4 sinvF (sr4 (decFoldS (ksGroups iks 4 13)
        (w4xor (swp ct) (ksW4 iks 0))))) (ksW4 iks 56)) := by
  have h0 : w4lt (w4xor (swp ct) (ksW4 iks 0)) :=
    w4lt_xor (w4lt_swp hct) ⟨hb 0, hb 1, hb 2, hb 3⟩
  have hm : w4lt (decFoldS (ksGroups iks 4 13) (w4xor (swp ct) (ksW4 iks 0))) :=
    w4lt_decFold _ _ (ksGroups_lt iks hb 13 4) h0
  simp only [decryptBlock, doCryptBlock]
  rw [show (⟨ct.a, ct.d, ct.c, ct.b⟩ : W4) = swp ct from rfl]
  rw [aesRoundsGo_dec iks hb 13 4 _ h0, aesFinal_dec _ _ hm]
  rfl

theorem aesBlockInv (e : List Nat) (hb : ∀ i, e.getD i 0 < 2 ^ 32)
    (st : W4) (hst : w4lt st) :
    decryptBlock (invKeySchedule e) (encryptBlock e st) = st := by
  have hbi := invKs_lt e hb
  have hK0 : w4lt (ksW4 e 0) := ⟨hb 0, hb 1, hb 2, hb 3⟩
  have hK14 : w4lt (ksW4 e 56) := ⟨hb 56, hb 57, hb 58, hb 59⟩
  have h0 : w4lt (w4xor st (ksW4 e 0)) := w4lt_xor hst hK0
  have hmid := ksGroups_lt e hb 13 4
  have hm : w4lt (encFoldS (ksGroups e 4 13) (w4xor st (ksW4 e 0))) :=
    w4lt_encFold _ _ hmid h0
  have hZ : w4lt (sb4 sboxF (sr4 (encFoldS (ksGroups e 4 13)
      (w4xor st (ksW4 e 0))))) :=
    w4lt_sb4 sboxF (fun _ hu => sboxF_ltN hu) (w4lt_sr4 hm)
  have hct : w4lt (w4xor (sb4 sboxF (sr4 (encFoldS (ksGroups e 4 13)
      (w4xor st (ksW4 e 0))))) (ksW4 e 56)) := w4lt_xor hZ hK14
  have i1 : ksW4 (invKeySchedule e) 4 = swp (imc4 (ksW4 e 52)) := by
    have h := ik_middle e hb 1 (by norm_num) (by norm_num); norm_num at h; exact h
  have i2 : ksW4 (invKeySchedule e) 8 = swp (imc4 (ksW4 e 48)) := by
    have h := ik_middle e hb 2 (by norm_num) (by norm_num); norm_num at h; exact h
  have i3 : ksW4 (invKeySchedule e) 12 = swp (imc4 (ksW4 e 44)) := by
    have h := ik_middle e hb 3 (by norm_num) (by norm_num); norm_num at h; exact h
  have i4 : ksW4 (invKeySchedule e) 16 = swp (imc4 (ksW4 e 40)) := by
    have h := ik_middle e hb 4 (by norm_num) (by norm_num); norm_num at h; exact h
  have i5 : ksW4 (invKeySchedule e) 20 = swp (imc4 (ksW4 e 36)) := by
    have h := ik_middle e hb 5 (by norm_num) (by norm_num); norm_num at h; exact h
  have i6 : ksW4 (invKeySchedule e) 24 = swp (imc4 (ksW4 e 32)) := by
    have h := ik_middle e hb 6 (by norm_num) (by norm_num); norm_num at h; exact h
  have i7 : ksW4 (invKeySchedule e) 28 = swp (imc4 (ksW4 e 28)) := by
    have h := ik_middle e hb 7 (by norm_num) (by norm_num); norm_num at h; exact h
  have i8 : ksW4 (invKeySchedule e) 32 = swp (imc4 (ksW4 e 24)) := by
    have h := ik_middle e hb 8 (by norm_num) (by norm_num); norm_num at h; exact h
  have i9 : ksW4 (invKeySchedule e) 36 = swp (imc4 (ksW4 e 20)) := by
    have h := ik_middle e hb 9 (by norm_num) (by norm_num); norm_num at h; exact h
  have i10 : ksW4 (invKeySchedule e) 40 = swp (imc4 (ksW4 e 16)) := by
    have h := ik_middle e hb 10 (by norm_num) (by norm_num); norm_num at h; exact h
  have i11 : ksW4 (invKeySchedule e) 44 = swp (imc4 (ksW4 e 12)) := by
    have h := ik_middle e hb 11 (by norm_num) (by norm_num); norm_num at h; exact h
  have i12 : ksW4 (invKeySchedule e) 48 = swp (imc4 (ksW4 e 8)) := by
    have h := ik_middle e hb 12 (by norm_num) (by norm_num); norm_num at h; exact h
  have i13 : ksW4 (invKeySchedule e) 52 = swp (imc4 (ksW4 e 4)) := by
    have h := ik_middle e hb 13 (by norm_num) (by norm_num); norm_num at h; exact h
  have hGi : ksGroups (invKeySchedule e) 4 13 =
      [ksW4 (invKeySchedule e) 4, ksW4 (invKeySchedule e) 8,
       ksW4 (invKeySchedule e) 12, ksW4 (invKeySchedule e) 16,
       ksW4 (invKeySchedule e) 20, ksW4 (invKeySchedule e) 24,
       ksW4 (invKeySchedule e) 28, ksW4 (invKeySchedule e) 32,
       ksW4 (invKeySchedule e) 36, ksW4 (invKeySchedule e) 40,
       ksW4 (invKeySchedule e) 44, ksW4 (invKeySchedule e) 48,
       ksW4 (invKeySchedule e) 52] := rfl
  have hGe : (ksGroups e 4 13).reverse.map (fun k => swp (imc4 k)) =
      [swp (imc4 (ksW4 e 52)), swp (imc4 (ksW4 e 48)), swp (imc4 (ksW4 e 44)),
       swp (imc4 (ksW4 e 40)), swp (imc4 (ksW4 e 36)), swp (imc4 (ksW4 e 32)),
       swp (imc4 (ksW4 e 28)), swp (imc4 (ksW4 e 24)), swp (imc4 (ksW4 e 20)),
       swp (imc4 (ksW4 e 16)), swp (imc4 (ksW4 e 12)), swp (imc4 (ksW4 e 8)),
       swp (imc4 (ksW4 e 4))] := rfl
  have hG : ksGroups (invKeySchedule e) 4 13 =
      (ksGroups e 4 13).reverse.map (fun k => swp (imc4 k)) := by
    rw [hGi, hGe, i1, i2, i3, i4, i5, i6, i7, i8, i9, i10, i11, i12, i13]
  rw [encryptBlock_spec e hb st hst,
    decryptBlock_spec (invKeySchedule e) hbi _ hct, ik_zero, ik_final, hG,
    w4xor_swp, w4xor_cancel, foldCancel _ _ hmid h0, sr4_swp,
    ← sb4_isr4 sboxF (fun _ hu => sboxF_ltN hu), isr4_sr4 _ h0, sb4_swp,
    sb4_inv _ h0, w4xor_swp, w4xor_cancel, swp_swp]

theorem mask63 (x : Nat) : x &&& 63 = x % 64 := by
  have h : (63 : Nat) = 2 ^ 6 - 1 := by norm_num
  rw [h, Nat.and_pow_two_sub_one_eq_mod]

theorem mask255v (x : Nat) : x &&& 255 = x % 256 := by
  have h : (255 : Nat) = 2 ^ 8 - 1 := by norm_num
  rw [h, Nat.and_pow_two_sub_one_eq_mod]

set_option maxRecDepth 10000 in
theorem b64idx_getD : ∀ i : Fin 64, b64IdxU (b64Map.getD i.val 'A') = i.val := by
  decide

set_option maxRecDepth 10000 in
theorem b64getD_ne : ∀ i : Fin 64, ¬ b64Map.getD i.val 'A' = '=' := by decide

theorem b64idxN {i : Nat} (h : i < 64) : b64IdxU (b64Map.getD i 'A') = i :=
  b64idx_getD ⟨i, h⟩

theorem b64getD_neN {i : Nat} (h : i < 64) : ¬ b64Map.getD i 'A' = '=' :=
  b64getD_ne ⟨i, h⟩

theorem byteB1 {x y : Nat} (hx : x < 64) (hy : y < 64) :
    ((x <<< 2) % 2 ^ 32 ||| (y >>> 4)) &&& 255 = (x * 4 + y / 16) % 256 := by
  have h1 : x <<< 2 < 2 ^ 32 := by rw [Nat.shiftLeft_eq]; omega
  rw [Nat.mod_eq_of_lt h1, Nat.shiftRight_eq_div_pow,
    lorAdd x (y / 2 ^ 4) 2 (by omega), mask255v]
  omega

theorem byteB2 {x y : Nat} (hx : x < 64) (hy : y < 64) :
    ((x <<< 4) % 2 ^ 32 ||| (y >>> 2)) &&& 255 = (x * 16 + y / 4) % 256 := by
  have h1 : x <<< 4 < 2 ^ 32 := by rw [Nat.shiftLeft_eq]; omega
  rw [Nat.mod_eq_of_lt h1, Nat.shiftRight_eq_div_pow,
    lorAdd x (y / 2 ^ 2) 4 (by omega), mask255v]
  omega

theorem byteB3 {x y : Nat} (hx : x < 64) (hy : y < 64) :
    ((x <<< 6) % 2 ^ 32 ||| y) &&& 255 = (x * 64 + y) % 256 := by
  have h1 : x <<< 6 < 2 ^ 32 := by rw [Nat.shiftLeft_eq]; omega
  rw [Nat.mod_eq_of_lt h1, lorAdd x y 6 (by omega), mask255v]
  omega

theorem b64_roundtrip_go (n : Nat) : ∀ bs : List Nat, bs.length ≤ n →
    (∀ x ∈ bs, x < 256) →
    base64ParseGo (takeUntilEq (base64StringifyGo bs)) = bs := by
  induction n with
  | zero =>
    intro bs hlen _
    have h0 : bs = [] := List.length_eq_zero.mp (Nat.le_zero.mp hlen)
    subst h0; rfl
  | succ n ih =>
    intro bs hlen hb
    rcases bs with _ | ⟨a, _ | ⟨b, _ | ⟨c, rest⟩⟩⟩
    · rfl
    · have ha : a < 256 := hb a (by simp)
      simp only [base64StringifyGo]
      have hi0 : ((a <<< 16) >>> 18) &&& 63 < 64 := by
        rw [mask63]; exact Nat.mod_lt _ (by norm_num)
      have hi1 : ((a <<< 16) >>> 12) &&& 63 < 64 := by
        rw [mask63]; exact Nat.mod_lt _ (by norm_num)
      simp only [takeUntilEq, if_true]
      rw [if_neg (b64getD_neN hi0), if_neg (b64getD_neN hi1)]
      simp only [base64ParseGo]
      rw [b64idxN hi0, b64idxN hi1, byteB1 hi0 hi1]
      simp only [mask63, Nat.shiftRight_eq_div_pow, Nat.shiftLeft_eq,
        List.cons.injEq, and_true]
      omega
    · have ha : a < 256 := hb a (by simp)
      have hbb : b < 256 := hb b (by simp)
      simp only [base64StringifyGo]
      have hw : (a <<< 16) ||| (b <<< 8) = a * 2 ^ 16 + b * 2 ^ 8 := by
        rw [lorAdd a (b <<< 8) 16 (by rw [Nat.shiftLeft_eq]; omega),
          Nat.shiftLeft_eq]
      rw [hw]
      have hi0 : ((a * 2 ^ 16 + b * 2 ^ 8) >>> 18) &&& 63 < 64 := by
        rw [mask63]; exact Nat.mod_lt _ (by norm_num)
      have hi1 : ((a * 2 ^ 16 + b * 2 ^ 8) >>> 12) &&& 63 < 64 := by
        rw [mask63]; exact Nat.mod_lt _ (by norm_num)
      have hi2 : ((a * 2 ^ 16 + b * 2 ^ 8) >>> 6) &&& 63 < 64 := by
        rw [mask63]; exact Nat.mod_lt _ (by norm_num)
      simp only [takeUntilEq, if_true]
      rw [if_neg (b64getD_neN hi0), if_neg (b64getD_neN hi1),
        if_neg (b64getD_neN hi2)]
      simp only [base64ParseGo]
      rw [b64idxN hi0, b64idxN hi1, b64idxN hi2, byteB1 hi0 hi1, byteB2 hi1 hi2]
      simp only [mask63, Nat.shiftRight_eq_div_pow, List.cons.injEq, and_true]
      constructor
      · omega
      · omega
    · have ha : a < 256 := hb a (by simp)
      have hbb : b < 256 := hb b (by simp)
      have hc : c < 256 := hb c (by simp)
      simp only [base64StringifyGo]
      have hw : (a <<< 16) ||| (b <<< 8) ||| c = a * 2 ^ 16 + (b * 2 ^ 8 + c) := by
        rw [Nat.lor_assoc, lorAdd b c 8 (by omega),
          lorAdd a (b * 2 ^ 8 + c) 16 (by omega)]
      rw [hw]
      have hi0 : ((a * 2 ^ 16 + (b * 2 ^ 8 + c)) >>> 18) &&& 63 < 64 := by
        rw [mask63]; exact Nat.mod_lt _ (by norm_num)
      have hi1 : ((a * 2 ^ 16 + (b * 2 ^ 8 + c)) >>> 12) &&& 63 < 64 := by
        rw [mask63]; exact Nat.mod_lt _ (by norm_num)
      have hi2 : ((a * 2 ^ 16 + (b * 2 ^ 8 + c)) >>> 6) &&& 63 < 64 := by
        rw [mask63]; exact Nat.mod_lt _ (by norm_num)
      have hi3 : (a * 2 ^ 16 + (b * 2 ^ 8 + c)) &&& 63 < 64 := by
        rw [mask63]; exact Nat.mod_lt _ (by norm_num)
      simp only [takeUntilEq]
      rw [if_neg (b64getD_neN hi0), if_neg (b64getD_neN hi1),
        if_neg (b64getD_neN hi2), if_neg (b64getD_neN hi3)]
      simp only [base64ParseGo]
      have hrest : rest.length ≤ n := by
        simp only [List.length_cons] at hlen; omega
      rw [ih rest hrest (fun x hx => hb x (by simp [hx]))]
      rw [b64idxN hi0, b64idxN hi1, b64idxN hi2, b64idxN hi3,
        byteB1 hi0 hi1, byteB2 hi1 hi2, byteB3 hi2 hi3]
      simp only [mask63, Nat.shiftRight_eq_div_pow, List.cons.injEq]
      refine ⟨by omega, by omega, by omega, trivial⟩

theorem base64_roundtrip (bs : List Nat) (hb : ∀ x ∈ bs, x < 256) :
    base64Parse (base64Stringify bs) = bs :=
  b64_roundtrip_go bs.length bs le_rfl hb

theorem getD_lt {l : List Nat} {n : Nat} (hl : ∀ x ∈ l, x < n) (h0 : 0 < n)
    (i : Nat) : l.getD i 0 < n := by
  rcases lt_or_ge i l.length with h | h
  · rw [List.getD_eq_getElem l 0 h]; exact hl _ (List.getElem_mem h)
  · rw [List.getD_eq_default _ _ h]; exact h0

set_option maxRecDepth 10000 in
theorem aesSbox_length : aesSboxLit.length = 256 := rfl

theorem sbox_lt_all (u : Nat) : aesSboxLit.getD u 0 < 256 := by
  rcases lt_or_ge u 256 with h | h
  · exact sboxF_ltN h
  · rw [List.getD_eq_default _ _ (by rw [aesSbox_length]; exact h)]; norm_num

theorem aesSubWord_lt (k : Nat) : aesSubWord k < 2 ^ 32 := by
  unfold aesSubWord
  rw [orPack4 (sbox_lt_all _) (sbox_lt_all _) (sbox_lt_all _) (sbox_lt_all _)]
  exact pack4_lt (sbox_lt_all _) (sbox_lt_all _) (sbox_lt_all _) (sbox_lt_all _)

theorem keyScheduleGo_mem_lt (kw : List Nat) (hkw : ∀ x ∈ kw, x < 2 ^ 32) :
    ∀ (cnt : Nat) (e : List Nat), (∀ x ∈ e, x < 2 ^ 32) →
      ∀ x ∈ keyScheduleGo kw e cnt, x < 2 ^ 32 := by
  intro cnt
  induction cnt with
  | zero => intro e he x hx; exact he x hx
  | succ m ih =>
    intro e he x hx
    simp only [keyScheduleGo] at hx
    refine ih _ (fun y hy => ?_) x hx
    rcases List.mem_append.mp hy with h | h
    · exact he y h
    · rw [List.mem_singleton.mp h]
      by_cases h8 : e.length < 8
      · rw [if_pos h8]; exact getD_lt hkw (by norm_num) _
      · rw [if_neg h8]
        refine natXorLtTwoPow (getD_lt he (by norm_num) _) ?_
        by_cases h0 : e.length % 8 = 0
        · rw [if_pos h0]
          exact natXorLtTwoPow (aesSubWord_lt _) (Nat.mod_lt _ (by norm_num))
        · rw [if_neg h0]
          by_cases h4 : e.length % 8 = 4
          · rw [if_pos h4]; exact aesSubWord_lt _
          · rw [if_neg h4]; exact getD_lt he (by norm_num) _

theorem keySchedule_lt (kw : List Nat) (hkw : ∀ x ∈ kw, x < 2 ^ 32) (i : Nat) :
    (keySchedule kw).getD i 0 < 2 ^ 32 :=
  getD_lt (keyScheduleGo_mem_lt kw hkw 60 [] (by simp)) (by norm_num) i

theorem bytesToWordsBE_lt (n : Nat) : ∀ bs : List Nat, bs.length ≤ n →
    (∀ x ∈ bs, x < 256) → ∀ w ∈ bytesToWordsBE bs, w < 2 ^ 32 := by
  induction n with
  | zero =>
    intro bs hlen _
    have h0 : bs = [] := List.length_eq_zero.mp (Nat.le_zero.mp hlen)
    subst h0; intro w hw; simp [bytesToWordsBE] at hw
  | succ n ih =>
    intro bs hlen hb w hw
    rcases bs with _ | ⟨a, _ | ⟨b, _ | ⟨c, _ | ⟨d, rest⟩⟩⟩⟩
    · simp [bytesToWordsBE] at hw
    · have ha := hb a (by simp)
      simp only [bytesToWordsBE, List.mem_singleton] at hw
      rw [hw, Nat.shiftLeft_eq]; omega
    · have ha := hb a (by simp)
      have hb2 := hb b (by simp)
      simp only [bytesToWordsBE, List.mem_singleton] at hw
      rw [hw]
      exact Nat.or_lt_two_pow (by rw [Nat.shiftLeft_eq]; omega)
        (by rw [Nat.shiftLeft_eq]; omega)
    · have ha := hb a (by simp)
      have hb2 := hb b (by simp)
      have hc := hb c (by simp)
      simp only [bytesToWordsBE, List.mem_singleton] at hw
      rw [hw]
      exact Nat.or_lt_two_pow (Nat.or_lt_two_pow (by rw [Nat.shiftLeft_eq]; omega)
        (by rw [Nat.shiftLeft_eq]; omega)) (by rw [Nat.shiftLeft_eq]; omega)
    · have ha := hb a (by simp)
      have hb2 := hb b (by simp)
      have hc := hb c (by simp)
      have hd := hb d (by simp)
      simp only [bytesToWordsBE, List.mem_cons] at hw
      rcases hw with h | h
      · rw [h]
        exact Nat.or_lt_two_pow (Nat.or_lt_two_pow (Nat.or_lt_two_pow
          (by rw [Nat.shiftLeft_eq]; omega) (by rw [Nat.shiftLeft_eq]; omega))
          (by rw [Nat.shiftLeft_eq]; omega)) (by omega)
      · refine ih rest (by simp only [List.length_cons] at hlen; omega)
          (fun x hx => hb x (by simp [hx])) w h

theorem pkcs7_roundtrip (bs : List Nat) : pkcs7Unpad (pkcs7Pad bs) = bs := by
  have hmod : bs.length % 16 < 16 := Nat.mod_lt _ (by norm_num)
  simp only [pkcs7Pad, pkcs7Unpad]
  rw [List.getLast?_append, List.getLast?_replicate, if_neg (by omega)]
  simp only [Option.or_some, Option.getD_some, mask255v]
  rw [Nat.mod_eq_of_lt (by omega : 16 - bs.length % 16 < 256)]
  simp only [List.length_append, List.length_replicate]
  rw [show bs.length + (16 - bs.length % 16) - (16 - bs.length % 16) = bs.length
    from by omega]
  exact List.take_left bs _

theorem w4lt_encryptBlock (ks : List Nat) (hb : ∀ i, ks.getD i 0 < 2 ^ 32)
    {st : W4} (hst : w4lt st) : w4lt (encryptBlock ks st) := by
  rw [encryptBlock_spec ks hb st hst]
  exact w4lt_xor (w4lt_sb4 sboxF (fun _ hu => sboxF_ltN hu) (w4lt_sr4
    (w4lt_encFold _ _ (ksGroups_lt ks hb 13 4)
      (w4lt_xor hst ⟨hb 0, hb 1, hb 2, hb 3⟩)))) ⟨hb 56, hb 57, hb 58, hb 59⟩

theorem cbc_roundtrip (e : List Nat) (hb : ∀ i, e.getD i 0 < 2 ^ 32) :
    ∀ (blocks : List W4) (prev : W4), (∀ x ∈ blocks, w4lt x) → w4lt prev →
      cbcDecryptGo (invKeySchedule e) prev (cbcEncryptGo e prev blocks) =
        blocks := by
  intro blocks
  induction blocks with
  | nil => intro prev _ _; rfl
  | cons blk rest ih =>
    intro prev hbl hprev
    have hblk : w4lt blk := hbl blk (by simp)
    simp only [cbcEncryptGo, cbcDecryptGo]
    rw [aesBlockInv e hb _ (w4lt_xor hblk hprev), w4xor_cancel,
      ih _ (fun x hx => hbl x (by simp [hx]))
        (w4lt_encryptBlock e hb (w4lt_xor hblk hprev))]

theorem wordsToW4_lt (n : Nat) : ∀ ws : List Nat, ws.length ≤ n →
    (∀ w ∈ ws, w < 2 ^ 32) → ∀ x ∈ wordsToW4 ws, w4lt x := by
  induction n with
  | zero =>
    intro ws hlen _
    have h0 : ws = [] := List.length_eq_zero.mp (Nat.le_zero.mp hlen)
    subst h0; intro x hx; simp [wordsToW4] at hx
  | succ n ih =>
    intro ws hlen hw x hx
    rcases ws with _ | ⟨a, _ | ⟨b, _ | ⟨c, _ | ⟨d, rest⟩⟩⟩⟩
    · simp [wordsToW4] at hx
    · simp [wordsToW4] at hx
    · simp [wordsToW4] at hx
    · simp [wordsToW4] at hx
    · simp only [wordsToW4, List.mem_cons] at hx
      rcases hx with h | h
      · rw [h]
        exact ⟨hw a (by simp), hw b (by simp), hw c (by simp), hw d (by simp)⟩
      · refine ih rest (by simp only [List.length_cons] at hlen; omega)
          (fun y hy => hw y (by simp [hy])) x h

theorem wordsToBytesBE_length (ws : List Nat) :
    (wordsToBytesBE ws).length = 4 * ws.length := by
  induction ws with
  | nil => rfl
  | cons a t ih =>
    simp only [wordsToBytesBE, List.map_cons, List.flatten_cons,
      List.length_append] at ih ⊢
    simp only [List.length_cons, List.length_nil, List.length_cons]
    omega

theorem w4ToWords_length (bl : List W4) : (w4ToWords bl).length = 4 * bl.length := by
  induction bl with
  | nil => rfl
  | cons u t ih => simp only [w4ToWords, List.length_cons, ih]; omega

theorem cbcEncryptGo_length (ks : List Nat) : ∀ (bl : List W4) (prev : W4),
    (cbcEncryptGo ks prev bl).length = bl.length := by
  intro bl
  induction bl with
  | nil => intro prev; rfl
  | cons b t ih => intro prev; simp only [cbcEncryptGo, List.length_cons, ih]

theorem cbcDecryptGo_length (iks : List Nat) : ∀ (bl : List W4) (prev : W4),
    (cbcDecryptGo iks prev bl).length = bl.length := by
  intro bl
  induction bl with
  | nil => intro prev; rfl
  | cons b t ih => intro prev; simp only [cbcDecryptGo, List.length_cons, ih]

theorem bytesToWordsBE_length (n : Nat) : ∀ bs : List Nat, bs.length ≤ n →
    (bytesToWordsBE bs).length = (bs.length + 3) / 4 := by
  induction n with
  | zero =>
    intro bs hlen
    have h0 : bs = [] := List.length_eq_zero.mp (Nat.le_zero.mp hlen)
    subst h0; rfl
  | succ n ih =>
    intro bs hlen
    rcases bs with _ | ⟨a, _ | ⟨b, _ | ⟨c, _ | ⟨d, rest⟩⟩⟩⟩
    · simp [bytesToWordsBE]
    · simp [bytesToWordsBE]
    · simp [bytesToWordsBE]
    · simp [bytesToWordsBE]
    · simp only [bytesToWordsBE, List.length_cons]
      rw [ih rest (by simp only [List.length_cons] at hlen; omega)]
      omega

theorem wordsToW4_length (n : Nat) : ∀ ws : List Nat, ws.length ≤ n →
    (wordsToW4 ws).length = ws.length / 4 := by
  induction n with
  | zero =>
    intro ws hlen
    have h0 : ws = [] := List.length_eq_zero.mp (Nat.le_zero.mp hlen)
    subst h0; rfl
  | succ n ih =>
    intro ws hlen
    rcases ws with _ | ⟨a, _ | ⟨b, _ | ⟨c, _ | ⟨d, rest⟩⟩⟩⟩
    · simp [wordsToW4]
    · simp [wordsToW4]
    · simp [wordsToW4]
    · simp [wordsToW4]
    · simp only [wordsToW4, List.length_cons]
      rw [ih rest (by simp only [List.length_cons] at hlen; omega)]
      omega

theorem pkcs7Pad_mod (bs : List Nat) : (pkcs7Pad bs).length % 16 = 0 := by
  have hmod : bs.length % 16 < 16 := Nat.mod_lt _ (by norm_num)
  simp only [pkcs7Pad, List.length_append, List.length_replicate]
  omega

theorem zeroPad16_aligned (bs : List Nat) (h : bs.length % 16 = 0) :
    zeroPad16 bs = bs := by
  simp [zeroPad16, h]

theorem words_bytes_roundtrip : ∀ blocks : List W4, (∀ x ∈ blocks, w4lt x) →
    wordsToW4 (bytesToWordsBE (wordsToBytesBE (w4ToWords blocks))) = blocks := by
  intro blocks
  induction blocks with
  | nil => intro _; rfl
  | cons u rest ih =>
    intro hbl
    obtain ⟨ha, hb2, hc, hd⟩ := hbl u (by simp)
    have ih' := ih (fun x hx => hbl x (by simp [hx]))
    simp only [wordsToBytesBE] at ih' ⊢
    simp only [w4ToWords, List.map_cons, List.flatten_cons, List.cons_append,
      List.nil_append]
    simp only [bytesToWordsBE, wordsToW4]
    rw [shrIsWb0 u.a, shrIsWb1 u.a, shrIsWb2 u.a, andIsWb3 u.a,
      shrIsWb0 u.b, shrIsWb1 u.b, shrIsWb2 u.b, andIsWb3 u.b,
      shrIsWb0 u.c, shrIsWb1 u.c, shrIsWb2 u.c, andIsWb3 u.c,
      shrIsWb0 u.d, shrIsWb1 u.d, shrIsWb2 u.d, andIsWb3 u.d,
      orPack4 (wb0_lt ha) (wb1_lt _) (wb2_lt _) (wb3_lt _),
      orPack4 (wb0_lt hb2) (wb1_lt _) (wb2_lt _) (wb3_lt _),
      orPack4 (wb0_lt hc) (wb1_lt _) (wb2_lt _) (wb3_lt _),
      orPack4 (wb0_lt hd) (wb1_lt _) (wb2_lt _) (wb3_lt _),
      pack4_wb ha, pack4_wb hb2, pack4_wb hc, pack4_wb hd, ih']

theorem wordsToBytesBE_lt (ws : List Nat) (hw : ∀ w ∈ ws, w < 2 ^ 32) :
    ∀ b ∈ wordsToBytesBE ws, b < 256 := by
  intro b hb
  simp only [wordsToBytesBE, List.mem_flatten] at hb
  obtain ⟨l, hl, hbl⟩ := hb
  simp only [List.mem_map] at hl
  obtain ⟨w, hwmem, rfl⟩ := hl
  have hwb := hw w hwmem
  simp only [List.mem_cons, List.not_mem_nil, or_false] at hbl
  rcases hbl with h | h | h | h
  · rw [h, shrIsWb0]; exact wb0_lt hwb
  · rw [h, shrIsWb1]; exact wb1_lt w
  · rw [h, shrIsWb2]; exact wb2_lt w
  · rw [h, andIsWb3]; exact wb3_lt w

theorem char_toNat_valid (c : Char) :
    c.toNat < 55296 ∨ (57343 < c.toNat ∧ c.toNat < 1114112) := by
  rcases c.valid with h | ⟨h1, h2⟩
  · exact Or.inl (UInt32.toNat_lt_of_lt (by norm_num) h)
  · exact Or.inr ⟨UInt32.lt_toNat_of_lt (by norm_num) h1,
      UInt32.toNat_lt_of_lt (by norm_num) h2⟩

theorem utf8EncodeChar_lt (c : Char) : ∀ b ∈ utf8EncodeChar c, b < 256 := by
  have hv : c.toNat < 1114112 := by
    rcases char_toNat_valid c with h | ⟨_, h⟩ <;> omega
  intro b hb
  simp only [utf8EncodeChar] at hb
  split_ifs at hb with h1 h2 h3 <;>
    simp only [List.mem_cons, List.not_mem_nil, or_false] at hb
  · rcases hb with h; omega
  · rcases hb with h | h <;> omega
  · rcases hb with h | h | h <;> omega
  · rcases hb with h | h | h | h <;> omega

theorem utf8Bytes_lt (s : String) : ∀ b ∈ utf8Bytes s, b < 256 := by
  intro b hb
  simp only [utf8Bytes, List.mem_flatten] at hb
  obtain ⟨l, hl, hbl⟩ := hb
  simp only [List.mem_map] at hl
  obtain ⟨c, _, rfl⟩ := hl
  exact utf8EncodeChar_lt c b hbl

theorem wordLE4_lt (w : Nat) : ∀ b ∈ wordLE4 w, b < 256 := by
  intro b hb
  simp only [wordLE4, List.mem_cons, List.not_mem_nil, or_false] at hb
  rcases hb with h | h | h | h <;>
    (rw [h, mask255v]; exact Nat.mod_lt _ (by norm_num))

theorem md5Bytes_lt (msg : List Nat) : ∀ b ∈ md5Bytes msg, b < 256 := by
  intro b hb
  simp only [md5Bytes, List.mem_append] at hb
  rcases hb with ((h | h) | h) | h <;> exact wordLE4_lt _ _ h

theorem evpkdf48_lt (pw salt : List Nat) : ∀ b ∈ evpkdf48 pw salt, b < 256 := by
  intro b hb
  simp only [evpkdf48, List.mem_append] at hb
  rcases hb with (h | h) | h <;> exact md5Bytes_lt _ _ h

theorem udecode_nil (acc : List Char) :
    utf8DecodeGo 0 0 0 [] acc = some acc.reverse := rfl

theorem udecode_cons0 (b : Nat) (rest : List Nat) (acc : List Char) :
    utf8DecodeGo 0 0 0 (b :: rest) acc =
      (if b < 128 then utf8DecodeGo 0 0 0 rest (Char.ofNat b :: acc)
       else if b < 192 then none
       else if b < 224 then utf8DecodeGo 1 (b - 192) 128 rest acc
       else if b < 240 then utf8DecodeGo 2 (b - 224) 2048 rest acc
       else if b < 248 then utf8DecodeGo 3 (b - 240) 65536 rest acc
       else none) := rfl

theorem udecode_cons1 (code minC b : Nat) (rest : List Nat) (acc : List Char) :
    utf8DecodeGo 1 code minC (b :: rest) acc =
      (if isUtf8Cont b then
        if minC ≤ code * 64 + (b - 128) && code * 64 + (b - 128) < 1114112 &&
            (code * 64 + (b - 128) < 55296 ||
              decide (57344 ≤ code * 64 + (b - 128))) then
          utf8DecodeGo 0 0 0 rest (Char.ofNat (code * 64 + (b - 128)) :: acc)
        else none
      else none) := rfl

theorem udecode_cons2 (code minC b : Nat) (rest : List Nat) (acc : List Char) :
    utf8DecodeGo 2 code minC (b :: rest) acc =
      (if isUtf8Cont b then utf8DecodeGo 1 (code * 64 + (b - 128)) minC rest acc
       else none) := rfl

theorem udecode_cons3 (code minC b : Nat) (rest : List Nat) (acc : List Char) :
    utf8DecodeGo 3 code minC (b :: rest) acc =
      (if isUtf8Cont b then utf8DecodeGo 2 (code * 64 + (b - 128)) minC rest acc
       else none) := rfl

theorem utf8DecodeGo_encChar (c : Char) (tail : List Nat) (acc : List Char) :
    utf8DecodeGo 0 0 0 (utf8EncodeChar c ++ tail) acc =
      utf8DecodeGo 0 0 0 tail (c :: acc) := by
  have hv := char_toNat_valid c
  by_cases h1 : c.toNat < 128
  · simp only [utf8EncodeChar]
    rw [if_pos h1]
    simp only [List.cons_append, List.nil_append]
    rw [udecode_cons0, if_pos h1, Char.ofNat_toNat]
  · by_cases h2 : c.toNat < 2048
    · simp only [utf8EncodeChar]
      rw [if_neg h1, if_pos h2]
      simp only [List.cons_append, List.nil_append]
      rw [udecode_cons0,
        if_neg (by omega : ¬ (192 + c.toNat / 64 < 128)),
        if_neg (by omega : ¬ (192 + c.toNat / 64 < 192)),
        if_pos (by omega : 192 + c.toNat / 64 < 224),
        show 192 + c.toNat / 64 - 192 = c.toNat / 64 from by omega,
        udecode_cons1,
        if_pos (by simp only [isUtf8Cont, Bool.and_eq_true, decide_eq_true_eq]
                   omega),
        show c.toNat / 64 * 64 + (128 + c.toNat % 64 - 128) = c.toNat from by omega,
        if_pos (by simp only [Bool.and_eq_true, Bool.or_eq_true, decide_eq_true_eq]
                   omega),
        Char.ofNat_toNat]
    · by_cases h3 : c.toNat < 65536
      · simp only [utf8EncodeChar]
        rw [if_neg h1, if_neg h2, if_pos h3]
        simp only [List.cons_append, List.nil_append]
        rw [udecode_cons0,
          if_neg (by omega : ¬ (224 + c.toNat / 4096 < 128)),
          if_neg (by omega : ¬ (224 + c.toNat / 4096 < 192)),
          if_neg (by omega : ¬ (224 + c.toNat / 4096 < 224)),
          if_pos (by omega : 224 + c.toNat / 4096 < 240),
          show 224 + c.toNat / 4096 - 224 = c.toNat / 4096 from by omega,
          udecode_cons2,
          if_pos (by simp only [isUtf8Cont, Bool.and_eq_true, decide_eq_true_eq]
                     omega),
          show c.toNat / 4096 * 64 + (128 + c.toNat / 64 % 64 - 128) =
            c.toNat / 4096 * 64 + c.toNat / 64 % 64 from by omega,
          udecode_cons1,
          if_pos (by simp only [isUtf8Cont, Bool.and_eq_true, decide_eq_true_eq]
                     omega),
          show (c.toNat / 4096 * 64 + c.toNat / 64 % 64) * 64 +
            (128 + c.toNat % 64 - 128) = c.toNat from by omega,
          if_pos (by simp only [Bool.and_eq_true, Bool.or_eq_true,
                     decide_eq_true_eq]
                     omega),
          Char.ofNat_toNat]
      · have h4 : c.toNat < 1114112 := by rcases hv with h | ⟨_, h⟩ <;> omega
        simp only [utf8EncodeChar]
        rw [if_neg h1, if_neg h2, if_neg h3]
        simp only [List.cons_append, List.nil_append]
        rw [udecode_cons0,
          if_neg (by omega : ¬ (240 + c.toNat / 262144 < 128)),
          if_neg (by omega : ¬ (240 + c.toNat / 262144 < 192)),
          if_neg (by omega : ¬ (240 + c.toNat / 262144 < 224)),
          if_neg (by omega : ¬ (240 + c.toNat / 262144 < 240)),
          if_pos (by omega : 240 + c.toNat / 262144 < 248),
          show 240 + c.toNat / 262144 - 240 = c.toNat / 262144 from by omega,
          udecode_cons3,
          if_pos (by simp only [isUtf8Cont, Bool.and_eq_true, decide_eq_true_eq]
                     omega),
          show c.toNat / 262144 * 64 + (128 + c.toNat / 4096 % 64 - 128) =
            c.toNat / 262144 * 64 + c.toNat / 4096 % 64 from by omega,
          udecode_cons2,
          if_pos (by simp only [isUtf8Cont, Bool.and_eq_true, decide_eq_true_eq]
                     omega),
          show (c.toNat / 262144 * 64 + c.toNat / 4096 % 64) * 64 +
            (128 + c.toNat / 64 % 64 - 128) =
            (c.toNat / 262144 * 64 + c.toNat / 4096 % 64) * 64 +
              c.toNat / 64 % 64 from by omega,
          udecode_cons1,
          if_pos (by simp only [isUtf8Cont, Bool.and_eq_true, decide_eq_true_eq]
                     omega),
          show ((c.toNat / 262144 * 64 + c.toNat / 4096 % 64) * 64 +
              c.toNat / 64 % 64) * 64 + (128 + c.toNat % 64 - 128) = c.toNat
            from by omega,
          if_pos (by simp only [Bool.and_eq_true, Bool.or_eq_true,
                     decide_eq_true_eq]
                     omega),
          Char.ofNat_toNat]

theorem utf8_roundtrip (s : String) : utf8DecodeBytes (utf8Bytes s) = some s := by
  have h : ∀ (cs : List Char) (acc : List Char),
      utf8DecodeGo 0 0 0 ((cs.map utf8EncodeChar).flatten) acc =
        some (acc.reverse ++ cs) := by
    intro cs
    induction cs with
    | nil => intro acc; simp [udecode_nil]
    | cons c rest ih =>
      intro acc
      simp only [List.map_cons, List.flatten_cons]
      rw [utf8DecodeGo_encChar, ih (c :: acc)]
      simp
  simp only [utf8DecodeBytes, utf8Bytes]
  rw [h s.data []]
  rfl

theorem saltedMagic_lt : ∀ b ∈ saltedMagic, b < 256 := by decide

theorem pkcs7Pad_lt (bs : List Nat) (hb : ∀ x ∈ bs, x < 256) :
    ∀ x ∈ pkcs7Pad bs, x < 256 := by
  intro x hx
  have hmod : bs.length % 16 < 16 := Nat.mod_lt _ (by norm_num)
  simp only [pkcs7Pad, List.mem_append] at hx
  rcases hx with h | h
  · exact hb x h
  · have := List.eq_of_mem_replicate h
    omega

theorem w4ToWords_lt : ∀ bl : List W4, (∀ x ∈ bl, w4lt x) →
    ∀ w ∈ w4ToWords bl, w < 2 ^ 32 := by
  intro bl
  induction bl with
  | nil => intro _ w hw; simp [w4ToWords] at hw
  | cons u rest ih =>
    intro hbl w hw
    obtain ⟨ha, hb, hc, hd⟩ := hbl u (by simp)
    simp only [w4ToWords, List.mem_cons] at hw
    rcases hw with h | h | h | h | h
    · rw [h]; exact ha
    · rw [h]; exact hb
    · rw [h]; exact hc
    · rw [h]; exact hd
    · exact ih (fun x hx => hbl x (by simp [hx])) w h

theorem cbcEncryptGo_lt (ks : List Nat) (hks : ∀ i, ks.getD i 0 < 2 ^ 32) :
    ∀ (bl : List W4) (prev : W4), (∀ x ∈ bl, w4lt x) → w4lt prev →
      ∀ x ∈ cbcEncryptGo ks prev bl, w4lt x := by
  intro bl
  induction bl with
  | nil => intro prev _ _ x hx; simp [cbcEncryptGo] at hx
  | cons b rest ih =>
    intro prev hbl hprev x hx
    have hc : w4lt (encryptBlock ks (w4xor b prev)) :=
      w4lt_encryptBlock ks hks (w4lt_xor (hbl b (by simp)) hprev)
    simp only [cbcEncryptGo, List.mem_cons] at hx
    rcases hx with h | h
    · rw [h]; exact hc
    · exact ih _ (fun y hy => hbl y (by simp [hy])) hc x h

theorem w4ToWords_wordsToW4 (n : Nat) : ∀ ws : List Nat, ws.length ≤ n →
    ws.length % 4 = 0 → w4ToWords (wordsToW4 ws) = ws := by
  induction n with
  | zero =>
    intro ws hlen _
    have h0 : ws = [] := List.length_eq_zero.mp (Nat.le_zero.mp hlen)
    subst h0; rfl
  | succ n ih =>
    intro ws hlen hmod
    rcases ws with _ | ⟨a, _ | ⟨b, _ | ⟨c, _ | ⟨d, rest⟩⟩⟩⟩
    · rfl
    · simp at hmod
    · simp at hmod
    · simp at hmod
    · simp only [wordsToW4, w4ToWords]
      rw [ih rest (by simp only [List.length_cons] at hlen; omega)
        (by simp only [List.length_cons] at hmod ⊢; omega)]

theorem bytes_words_roundtrip (n : Nat) : ∀ bs : List Nat, bs.length ≤ n →
    bs.length % 4 = 0 → (∀ x ∈ bs, x < 256) →
    wordsToBytesBE (bytesToWordsBE bs) = bs := by
  induction n with
  | zero =>
    intro bs hlen _ _
    have h0 : bs = [] := List.length_eq_zero.mp (Nat.le_zero.mp hlen)
    subst h0; rfl
  | succ n ih =>
    intro bs hlen hmod hb
    rcases bs with _ | ⟨a, _ | ⟨b, _ | ⟨c, _ | ⟨d, rest⟩⟩⟩⟩
    · rfl
    · simp at hmod
    · simp at hmod
    · simp at hmod
    · have ha := hb a (by simp)
      have hbb := hb b (by simp)
      have hc := hb c (by simp)
      have hd := hb d (by simp)
      have ih' := ih rest (by simp only [List.length_cons] at hlen; omega)
        (by simp only [List.length_cons] at hmod ⊢; omega)
        (fun x hx => hb x (by simp [hx]))
      simp only [wordsToBytesBE] at ih' ⊢
      simp only [bytesToWordsBE, List.map_cons, List.flatten_cons]
      rw [orPack4 ha hbb hc hd, shrIsWb0, shrIsWb1, shrIsWb2, andIsWb3,
        wb0_pack4 hbb hc hd, wb1_pack4 hbb hc hd, wb2_pack4 hbb hc hd,
        wb3_pack4 hd, ih']
      simp

theorem aes_roundtrip_full (P K : String) (salt : List Nat)
    (hlen : salt.length = 8) (hsalt : ∀ b ∈ salt, b < 256) (rndSalt : List Nat) :
    aesDecode rndSalt (aesEncode P K salt) K = Except.ok P ∧
      ((base64Parse (aesEncode P K salt)).drop 8).take 8 = salt := by
  have hmagic8 : saltedMagic.length = 8 := rfl
  have hkdfb : ∀ x ∈ evpkdf48 (utf8Bytes K) salt, x < 256 := evpkdf48_lt _ _
  have hkeyWb : ∀ w ∈ bytesToWordsBE ((evpkdf48 (utf8Bytes K) salt).take 32), w < 2 ^ 32 :=
    bytesToWordsBE_lt _ _ le_rfl (fun x hx => hkdfb x (List.take_subset _ _ hx))
  have hks : ∀ i, (keySchedule (bytesToWordsBE ((evpkdf48 (utf8Bytes K) salt).take 32))).getD i 0 < 2 ^ 32 := keySchedule_lt _ hkeyWb
  have hivw : ∀ w ∈ bytesToWordsBE (((evpkdf48 (utf8Bytes K) salt).drop 32).take 16), w < 2 ^ 32 :=
    bytesToWordsBE_lt _ _ le_rfl
      (fun x hx => hkdfb x (List.drop_subset _ _ (List.take_subset _ _ hx)))
  have hiv : w4lt (⟨(bytesToWordsBE (((evpkdf48 (utf8Bytes K) salt).drop 32).take 16)).getD 0 0, (bytesToWordsBE (((evpkdf48 (utf8Bytes K) salt).drop 32).take 16)).getD 1 0, (bytesToWordsBE (((evpkdf48 (utf8Bytes K) salt).drop 32).take 16)).getD 2 0, (bytesToWordsBE (((evpkdf48 (utf8Bytes K) salt).drop 32).take 16)).getD 3 0⟩ : W4) :=
    ⟨getD_lt hivw (by norm_num) 0, getD_lt hivw (by norm_num) 1,
     getD_lt hivw (by norm_num) 2, getD_lt hivw (by norm_num) 3⟩
  have hdata : ∀ x ∈ pkcs7Pad (utf8Bytes P), x < 256 := pkcs7Pad_lt _ (utf8Bytes_lt P)
  have hdmod : (pkcs7Pad (utf8Bytes P)).length % 16 = 0 := pkcs7Pad_mod _
  have hdw : ∀ w ∈ bytesToWordsBE (pkcs7Pad (utf8Bytes P)), w < 2 ^ 32 :=
    bytesToWordsBE_lt _ _ le_rfl hdata
  have hblocks : ∀ x ∈ wordsToW4 (bytesToWordsBE (pkcs7Pad (utf8Bytes P))), w4lt x := wordsToW4_lt _ _ le_rfl hdw
  have hctB : ∀ x ∈ cbcEncryptGo (keySchedule (bytesToWordsBE ((evpkdf48 (utf8Bytes K) salt).take 32))) ⟨(bytesToWordsBE (((evpkdf48 (utf8Bytes K) salt).drop 32).take 16)).getD 0 0, (bytesToWordsBE (((evpkdf48 (utf8Bytes K) salt).drop 32).take 16)).getD 1 0, (bytesToWordsBE (((evpkdf48 (utf8Bytes K) salt).drop 32).take 16)).getD 2 0, (bytesToWordsBE (((evpkdf48 (utf8Bytes K) salt).drop 32).take 16)).getD 3 0⟩ (wordsToW4 (bytesToWordsBE (pkcs7Pad (utf8Bytes P)))), w4lt x :=
    cbcEncryptGo_lt _ hks _ _ hblocks hiv
  have hctw : ∀ w ∈ w4ToWords (cbcEncryptGo (keySchedule (bytesToWordsBE ((evpkdf48 (utf8Bytes K) salt).take 32))) ⟨(bytesToWordsBE (((evpkdf48 (utf8Bytes K) salt).drop 32).take 16)).getD 0 0, (bytesToWordsBE (((evpkdf48 (utf8Bytes K) salt).drop 32).take 16)).getD 1 0, (bytesToWordsBE (((evpkdf48 (utf8Bytes K) salt).drop 32).take 16)).getD 2 0, (bytesToWordsBE (((evpkdf48 (utf8Bytes K) salt).drop 32).take 16)).getD 3 0⟩ (wordsToW4 (bytesToWordsBE (pkcs7Pad (utf8Bytes P))))), w < 2 ^ 32 := w4ToWords_lt _ hctB
  have hctbytes : ∀ b ∈ wordsToBytesBE (w4ToWords (cbcEncryptGo (keySchedule (bytesToWordsBE ((evpkdf48 (utf8Bytes K) salt).take 32))) ⟨(bytesToWordsBE (((evpkdf48 (utf8Bytes K) salt).drop 32).take 16)).getD 0 0, (bytesToWordsBE (((evpkdf48 (utf8Bytes K) salt).drop 32).take 16)).getD 1 0, (bytesToWordsBE (((evpkdf48 (utf8Bytes K) salt).drop 32).take 16)).getD 2 0, (bytesToWordsBE (((evpkdf48 (utf8Bytes K) salt).drop 32).take 16)).getD 3 0⟩ (wordsToW4 (bytesToWordsBE (pkcs7Pad (utf8Bytes P)))))), b < 256 := wordsToBytesBE_lt _ hctw
  have hall : ∀ b ∈ saltedMagic ++ (salt ++ wordsToBytesBE (w4ToWords (cbcEncryptGo (keySchedule (bytesToWordsBE ((evpkdf48 (utf8Bytes K) salt).take 32))) ⟨(bytesToWordsBE (((evpkdf48 (utf8Bytes K) salt).drop 32).take 16)).getD 0 0, (bytesToWordsBE (((evpkdf48 (utf8Bytes K) salt).drop 32).take 16)).getD 1 0, (bytesToWordsBE (((evpkdf48 (utf8Bytes K) salt).drop 32).take 16)).getD 2 0, (bytesToWordsBE (((evpkdf48 (utf8Bytes K) salt).drop 32).take 16)).getD 3 0⟩ (wordsToW4 (bytesToWordsBE (pkcs7Pad (utf8Bytes P))))))), b < 256 := by
    intro b hb
    rcases List.mem_append.mp hb with h | h
    · exact saltedMagic_lt b h
    · rcases List.mem_append.mp h with h2 | h2
      · exact hsalt b h2
      · exact hctbytes b h2
  have hdwlen : (bytesToWordsBE (pkcs7Pad (utf8Bytes P))).length = (pkcs7Pad (utf8Bytes P)).length / 4 := by
    rw [bytesToWordsBE_length (pkcs7Pad (utf8Bytes P)).length _ le_rfl]; omega
  have hctlen : (wordsToBytesBE (w4ToWords (cbcEncryptGo (keySchedule (bytesToWordsBE ((evpkdf48 (utf8Bytes K) salt).take 32))) ⟨(bytesToWordsBE (((evpkdf48 (utf8Bytes K) salt).drop 32).take 16)).getD 0 0, (bytesToWordsBE (((evpkdf48 (utf8Bytes K) salt).drop 32).take 16)).getD 1 0, (bytesToWordsBE (((evpkdf48 (utf8Bytes K) salt).drop 32).take 16)).getD 2 0, (bytesToWordsBE (((evpkdf48 (utf8Bytes K) salt).drop 32).take 16)).getD 3 0⟩ (wordsToW4 (bytesToWordsBE (pkcs7Pad (utf8Bytes P))))))).length = (pkcs7Pad (utf8Bytes P)).length := by
    rw [wordsToBytesBE_length, w4ToWords_length, cbcEncryptGo_length,
      wordsToW4_length (bytesToWordsBE (pkcs7Pad (utf8Bytes P))).length _ le_rfl, hdwlen]
    omega
  have hctmod : (wordsToBytesBE (w4ToWords (cbcEncryptGo (keySchedule (bytesToWordsBE ((evpkdf48 (utf8Bytes K) salt).take 32))) ⟨(bytesToWordsBE (((evpkdf48 (utf8Bytes K) salt).drop 32).take 16)).getD 0 0, (bytesToWordsBE (((evpkdf48 (utf8Bytes K) salt).drop 32).take 16)).getD 1 0, (bytesToWordsBE (((evpkdf48 (utf8Bytes K) salt).drop 32).take 16)).getD 2 0, (bytesToWordsBE (((evpkdf48 (utf8Bytes K) salt).drop 32).take 16)).getD 3 0⟩ (wordsToW4 (bytesToWordsBE (pkcs7Pad (utf8Bytes P))))))).length % 16 = 0 := by rw [hctlen]; exact hdmod
  have hparse : base64Parse (aesEncode P K salt) =
      saltedMagic ++ (salt ++ wordsToBytesBE (w4ToWords (cbcEncryptGo (keySchedule (bytesToWordsBE ((evpkdf48 (utf8Bytes K) salt).take 32))) ⟨(bytesToWordsBE (((evpkdf48 (utf8Bytes K) salt).drop 32).take 16)).getD 0 0, (bytesToWordsBE (((evpkdf48 (utf8Bytes K) salt).drop 32).take 16)).getD 1 0, (bytesToWordsBE (((evpkdf48 (utf8Bytes K) salt).drop 32).take 16)).getD 2 0, (bytesToWordsBE (((evpkdf48 (utf8Bytes K) salt).drop 32).take 16)).getD 3 0⟩ (wordsToW4 (bytesToWordsBE (pkcs7Pad (utf8Bytes P))))))) :=
    base64_roundtrip _ hall
  constructor
  · show aesDecode rndSalt (aesEncode P K salt) K = Except.ok P
    simp only [aesDecode]
    rw [hparse, List.take_left' hmagic8,
      if_pos (rfl : saltedMagic = saltedMagic),
      if_pos (rfl : saltedMagic = saltedMagic),
      List.drop_left' hmagic8, List.take_left' hlen,
      ← List.append_assoc,
      List.drop_left' (by simp [List.length_append, hmagic8, hlen] : (saltedMagic ++ salt).length = 16),
      zeroPad16_aligned _ hctmod,
      words_bytes_roundtrip _ hctB,
      cbc_roundtrip _ hks _ _ hblocks hiv,
      w4ToWords_wordsToW4 (bytesToWordsBE (pkcs7Pad (utf8Bytes P))).length _ le_rfl
        (by rw [hdwlen]; omega),
      bytes_words_roundtrip (pkcs7Pad (utf8Bytes P)).length _ le_rfl (by omega) hdata,
      hctlen, List.take_length, pkcs7_roundtrip, utf8_roundtrip]
  · rw [hparse, List.drop_left' hmagic8, List.take_left' hlen]

/-- C1: the codec round trip.  For every plaintext `P`, passphrase `K` and
8-byte salt, decoding the transport string produced by `aesEncode` with the
same passphrase yields exactly `P` (whatever salt the decoder would fall
back to if the transport carried no `Salted__` header, showing decode needs
no input beyond the transport string and the passphrase), and the salt used
by the encryption is embedded in the transport string at bytes 8-15 of the
Base64-decoded stream. -/
theorem c1_codec_roundtrip (P K : String) (salt : List Nat)
    (hlen : salt.length = 8) (hsalt : ∀ b ∈ salt, b < 256) (rndSalt : List Nat) :
    aesDecode rndSalt (aesEncode P K salt) K = Except.ok P ∧
      ((base64Parse (aesEncode P K salt)).drop 8).take 8 = salt :=
  aes_roundtrip_full P K salt hlen hsalt rndSalt

theorem c1_codec_roundtrip_witness :
    ([1, 2, 3, 4, 5, 6, 7, 8] : List Nat).length = 8 ∧
    (∀ b ∈ ([1, 2, 3, 4, 5, 6, 7, 8] : List Nat), b < 256) ∧
    (aesDecode [] (aesEncode "hi" "pw" [1, 2, 3, 4, 5, 6, 7, 8]) "pw" =
        Except.ok "hi" ∧
      ((base64Parse (aesEncode "hi" "pw" [1, 2, 3, 4, 5, 6, 7, 8])).drop 8).take 8 =
        [1, 2, 3, 4, 5, 6, 7, 8]) :=
  ⟨by decide, by decide,
    c1_codec_roundtrip "hi" "pw" [1, 2, 3, 4, 5, 6, 7, 8] (by decide) (by decide) []⟩

set_option maxRecDepth 1000000 in
set_option maxHeartbeats 2000000 in
/-- C5 counterexample: the decrypt pass is not idempotent on already
rewritten nodes.  A message whose decrypted plaintext itself begins and ends
with the marker character `§` is rewritten by the first pass to that
plaintext, which the second pass picks up again and (since its inner part is
not a valid transport string) rewrites to the fallback text, changing the
node a second time. -/
theorem c5_counterexample :
    decryptMessagesPass (fun s => aesDecode [] s "pw") []
        (decryptMessagesPass (fun s => aesDecode [] s "pw") []
          [("§" ++ aesEncode "§b§" "pw" [1, 2, 3, 4, 5, 6, 7, 8] ++ "§", "cls")]) ≠
      decryptMessagesPass (fun s => aesDecode [] s "pw") []
        [("§" ++ aesEncode "§b§" "pw" [1, 2, 3, 4, 5, 6, 7, 8] ++ "§", "cls")] := by
  decide

end XKR
